import Mathlib

/-!
# GEMCSCAnalyzer: per-track, per-station matching records

A shallow embedding of `GEMValidation/plugins/GEMCSCAnalyzer.cc`: the per-station record
`MyTrackEff`, its `init`, the geometry index `detIdToMEStation`, the track selector
`isSimTrackGood` and the feature aggregator `analyzeTrackEff`.

Conventions of the embedding.
* `Int_t`, `Char_t` and C++ `int` are `Int`; `UInt_t` and `unsigned int` are `Nat`;
  `Bool_t` is `Bool`; `Float_t`, `float` and `double` are `Float_t`, an exact rational or NaN.
* `x |= b` on a `Char_t` member is `Int.lor x b`, `x & b` is `Int.land x b`.
* The recurring statement pair `if (odd) r.f_odd = v; else r.f_even = v;` is one assignment
  to the member `if odd then f_odd else f_even` (`setIP`, `setFP`), and
  `if (odd) r.f |= 1; else r.f |= 2;` is `r.f |= (if odd then 1 else 2)` (`orCP`).
* `MyTrackEff` is the map from its member names to their values, one map per member type;
  an assignment `r.f = v` is the pointwise update of the map at the name `f`.
* The matcher objects (`SimTrackMatchManager` and what it hands out) are external: the
  embedding takes them as a structure of query results.
-/

set_option maxRecDepth 100000

namespace GEMCode

/-! ## Numbers -/

/-- Value of a C++ floating-point variable: an exact rational number or NaN. -/
inductive Float_t where
  | num (q : ℚ)
  | nan
deriving DecidableEq

namespace Float_t

instance (n : Nat) : OfNat Float_t n := ⟨Float_t.num n⟩

/-- Unary minus; NaN stays NaN. -/
def neg : Float_t → Float_t
  | num q => num (-q)
  | nan => nan

instance : Neg Float_t := ⟨neg⟩

/-- Subtraction; NaN is absorbing. -/
def sub : Float_t → Float_t → Float_t
  | num a, num b => num (a - b)
  | _, _ => nan

instance : Sub Float_t := ⟨sub⟩

/-- The C++ `std::abs` / `fabs`. -/
def abs : Float_t → Float_t
  | num q => num (|q|)
  | nan => nan

/-- The C++ `a < b`: false as soon as one side is NaN. -/
def lt : Float_t → Float_t → Bool
  | num a, num b => decide (a < b)
  | _, _ => false

/-- The C++ `a > b`. -/
def gt (a b : Float_t) : Bool := lt b a

/-- The C++ `isnan`. -/
def isnan : Float_t → Bool
  | num _ => false
  | nan => true

end Float_t

/-! ## The per-station record `MyTrackEff` -/

/-- Names of the Int_t members of MyTrackEff, in declaration order. -/
inductive IntField where
  | lumi | run | event | bend_lct_odd | bend_lct_even | bx_lct_odd | bx_lct_even | wiregroup_odd
  | wiregroup_even | halfstrip_odd | halfstrip_even | quality_clct_odd | quality_clct_even
  | quality_alct_odd | quality_alct_even | nlayers_csc_sh_odd | nlayers_wg_dg_odd
  | nlayers_st_dg_odd | nlayers_csc_sh_even | nlayers_wg_dg_even | nlayers_st_dg_even | pad_odd
  | pad_even | Copad_odd | Copad_even | hsfromgem_odd | hsfromgem_even | strip_gemdg_odd
  | strip_gemdg_even | strip_rpcdg_odd | strip_rpcdg_even | bx_pad_odd | bx_pad_even
  | quality_odd | quality_even | hsfromrpc_odd | hsfromrpc_even | bx_rpcstrip_odd
  | bx_rpcstrip_even | has_tfTrack | has_tfCand | has_gmtRegCand | has_gmtCand | ME1_ring
  | ME2_ring | ME1_hs | ME2_hs | ME1_wg | ME2_wg | has_l1Extra | has_recoTrackExtra
  | has_recoTrack | has_recoChargedCandidate | recoChargedCandidate_nValidCSCHits
  | recoChargedCandidate_nValidRPCHits | recoChargedCandidate_nValidDTHits
deriving DecidableEq, Repr

/-- Names of the UInt_t members of MyTrackEff, in declaration order. -/
inductive UIntField where
  | quality_packed | pt_packed | eta_packed | phi_packed | chargesign | rank | nstubs
  | deltaphi12 | deltaphi23
deriving DecidableEq, Repr

/-- Names of the Char_t members of MyTrackEff, in declaration order. -/
inductive CharField where
  | charge | endcap | chamber_ME1_csc_sh | chamber_ME2_csc_sh | chamber_odd | chamber_even
  | has_csc_sh | has_csc_strips | has_csc_wires | has_clct | has_alct | has_lct | has_gem_sh
  | has_gem_sh2 | has_gem_dg | has_gem_dg2 | has_gem_pad | has_gem_pad2 | has_gem_copad
  | has_rpc_sh | has_rpc_dg | chamberME1 | chamberME2
deriving DecidableEq, Repr

/-- Names of the Bool_t members of MyTrackEff, in declaration order. -/
inductive BoolField where
  | passdphi_odd | passdphi_even | hasME1 | hasME2 | passGE11 | passGE21 | passGE11_pt5
  | passGE11_pt7 | passGE11_pt10 | passGE11_pt15 | passGE11_pt20 | passGE11_pt30 | passGE11_pt40
  | passGE21_pt5 | passGE21_pt7 | passGE21_pt10 | passGE21_pt15 | passGE21_pt20 | passGE21_pt30
  | passGE21_pt40 | passGE11_simpt | passGE21_simpt | allstubs_matched_TF | hasSt1St2St3
  | hasSt1St2St3_sh
deriving DecidableEq, Repr

/-- Names of the Float_t members of MyTrackEff, in declaration order. -/
inductive FloatField where
  | pt | eta | phi | bending_sh | phi_cscsh_even | phi_cscsh_odd | eta_cscsh_even | eta_cscsh_odd
  | dphi_sh_even | dphi_sh_odd | pt_sh | ptphi_sh | pteta_sh | hs_lct_odd | wg_lct_odd
  | hs_lct_even | wg_lct_even | phi_lct_odd | phi_lct_even | eta_lct_odd | eta_lct_even
  | dphi_lct_odd | dphi_lct_even | strip_gemsh_odd | strip_gemsh_even | eta_gemsh_odd
  | eta_gemsh_even | phi_gemsh_odd | phi_gemsh_even | phi_pad_odd | phi_pad_even | eta_pad_odd
  | eta_pad_even | dphi_pad_odd | dphi_pad_even | deta_pad_odd | deta_pad_even | phi_rpcstrip_odd
  | phi_rpcstrip_even | eta_rpcstrip_odd | eta_rpcstrip_even | dphi_rpcstrip_odd
  | dphi_rpcstrip_even | deta_rpcstrip_odd | deta_rpcstrip_even | trackpt | tracketa | trackphi
  | dphiGE11 | dphiGE21 | deltaR | lctdphi12 | eta_propagated_ME1 | eta_propagated_ME2
  | eta_propagated_ME3 | eta_propagated_ME4 | phi_propagated_ME1 | phi_propagated_ME2
  | phi_propagated_ME3 | phi_propagated_ME4 | eta_ME1_TF | eta_ME2_TF | eta_ME3_TF | eta_ME4_TF
  | phi_ME1_TF | phi_ME2_TF | phi_ME3_TF | phi_ME4_TF | eta_interStat12 | phi_interStat12
  | eta_interStat23 | phi_interStat23 | eta_interStat13 | phi_interStat13 | l1Extra_pt
  | l1Extra_eta | l1Extra_phi | l1Extra_dR | recoTrackExtra_pt_inner | recoTrackExtra_eta_inner
  | recoTrackExtra_phi_inner | recoTrackExtra_pt_outer | recoTrackExtra_eta_outer
  | recoTrackExtra_phi_outer | recoTrack_pt_outer | recoTrack_eta_outer | recoTrack_phi_outer
  | recoChargedCandidate_pt | recoChargedCandidate_eta | recoChargedCandidate_phi
  | pt_position_sh | pt_position | pt_position2
deriving DecidableEq, Repr

/-- The C++ `struct MyTrackEff`: every member, keyed by its name. -/
structure MyTrackEff where
  int_ : IntField → Int
  uint_ : UIntField → Nat
  char_ : CharField → Int
  bool_ : BoolField → Bool
  float_ : FloatField → Float_t

namespace MyTrackEff

/-- Assignment `r.f = v` to an `Int_t` member. -/
def setI (r : MyTrackEff) (f : IntField) (v : Int) : MyTrackEff :=
  { r with int_ := fun g => if g = f then v else r.int_ g }

/-- Assignment `r.f = v` to a `UInt_t` member. -/
def setU (r : MyTrackEff) (f : UIntField) (v : Nat) : MyTrackEff :=
  { r with uint_ := fun g => if g = f then v else r.uint_ g }

/-- Assignment `r.f = v` to a `Char_t` member. -/
def setC (r : MyTrackEff) (f : CharField) (v : Int) : MyTrackEff :=
  { r with char_ := fun g => if g = f then v else r.char_ g }

/-- Assignment `r.f = v` to a `Bool_t` member. -/
def setB (r : MyTrackEff) (f : BoolField) (v : Bool) : MyTrackEff :=
  { r with bool_ := fun g => if g = f then v else r.bool_ g }

/-- Assignment `r.f = v` to a `Float_t` member. -/
def setF (r : MyTrackEff) (f : FloatField) (v : Float_t) : MyTrackEff :=
  { r with float_ := fun g => if g = f then v else r.float_ g }

/-- Compound assignment `r.f |= b` on a `Char_t` bit mask. -/
def orC (r : MyTrackEff) (f : CharField) (b : Int) : MyTrackEff :=
  r.setC f (Int.lor (r.char_ f) b)

/-- The C++ `MyTrackEff::init()`: the assignments of the source, in source order. -/
def init (r : MyTrackEff) : MyTrackEff :=
  let r := r.setI .lumi (-99)
  let r := r.setI .run (-99)
  let r := r.setI .event (-99)
  let r := r.setF .pt 0
  let r := r.setF .phi 0
  let r := r.setF .eta (-9)
  let r := r.setC .charge (-9)
  let r := r.setC .endcap (-9)
  let r := r.setC .chamber_ME1_csc_sh 0
  let r := r.setC .chamber_ME2_csc_sh 0
  let r := r.setC .chamber_odd 0
  let r := r.setC .chamber_even 0
  let r := r.setI .quality_odd 0
  let r := r.setI .quality_even 0
  let r := r.setF .bending_sh (-10)
  let r := r.setF .phi_cscsh_even (-9)
  let r := r.setF .phi_cscsh_odd (-9)
  let r := r.setF .eta_cscsh_even (-9)
  let r := r.setF .eta_cscsh_odd (-9)
  let r := r.setF .pt_sh (-9)
  let r := r.setF .pteta_sh 0
  let r := r.setF .ptphi_sh (-9)
  let r := r.setC .has_csc_sh 0
  let r := r.setC .has_csc_strips 0
  let r := r.setC .has_csc_wires 0
  let r := r.setC .has_alct 0
  let r := r.setC .has_clct 0
  let r := r.setC .has_lct 0
  let r := r.setI .bend_lct_odd (-9)
  let r := r.setI .bend_lct_even (-9)
  let r := r.setI .bx_lct_odd (-9)
  let r := r.setI .bx_lct_even (-9)
  let r := r.setF .hs_lct_odd 0
  let r := r.setF .hs_lct_even 0
  let r := r.setF .wg_lct_odd 0
  let r := r.setF .wg_lct_even 0
  let r := r.setF .phi_lct_odd (-9)
  let r := r.setF .phi_lct_even (-9)
  let r := r.setF .eta_lct_odd (-9)
  let r := r.setF .eta_lct_even (-9)
  let r := r.setF .dphi_lct_odd (-9)
  let r := r.setF .dphi_lct_even (-9)
  let r := r.setB .passdphi_odd false
  let r := r.setB .passdphi_even false
  let r := r.setI .wiregroup_odd (-1)
  let r := r.setI .wiregroup_even (-1)
  let r := r.setI .halfstrip_odd (-1)
  let r := r.setI .halfstrip_even (-1)
  let r := r.setI .quality_clct_odd (-1)
  let r := r.setI .quality_clct_even (-1)
  let r := r.setI .quality_alct_odd (-1)
  let r := r.setI .quality_alct_even (-1)
  let r := r.setI .nlayers_csc_sh_odd (-1)
  let r := r.setI .nlayers_wg_dg_odd (-1)
  let r := r.setI .nlayers_st_dg_odd (-1)
  let r := r.setI .nlayers_csc_sh_even (-1)
  let r := r.setI .nlayers_wg_dg_even (-1)
  let r := r.setI .nlayers_st_dg_even (-1)
  let r := r.setI .pad_odd (-1)
  let r := r.setI .pad_even (-1)
  let r := r.setI .Copad_odd (-1)
  let r := r.setI .Copad_even (-1)
  let r := r.setI .hsfromgem_odd (-1)
  let r := r.setI .hsfromgem_even (-1)
  let r := r.setC .has_gem_sh 0
  let r := r.setC .has_gem_sh2 0
  let r := r.setC .has_gem_dg 0
  let r := r.setC .has_gem_dg2 0
  let r := r.setC .has_gem_pad 0
  let r := r.setC .has_gem_pad2 0
  let r := r.setC .has_gem_copad 0
  let r := r.setF .strip_gemsh_odd (-9)
  let r := r.setF .strip_gemsh_even (-9)
  let r := r.setF .eta_gemsh_odd (-9)
  let r := r.setF .eta_gemsh_even (-9)
  let r := r.setF .phi_gemsh_odd (-9)
  let r := r.setF .phi_gemsh_even (-9)
  let r := r.setF .dphi_sh_odd (-9)
  let r := r.setF .dphi_sh_even (-9)
  let r := r.setI .strip_gemdg_odd (-9)
  let r := r.setI .strip_gemdg_even (-9)
  let r := r.setC .has_rpc_sh 0
  let r := r.setC .has_rpc_dg 0
  let r := r.setI .strip_rpcdg_odd (-1)
  let r := r.setI .strip_rpcdg_even (-1)
  let r := r.setI .hsfromrpc_odd 0
  let r := r.setI .hsfromrpc_even 0
  let r := r.setI .bx_pad_odd (-9)
  let r := r.setI .bx_pad_even (-9)
  let r := r.setF .phi_pad_odd (-9)
  let r := r.setF .phi_pad_even (-9)
  let r := r.setF .eta_pad_odd (-9)
  let r := r.setF .eta_pad_even (-9)
  let r := r.setF .dphi_pad_odd (-9)
  let r := r.setF .dphi_pad_even (-9)
  let r := r.setF .deta_pad_odd (-9)
  let r := r.setF .deta_pad_even (-9)
  let r := r.setI .bx_rpcstrip_odd (-9)
  let r := r.setI .bx_rpcstrip_even (-9)
  let r := r.setF .phi_rpcstrip_odd (-9)
  let r := r.setF .phi_rpcstrip_even (-9)
  let r := r.setF .eta_rpcstrip_odd (-9)
  let r := r.setF .eta_rpcstrip_even (-9)
  let r := r.setF .dphi_rpcstrip_odd (-9)
  let r := r.setF .dphi_rpcstrip_even (-9)
  let r := r.setF .deta_rpcstrip_odd (-9)
  let r := r.setF .deta_rpcstrip_even (-9)
  let r := r.setI .has_tfTrack (-99)
  let r := r.setI .has_tfCand (-99)
  let r := r.setI .has_gmtRegCand (-99)
  let r := r.setI .has_gmtCand (-99)
  let r := r.setF .trackpt 0
  let r := r.setF .tracketa 0
  let r := r.setF .trackphi (-9)
  let r := r.setU .quality_packed 0
  let r := r.setU .pt_packed 0
  let r := r.setU .eta_packed 0
  let r := r.setU .phi_packed 0
  let r := r.setI .ME1_hs (-1)
  let r := r.setI .ME1_wg (-1)
  let r := r.setI .ME2_hs (-1)
  let r := r.setI .ME2_wg (-1)
  let r := r.setU .chargesign 99
  let r := r.setU .rank 0
  let r := r.setU .deltaphi12 0
  let r := r.setU .deltaphi23 0
  let r := r.setB .hasME1 false
  let r := r.setB .hasME2 false
  let r := r.setI .ME1_ring (-1)
  let r := r.setI .ME2_ring (-1)
  let r := r.setC .chamberME1 0
  let r := r.setC .chamberME2 0
  let r := r.setF .dphiGE11 (-99)
  let r := r.setF .dphiGE21 (-99)
  let r := r.setB .passGE11 false
  let r := r.setB .passGE11_pt5 false
  let r := r.setB .passGE11_pt7 false
  let r := r.setB .passGE11_pt10 false
  let r := r.setB .passGE11_pt15 false
  let r := r.setB .passGE11_pt20 false
  let r := r.setB .passGE11_pt30 false
  let r := r.setB .passGE11_pt40 false
  let r := r.setB .passGE21 false
  let r := r.setB .passGE21_pt5 false
  let r := r.setB .passGE21_pt7 false
  let r := r.setB .passGE21_pt10 false
  let r := r.setB .passGE21_pt15 false
  let r := r.setB .passGE21_pt20 false
  let r := r.setB .passGE21_pt30 false
  let r := r.setB .passGE21_pt40 false
  let r := r.setB .passGE11_simpt false
  let r := r.setB .passGE21_simpt false
  let r := r.setU .nstubs 0
  let r := r.setF .deltaR 10
  let r := r.setF .lctdphi12 (-99)
  let r := r.setF .eta_propagated_ME1 (-9)
  let r := r.setF .eta_propagated_ME2 (-9)
  let r := r.setF .eta_propagated_ME3 (-9)
  let r := r.setF .eta_propagated_ME4 (-9)
  let r := r.setF .phi_propagated_ME1 (-9)
  let r := r.setF .phi_propagated_ME2 (-9)
  let r := r.setF .phi_propagated_ME3 (-9)
  let r := r.setF .phi_propagated_ME4 (-9)
  let r := r.setF .eta_ME1_TF (-9)
  let r := r.setF .eta_ME2_TF (-9)
  let r := r.setF .eta_ME3_TF (-9)
  let r := r.setF .eta_ME4_TF (-9)
  let r := r.setF .phi_ME1_TF (-9)
  let r := r.setF .phi_ME2_TF (-9)
  let r := r.setF .phi_ME3_TF (-9)
  let r := r.setF .phi_ME4_TF (-9)
  let r := r.setF .eta_interStat12 (-9)
  let r := r.setF .phi_interStat12 (-9)
  let r := r.setF .eta_interStat23 (-9)
  let r := r.setF .phi_interStat23 (-9)
  let r := r.setF .eta_interStat13 (-9)
  let r := r.setF .phi_interStat13 (-9)
  let r := r.setB .allstubs_matched_TF false
  let r := r.setI .has_l1Extra 0
  let r := r.setF .l1Extra_pt (-99)
  let r := r.setF .l1Extra_eta (-99)
  let r := r.setF .l1Extra_phi (-99)
  let r := r.setF .l1Extra_dR (-99)
  let r := r.setI .has_recoTrackExtra 0
  let r := r.setF .recoTrackExtra_pt_inner (-99)
  let r := r.setF .recoTrackExtra_eta_inner (-99)
  let r := r.setF .recoTrackExtra_phi_inner (-99)
  let r := r.setF .recoTrackExtra_pt_outer (-99)
  let r := r.setF .recoTrackExtra_eta_outer (-99)
  let r := r.setF .recoTrackExtra_phi_outer (-99)
  let r := r.setI .has_recoTrack 0
  let r := r.setF .recoTrack_pt_outer (-99)
  let r := r.setF .recoTrack_eta_outer (-99)
  let r := r.setF .recoTrack_phi_outer (-99)
  let r := r.setI .has_recoChargedCandidate 0
  let r := r.setF .recoChargedCandidate_pt (-99)
  let r := r.setF .recoChargedCandidate_eta (-99)
  let r := r.setF .recoChargedCandidate_phi (-99)
  let r := r.setI .recoChargedCandidate_nValidDTHits 0
  let r := r.setI .recoChargedCandidate_nValidCSCHits 0
  let r := r.setI .recoChargedCandidate_nValidRPCHits 0
  let r := r.setF .pt_position_sh (-1)
  let r := r.setF .pt_position (-1)
  let r := r.setF .pt_position2 (-1)
  let r := r.setB .hasSt1St2St3 false
  let r := r.setB .hasSt1St2St3_sh false
  r

end MyTrackEff

/-! ## Geometry index -/

/-- The "signed" LCT bend pattern table of the source. -/
def LCT_BEND_PATTERN : List Int := [-99, -5, 4, -4, 3, -3, 2, -2, 1, -1, 0]

/-- The table `cscStationsCo_` as the constructor of `GEMCSCAnalyzer` fills it. -/
def cscStationsCo_ : List (Int × Int) :=
  [(-99, -99), (1, -99), (1, 4), (1, 1), (1, 2), (1, 3),
   (2, 1), (2, 2), (3, 1), (3, 2), (4, 1), (4, 2)]

/-- The C++ `GEMCSCAnalyzer::detIdToMEStation`: `std::find` over the table minus `begin()`,
that is the position of the first match, or the table length when there is none. -/
def detIdToMEStation (st ri : Int) : Int :=
  let p : Int × Int := (st, ri)
  (cscStationsCo_.findIdx (fun q => decide (q = p)) : Nat)

/-! ## External collaborators -/

/-- Decoded CSC detector id (`CSCDetId`); a chamber id has `layer = 0`. -/
structure CSCDetId where
  endcap : Int
  station : Int
  ring : Int
  chamber : Int
  layer : Int := 0
deriving DecidableEq

/-- Decoded GEM detector id (`GEMDetId`), in the argument order of its constructor. -/
structure GEMDetId where
  region : Int
  ring : Int
  station : Int
  layer : Int
  chamber : Int
  roll : Int
deriving DecidableEq

/-- Raw detector id as the matchers receive it: it decodes to exactly one typed id. -/
inductive DetId where
  | csc (id : CSCDetId)
  | gem (id : GEMDetId)
deriving DecidableEq

/-- The C++ `id.rawId()` of a CSC id. -/
def CSCDetId.rawId (id : CSCDetId) : DetId := DetId.csc id

/-- The C++ `id.rawId()` of a GEM id. -/
def GEMDetId.rawId (id : GEMDetId) : DetId := DetId.gem id

/-- External `GlobalPoint`: the coordinates the analyzer reads from it. -/
structure GlobalPoint where
  eta : Float_t
  phi : Float_t
  z : Float_t
deriving DecidableEq

/-- The default-constructed `GlobalPoint()`. -/
def GlobalPoint.origin : GlobalPoint := { eta := 0, phi := 0, z := 0 }

/-- External `GlobalVector`: the coordinates the analyzer reads from it. -/
structure GlobalVector where
  eta : Float_t
  phi : Float_t
  perp : Float_t
deriving DecidableEq

/-- Handle of one simulated hit (`PSimHit`); the analyzer only counts them and hands
lists of them back to the matcher. -/
structure PSimHit where
  handle : Nat
deriving DecidableEq

/-- Modelled from the spec: the trigger-primitive tuple `Digi` of `Helpers.h` (not among the
sources), carrying channel, timing, quality, pattern code, wire group and stored dphi,
with `valid = false` for the value `make_digi()` returns. -/
structure Digi where
  valid : Bool
  channel : Int
  bx : Int
  quality : Int
  pattern : Int
  wg : Int
  dphi : Float_t
deriving DecidableEq

/-- Modelled from the spec: `make_digi()` of `Helpers.h`, the invalid placeholder digi. -/
def make_digi : Digi :=
  { valid := false, channel := 0, bx := 0, quality := 0, pattern := 0, wg := 0, dphi := 0 }

/-- Modelled from the spec: `is_valid` of `Helpers.h`. -/
def is_valid (d : Digi) : Bool := d.valid

/-- Accessor `digi_channel` of `Helpers.h`. -/
def digi_channel (d : Digi) : Int := d.channel

/-- Accessor `digi_bx` of `Helpers.h`. -/
def digi_bx (d : Digi) : Int := d.bx

/-- Accessor `digi_quality` of `Helpers.h`. -/
def digi_quality (d : Digi) : Int := d.quality

/-- Accessor `digi_pattern` of `Helpers.h`. -/
def digi_pattern (d : Digi) : Int := d.pattern

/-- Accessor `digi_wg` of `Helpers.h`. -/
def digi_wg (d : Digi) : Int := d.wg

/-- Accessor `digi_dphi` of `Helpers.h`. -/
def digi_dphi (d : Digi) : Float_t := d.dphi

/-- The truth track (`SimTrack`) as the analyzer reads it. -/
structure SimTrack where
  noVertex : Bool
  noGenpart : Bool
  type : Int
  pt : Float_t
  eta : Float_t
  phi : Float_t
  charge : Int

/-- One stub of a track-finder track (`CSCCorrelatedLCTDigi`). -/
structure TriggerDigi where
  getGEMDPhi : Float_t
  getStrip : Int
  getKeyWG : Int

/-- External `TFTrack` as the analyzer reads it. -/
structure TFTrack where
  pt : Float_t
  eta : Float_t
  phi : Float_t
  ptPacked : Nat
  etaPacked : Nat
  phiPacked : Nat
  qPacked : Nat
  dPhi12 : Nat
  dPhi23 : Nat
  hasStubEndcap : Int → Bool
  nStubs : Nat
  dr : Float_t
  chargesign : Nat
  digiInME : Int → Int → Nat
  getTriggerDigis : List TriggerDigi
  getTriggerDigisIds : List CSCDetId
  getTriggerEtaPhis : List (Float_t × Float_t)
  passDPhicutTFTrack : Int → Float_t → Bool

/-- Matched L1Extra muon particle. -/
structure L1Extra where
  pt : Float_t
  eta : Float_t
  phi : Float_t

/-- Matched `reco::TrackExtra`. -/
structure RecoTrackExtra where
  innerMomentumRho : Float_t
  innerPosition : GlobalPoint
  outerMomentumRho : Float_t
  outerPosition : GlobalPoint

/-- Matched `reco::Track`. -/
structure RecoTrack where
  outerPt : Float_t
  outerEta : Float_t
  outerPhi : Float_t

/-- Matched `reco::RecoChargedCandidate`. -/
structure RecoChargedCandidate where
  pt : Float_t
  eta : Float_t
  phi : Float_t
  numberOfValidMuonDTHits : Int
  numberOfValidMuonCSCHits : Int
  numberOfValidMuonRPCHits : Int

/-- The Match Source Adapters of one truth track (`SimTrackMatchManager` and the matchers
it hands out): every query `analyzeTrackEff` makes, with the id sets given as lists in
iteration order. -/
structure SimTrackMatchManager where
  -- event id and track
  run : Int
  luminosityBlock : Int
  event : Int
  trk : SimTrack
  -- SimHitMatcher
  chamberIdsCSC : List CSCDetId
  superChamberIdsGEM : List GEMDetId
  nLayersWithHitsInSuperChamber : DetId → Int
  hitsInChamber : DetId → List PSimHit
  hitsInDetId : DetId → List PSimHit
  hitsInSuperChamber : DetId → List PSimHit
  simHitsMeanMomentum : List PSimHit → GlobalVector
  simHitsMeanPosition : List PSimHit → GlobalPoint
  simHitsMeanStrip : List PSimHit → Float_t
  LocalBendingInChamber : DetId → Float_t
  -- CSCDigiMatcher
  chamberIdsStrip : List CSCDetId
  chamberIdsWire : List CSCDetId
  nLayersWithStripInChamber : DetId → Int
  nLayersWithWireInChamber : DetId → Int
  -- CSCStubMatcher
  chamberIdsCLCT : List CSCDetId
  chamberIdsALCT : List CSCDetId
  chamberIdsLCT : List CSCDetId
  clctInChamber : DetId → Digi
  alctInChamber : DetId → Digi
  lctInChamber : DetId → Digi
  digiPosition : Digi → GlobalPoint
  passDPhicut : CSCDetId → Int → Float_t → Float_t → Bool
  checkStubInChamber : CSCDetId → TriggerDigi → Bool
  -- GEMDigiMatcher
  superChamberIdsDigi : List GEMDetId
  superChamberIdsCoPad : List GEMDetId
  nLayersWithDigisInSuperChamber : DetId → Int
  nLayersWithPadsInSuperChamber : DetId → Int
  digisInSuperChamber : DetId → List Digi
  median : List Digi → Int
  padsInChamber : DetId → List Digi
  coPadsInSuperChamber : DetId → List Digi
  extrapolateHsfromGEMPad : DetId → Int → Int
  digiInGEMClosestToCSC : List Digi → GlobalPoint → Digi × GlobalPoint
  -- TrackMatcher
  simTrackPropagateGPs_odd : List (Float_t × Float_t)
  simTrackPropagateGPs_even : List (Float_t × Float_t)
  interStatPropagation_odd : Int → GlobalPoint
  interStatPropagation_even : Int → GlobalPoint
  tfTracks_size : Nat
  bestTFTrack : TFTrack
  tfCands_size : Nat
  gmtRegCands_size : Nat
  gmtCands_size : Nat
  -- L1GlobalMuonTriggerMatcher and HLTTrackMatcher
  getMatchedL1ExtraMuonParticles : List (L1Extra × Float_t)
  getMatchedRecoTrackExtras : List RecoTrackExtra
  getMatchedRecoTracks : List RecoTrack
  getMatchedRecoChargedCandidates : List RecoChargedCandidate

/-- Free functions of headers that are not among the sources: `deltaPhi` of
`DataFormats/Math` and `Ptassign_Position_gp` of `Ptassignment.h`. -/
structure Externals where
  deltaPhi : Float_t → Float_t → Float_t
  Ptassign_Position_gp : GlobalPoint → GlobalPoint → GlobalPoint → Float_t → Int → Float_t

/-- The configuration members of `GEMCSCAnalyzer` that the modelled functions read.
`stations_to_use_` is the `std::set<int>` in iteration order; `simTrackOnlyMuon_` is the
`double` member holding the boolean parameter `onlyMuon`. -/
structure GEMCSCAnalyzer where
  simTrackMinPt_ : Float_t
  simTrackMinEta_ : Float_t
  simTrackMaxEta_ : Float_t
  simTrackOnlyMuon_ : Bool
  bendingcutPt_ : Float_t
  ntupleTrackChamberDelta_ : Bool
  ntupleTrackEff_ : Bool
  stations_to_use_ : List Int
  minNHitsChamberCSCSimHit_ : Int
  minNHitsChamberCSCWireDigi_ : Int
  minNHitsChamberCSCStripDigi_ : Int
  minNHitsChamberCLCT_ : Int
  minNHitsChamberALCT_ : Int
  minNHitsChamberLCT_ : Int
  minNHitsChamberMPLCT_ : Int

/-- The C++ `stations_to_use_.count(st)`. -/
def GEMCSCAnalyzer.count (a : GEMCSCAnalyzer) (st : Int) : Nat :=
  if st ∈ a.stations_to_use_ then 1 else 0

/-! ## Track selector -/

/-- The C++ `GEMCSCAnalyzer::isSimTrackGood`. -/
def isSimTrackGood (a : GEMCSCAnalyzer) (t : SimTrack) : Bool :=
  if t.noVertex then false
  else if t.noGenpart then false
  else if (decide (|t.type| ≠ 13)) && a.simTrackOnlyMuon_ then false
  else if Float_t.lt t.pt a.simTrackMinPt_ then false
  else
    let eta := Float_t.abs t.eta
    if Float_t.gt eta a.simTrackMaxEta_ || Float_t.lt eta a.simTrackMinEta_ then false
    else true

/-! ## Aggregation state -/

/-- One invocation of the external estimator `Ptassign_Position_gp`, with its arguments. -/
structure PtCall where
  gp1 : GlobalPoint
  gp2 : GlobalPoint
  gp3 : GlobalPoint
  eta : Float_t
  npar : Int
deriving DecidableEq

/-- What `analyzeTrackEff` mutates: the member array `etrk_` and its local arrays, each
indexed by the station index, plus the log of the calls made to the external estimator
(a ghost member: the source keeps no such log). -/
structure State where
  etrk_ : Int → MyTrackEff
  gp_sh_odd : Int → GlobalPoint
  gp_sh_even : Int → GlobalPoint
  lct_odd : Int → Digi
  lct_even : Int → Digi
  gp_lct_odd : Int → GlobalPoint
  gp_lct_even : Int → GlobalPoint
  best_pad_odd : Int → GlobalPoint
  best_pad_even : Int → GlobalPoint
  ptCalls : List PtCall

/-- Array element assignment `g[i] = v`. -/
def upd {α : Type} (g : Int → α) (i : Int) (v : α) : Int → α :=
  fun j => if j = i then v else g j

/-- The C++ `%` on `int`: the remainder of the division truncated towards zero. -/
def cmod (p q : Int) : Int := Int.tmod p q

namespace State

/-- Update of the record `etrk_[i]`. -/
def modify (s : State) (i : Int) (f : MyTrackEff → MyTrackEff) : State :=
  { s with etrk_ := upd s.etrk_ i (f (s.etrk_ i)) }

/-- The statement `etrk_[i].f = v` for an `Int_t` member. -/
@[simp] def setI (s : State) (i : Int) (f : IntField) (v : Int) : State :=
  s.modify i (fun r => r.setI f v)

/-- The statement `etrk_[i].f = v` for a `UInt_t` member. -/
@[simp] def setU (s : State) (i : Int) (f : UIntField) (v : Nat) : State :=
  s.modify i (fun r => r.setU f v)

/-- The statement `etrk_[i].f = v` for a `Char_t` member. -/
@[simp] def setC (s : State) (i : Int) (f : CharField) (v : Int) : State :=
  s.modify i (fun r => r.setC f v)

/-- The statement `etrk_[i].f = v` for a `Bool_t` member. -/
@[simp] def setB (s : State) (i : Int) (f : BoolField) (v : Bool) : State :=
  s.modify i (fun r => r.setB f v)

/-- The statement `etrk_[i].f = v` for a `Float_t` member. -/
@[simp] def setF (s : State) (i : Int) (f : FloatField) (v : Float_t) : State :=
  s.modify i (fun r => r.setF f v)

/-- The statement `etrk_[i].f |= b`. -/
@[simp] def orC (s : State) (i : Int) (f : CharField) (b : Int) : State :=
  s.modify i (fun r => r.orC f b)

/-- The statement pair `if (odd) etrk_[i].fo = v; else etrk_[i].fe = v;` on `Int_t`
members. -/
@[simp] def setIP (s : State) (i : Int) (odd : Bool) (fo fe : IntField) (v : Int) : State :=
  s.setI i (if odd then fo else fe) v

/-- The statement pair `if (odd) etrk_[i].fo = v; else etrk_[i].fe = v;` on `Float_t`
members. -/
@[simp] def setFP (s : State) (i : Int) (odd : Bool) (fo fe : FloatField) (v : Float_t) : State :=
  s.setF i (if odd then fo else fe) v

/-- The statement pair `if (odd) etrk_[i].f |= 1; else etrk_[i].f |= 2;`. -/
@[simp] def orCP (s : State) (i : Int) (odd : Bool) (f : CharField) : State :=
  s.orC i f (if odd then 1 else 2)

/-- The statement pair `if (odd) gp_sh_odd[i] = gp; else gp_sh_even[i] = gp;`. -/
def setGpSh (s : State) (i : Int) (odd : Bool) (gp : GlobalPoint) : State :=
  if odd then { s with gp_sh_odd := upd s.gp_sh_odd i gp }
  else { s with gp_sh_even := upd s.gp_sh_even i gp }

end State

/-! ## Feature aggregator: CSC categories -/

/-- The record re-initialisation loop at the head of `analyzeTrackEff`, one station. -/
def initStation (m : SimTrackMatchManager) (s : State) (i : Int) : State :=
  let t := m.trk
  let s := s.modify i (fun r => r.init)
  let s := s.setI i .run m.run
  let s := s.setI i .lumi m.luminosityBlock
  let s := s.setI i .event m.event
  let s := s.setF i .pt t.pt
  let s := s.setF i .phi t.phi
  let s := s.setF i .eta t.eta
  let s := s.setC i .charge t.charge
  s.setC i .endcap (if Float_t.gt ((s.etrk_ i).float_ .eta) 0 then 1 else -1)

/-- The key-layer loop `for (int layer=3; layer<5; layer++)` of the CSC sim-hit pass. -/
def cscKeyLayerLoop (m : SimTrackMatchManager) (id : CSCDetId) (st : Int) (odd : Bool) :
    List Int → State → State
  | [], s => s
  | layer :: rest, s =>
    let csckeyid : CSCDetId :=
      { endcap := id.endcap, station := id.station, ring := id.ring,
        chamber := id.chamber, layer := layer }
    let keygp := m.simHitsMeanPosition (m.hitsInDetId csckeyid.rawId)
    if (m.hitsInDetId csckeyid.rawId).length > 0 then
      let s := s.setFP st odd .eta_cscsh_odd .eta_cscsh_even keygp.eta
      let s := s.setFP st odd .phi_cscsh_odd .phi_cscsh_even keygp.phi
      if st = 2 ∨ st = 3 then
        let s := s.setFP 1 odd .eta_cscsh_odd .eta_cscsh_even keygp.eta
        let s := s.setFP 1 odd .phi_cscsh_odd .phi_cscsh_even keygp.phi
        s
      else s
    else cscKeyLayerLoop m id st odd rest s

/-- The layer count the CSC sim-hit pass works with: `nLayersWithHitsInSuperChamber(d)`,
plus, in "case ME11" (station 1, ring 1 or 4), the count of the chamber of the other ring
with the same endcap and chamber number when that chamber is in the id set. -/
def cscSimHitLayers (m : SimTrackMatchManager) (id : CSCDetId) : Int :=
  let d := id.rawId
  let nlayers := m.nLayersWithHitsInSuperChamber d
  if id.station = 1 ∧ (id.ring = 4 ∨ id.ring = 1) then
    let other_ring : Int := if id.ring = 4 then 1 else 4
    let co_id : CSCDetId :=
      { endcap := id.endcap, station := id.station, ring := other_ring,
        chamber := id.chamber }
    let rawId := co_id.rawId
    if rawId ∈ m.chamberIdsCSC.map CSCDetId.rawId then
      nlayers + m.nLayersWithHitsInSuperChamber rawId
    else nlayers
  else nlayers

/-- The four statements of the CSC sim-hit pass that note in record 0 the parity of the
station-1 and station-2 chambers with sim hits. -/
def cscSimHitSummary (id : CSCDetId) (s : State) : State :=
  let s := if id.station = 1 ∧ cmod id.chamber 2 = 1 then s.orC 0 .chamber_ME1_csc_sh 1 else s
  let s := if id.station = 1 ∧ cmod id.chamber 2 = 0 then s.orC 0 .chamber_ME1_csc_sh 2 else s
  let s := if id.station = 2 ∧ cmod id.chamber 2 = 1 then s.orC 0 .chamber_ME2_csc_sh 1 else s
  if id.station = 2 ∧ cmod id.chamber 2 = 0 then s.orC 0 .chamber_ME2_csc_sh 2 else s

/-- The statements of the CSC sim-hit pass after the layer gate: the features of the
chamber written into record `st` and, in "case ME11", into record 1. -/
def cscSimHitFill (m : SimTrackMatchManager) (id : CSCDetId) (st nlayers : Int)
    (s : State) : State :=
  let d := id.rawId
  let ym := m.simHitsMeanMomentum (m.hitsInChamber d)
  let gp := m.simHitsMeanPosition (m.hitsInChamber d)
  let s := s.setF st .pteta_sh ym.eta
  let s := s.setF st .ptphi_sh ym.phi
  let s := s.setF st .pt_sh ym.perp
  let s := s.setF st .bending_sh (m.LocalBendingInChamber d)
  let odd : Bool := decide (cmod id.chamber 2 = 1)
  let s := s.orCP st odd .has_csc_sh
  let s := s.setIP st odd .nlayers_csc_sh_odd .nlayers_csc_sh_even nlayers
  let s := s.setGpSh st odd gp
  let s := cscKeyLayerLoop m id st odd [3, 4] s
  -- case ME11
  if st = 2 ∨ st = 3 then
    let s := s.orCP 1 odd .has_csc_sh
    let s := s.setIP 1 odd .nlayers_csc_sh_odd .nlayers_csc_sh_even nlayers
    let s := s.setGpSh 1 odd gp
    let s := s.setF 1 .pt_sh ym.perp
    let s := s.setF 1 .pteta_sh ym.eta
    let s := s.setF 1 .ptphi_sh ym.phi
    s.setF 1 .bending_sh (m.LocalBendingInChamber d)
  else s

/-- Body of the loop over `match_sh.chamberIdsCSC(0)` (CSC sim hits): the station test,
the statements on record 0 (`cscSimHitSummary`), the layer count with the ME1/1 merge
(`cscSimHitLayers`; in the source its two halves stand around the statements on record
0), the layer gate and the feature assignments (`cscSimHitFill`). -/
def cscSimHitStep (a : GEMCSCAnalyzer) (m : SimTrackMatchManager) (s : State)
    (id : CSCDetId) : State :=
  let st := detIdToMEStation id.station id.ring
  if a.count st = 0 then s else
  let s := cscSimHitSummary id s
  let nlayers := cscSimHitLayers m id
  if nlayers < a.minNHitsChamberCSCSimHit_ then s else
  cscSimHitFill m id st nlayers s

/-- Body of the loop over `match_cd.chamberIdsStrip(0)` (CSC strip digis). -/
def cscStripStep (a : GEMCSCAnalyzer) (m : SimTrackMatchManager) (s : State)
    (id : CSCDetId) : State :=
  let d := id.rawId
  let st := detIdToMEStation id.station id.ring
  if a.count st = 0 then s else
  let nlayers := m.nLayersWithStripInChamber d
  if nlayers < a.minNHitsChamberCSCStripDigi_ then s else
  let odd : Bool := decide (cmod id.chamber 2 = 1)
  let s := s.orCP st odd .has_csc_strips
  let s := s.setIP st odd .nlayers_st_dg_odd .nlayers_st_dg_even nlayers
  -- case ME11
  if st = 2 ∨ st = 3 then
    let s := s.orCP 1 odd .has_csc_strips
    s.setIP 1 odd .nlayers_st_dg_odd .nlayers_st_dg_even nlayers
  else s

/-- Body of the loop over `match_cd.chamberIdsWire(0)` (CSC wire digis). -/
def cscWireStep (a : GEMCSCAnalyzer) (m : SimTrackMatchManager) (s : State)
    (id : CSCDetId) : State :=
  let d := id.rawId
  let st := detIdToMEStation id.station id.ring
  if a.count st = 0 then s else
  let nlayers := m.nLayersWithWireInChamber d
  if nlayers < a.minNHitsChamberCSCWireDigi_ then s else
  let odd : Bool := decide (cmod id.chamber 2 = 1)
  let s := s.orCP st odd .has_csc_wires
  let s := s.setIP st odd .nlayers_wg_dg_odd .nlayers_wg_dg_even nlayers
  -- case ME11
  if st = 2 ∨ st = 3 then
    let s := s.orCP 1 odd .has_csc_wires
    s.setIP 1 odd .nlayers_wg_dg_odd .nlayers_wg_dg_even nlayers
  else s

/-- Body of the loop over `match_lct.chamberIdsCLCT(0)` (CSC CLCTs). -/
def cscCLCTStep (a : GEMCSCAnalyzer) (m : SimTrackMatchManager) (s : State)
    (id : CSCDetId) : State :=
  let d := id.rawId
  let st := detIdToMEStation id.station id.ring
  if a.count st = 0 then s else
  let odd : Bool := decide (cmod id.chamber 2 = 1)
  let clct := m.clctInChamber d
  let s := s.setIP st odd .halfstrip_odd .halfstrip_even (digi_channel clct)
  let s := s.setIP st odd .quality_clct_odd .quality_clct_even (digi_quality clct)
  let s := s.orCP st odd .has_clct
  -- case ME11
  if st = 2 ∨ st = 3 then
    let s := s.setIP 1 odd .halfstrip_odd .halfstrip_even (digi_channel clct)
    let s := s.setIP 1 odd .quality_clct_odd .quality_clct_even (digi_quality clct)
    s.orCP 1 odd .has_clct
  else s

/-- Body of the loop over `match_lct.chamberIdsALCT(0)` (CSC ALCTs). -/
def cscALCTStep (a : GEMCSCAnalyzer) (m : SimTrackMatchManager) (s : State)
    (id : CSCDetId) : State :=
  let d := id.rawId
  let st := detIdToMEStation id.station id.ring
  if a.count st = 0 then s else
  let odd : Bool := decide (cmod id.chamber 2 = 1)
  let alct := m.alctInChamber d
  let s := s.setIP st odd .wiregroup_odd .wiregroup_even (digi_channel alct)
  let s := s.setIP st odd .quality_alct_odd .quality_alct_even (digi_quality alct)
  let s := s.orCP st odd .has_alct
  -- case ME11
  if st = 2 ∨ st = 3 then
    let s := s.setIP 1 odd .wiregroup_odd .wiregroup_even (digi_channel alct)
    let s := s.setIP 1 odd .quality_alct_odd .quality_alct_even (digi_quality alct)
    s.orCP 1 odd .has_alct
  else s

/-- The array read `LCT_BEND_PATTERN[p]`. Reading outside the 11 entries is undefined in
C++; the embedding yields 0 there. -/
def bendPattern (p : Int) : Int :=
  if 0 ≤ p then LCT_BEND_PATTERN.getD p.toNat 0 else 0

/-- The loop that resets the LCT holders `lct_odd` / `lct_even`, one station. -/
def lctHolderStep (s : State) (i : Int) : State :=
  let s := { s with lct_odd := upd s.lct_odd i make_digi }
  let s := { s with lct_even := upd s.lct_even i make_digi }
  -- case ME11
  if i = 2 ∨ i = 3 then
    let s := { s with lct_odd := upd s.lct_odd 1 make_digi }
    { s with lct_even := upd s.lct_even 1 make_digi }
  else s

/-- The block of assignments that stores one LCT into the holders and the record of
index `i`, in the odd or the even slot; the source has this block twice, once for
`etrk_[st]` and once, in "case ME11", for `etrk_[1]`. -/
def lctFill (m : SimTrackMatchManager) (id : CSCDetId) (lct : Digi) (gp : GlobalPoint)
    (bend chargesign : Int) (pt : Float_t) (odd : Bool) (i : Int) (s : State) : State :=
  if odd then
    let s := { s with lct_odd := upd s.lct_odd i lct }
    let s := { s with gp_lct_odd := upd s.gp_lct_odd i gp }
    let s := s.setI i .bend_lct_odd bend
    let s := s.setF i .phi_lct_odd gp.phi
    let s := s.setF i .eta_lct_odd gp.eta
    let s := s.setF i .dphi_lct_odd (digi_dphi lct)
    let s := s.setI i .bx_lct_odd (digi_bx lct)
    let s := s.setF i .hs_lct_odd (Float_t.num (digi_channel lct))
    let s := s.setF i .wg_lct_odd (Float_t.num (digi_wg lct))
    let s := s.orC i .chamber_odd 2
    let s := s.setI i .quality_odd (digi_quality lct)
    s.setB i .passdphi_odd (m.passDPhicut id chargesign (digi_dphi lct) pt)
  else
    let s := { s with lct_even := upd s.lct_even i lct }
    let s := { s with gp_lct_even := upd s.gp_lct_even i gp }
    let s := s.setI i .bend_lct_even bend
    let s := s.setF i .phi_lct_even gp.phi
    let s := s.setF i .eta_lct_even gp.eta
    let s := s.setF i .dphi_lct_even (digi_dphi lct)
    let s := s.setI i .bx_lct_even (digi_bx lct)
    let s := s.setF i .hs_lct_even (Float_t.num (digi_channel lct))
    let s := s.setF i .wg_lct_even (Float_t.num (digi_wg lct))
    let s := s.orC i .chamber_even 2
    let s := s.setI i .quality_even (digi_quality lct)
    s.setB i .passdphi_even (m.passDPhicut id chargesign (digi_dphi lct) pt)

/-- Body of the loop over `match_lct.chamberIdsLCT(0)` (LCT stubs). -/
def cscLCTStep (a : GEMCSCAnalyzer) (m : SimTrackMatchManager) (s : State)
    (id : CSCDetId) : State :=
  let chargesign : Int := if m.trk.charge > 0 then 1 else 0
  let pt := m.trk.pt
  let d := id.rawId
  let st := detIdToMEStation id.station id.ring
  if a.count st = 0 then s else
  let odd : Bool := decide (cmod id.chamber 2 = 1)
  let s := s.orCP st odd .has_lct
  -- case ME11
  let s :=
    if st = 2 ∨ st = 3 then
      s.orCP 1 odd .has_lct
    else s
  let lct := m.lctInChamber d
  let bend := bendPattern (digi_pattern lct)
  let gp := m.digiPosition lct
  let s := lctFill m id lct gp bend chargesign pt odd st s
  -- case ME11
  if st = 2 ∨ st = 3 then lctFill m id lct gp bend chargesign pt odd 1 s
  else s

/-! ## Cross-station parameter estimator -/

/-- The `if / else if` chain that picks the parity path: from the presence masks of
records 1, 6 and 8 and the odd / even point arrays it yields `(gp1, gp2, gp3, npar)`,
starting from default-constructed points and `npar = -1`. -/
def selectParityPath (m1 m6 m8 : Int) (gp_odd gp_even : Int → GlobalPoint) :
    GlobalPoint × GlobalPoint × GlobalPoint × Int :=
  if Int.land m1 1 > 0 ∧ Int.land m6 2 > 0 ∧ Int.land m8 2 > 0 then
    (gp_odd 1, gp_even 6, gp_even 8, 0)
  else if Int.land m1 1 > 0 ∧ Int.land m6 1 > 0 ∧ Int.land m8 1 > 0 then
    (gp_odd 1, gp_odd 6, gp_odd 8, 1)
  else if Int.land m1 2 > 0 ∧ Int.land m6 2 > 0 ∧ Int.land m8 2 > 0 then
    (gp_even 1, gp_even 6, gp_even 8, 2)
  else if Int.land m1 2 > 0 ∧ Int.land m6 1 > 0 ∧ Int.land m8 1 > 0 then
    (gp_even 1, gp_odd 6, gp_odd 8, 3)
  else
    (GlobalPoint.origin, GlobalPoint.origin, GlobalPoint.origin, -1)

/-- One of the two pt-assignment blocks of `analyzeTrackEff`: `mask` is `has_csc_sh`
(resp. `has_lct`), `gp_odd` / `gp_even` are `gp_sh_odd` / `gp_sh_even` (resp.
`gp_lct_odd` / `gp_lct_even`), `flag` is `hasSt1St2St3_sh` (resp. `hasSt1St2St3`) and
`out` is `pt_position_sh` (resp. `pt_position`). -/
def ptAssignBlock (x : Externals) (mask : CharField) (gp_odd gp_even : Int → GlobalPoint)
    (flag : BoolField) (out : FloatField) (s : State) : State :=
  if (s.etrk_ 1).char_ mask > 0 ∧ (s.etrk_ 6).char_ mask > 0 ∧ (s.etrk_ 8).char_ mask > 0 then
    let sel := selectParityPath ((s.etrk_ 1).char_ mask) ((s.etrk_ 6).char_ mask)
      ((s.etrk_ 8).char_ mask) gp_odd gp_even
    let gp1 := sel.1
    let gp2 := sel.2.1
    let gp3 := sel.2.2.1
    let npar := sel.2.2.2
    let s := s.setB 0 flag true
    let eta := (s.etrk_ 0).float_ .eta
    let call : PtCall := { gp1 := gp1, gp2 := gp2, gp3 := gp3, eta := eta, npar := npar }
    let s := { s with ptCalls := s.ptCalls ++ [call] }
    s.setF 0 out (x.Ptassign_Position_gp gp1 gp2 gp3 eta npar)
  else s

/-- The sim-hit pt-assignment block (reads `has_csc_sh`). -/
def ptAssignSh (x : Externals) (s : State) : State :=
  ptAssignBlock x .has_csc_sh s.gp_sh_odd s.gp_sh_even .hasSt1St2St3_sh .pt_position_sh s

/-- The stub pt-assignment block (reads `has_lct`). -/
def ptAssignLct (x : Externals) (s : State) : State :=
  ptAssignBlock x .has_lct s.gp_lct_odd s.gp_lct_even .hasSt1St2St3 .pt_position s

/-! ## Feature aggregator: GEM categories -/

/-- The station remapping at the head of every GEM loop: GEM station 3 is looked up as
ME station 2, GEM station 2 is skipped (`none` is the `continue`), any other station is
looked up as it is. -/
def gemMEStation (id : GEMDetId) : Option Int :=
  if id.station = 3 then some 2
  else if id.station = 2 then none
  else some id.station

/-- The element `v.at(0)` of a digi list that was just checked to be non-empty. -/
def firstDigi (v : List Digi) : Digi := v.headD make_digi

/-- The assignments of the GEM sim-hit layer loop, as they act on the record `r` they
are applied to (`etrk_[st]` or `etrk_[1]`): the key point goes into `eta_gemsh` /
`phi_gemsh` of the parity, then `dphi_sh` is computed from the CSC phi of the same
record. -/
def gemShKeyRecord (x : Externals) (keygp : GlobalPoint) (odd : Bool) (r : MyTrackEff) :
    MyTrackEff :=
  let r := r.setF (if odd then .eta_gemsh_odd else .eta_gemsh_even) keygp.eta
  let r := r.setF (if odd then .phi_gemsh_odd else .phi_gemsh_even) keygp.phi
  if odd && Float_t.gt (r.float_ .phi_cscsh_odd) (-9) then
    r.setF .dphi_sh_odd (x.deltaPhi (r.float_ .phi_cscsh_odd) keygp.phi)
  else if Float_t.gt (r.float_ .phi_cscsh_even) (-9) then
    r.setF .dphi_sh_even (x.deltaPhi (r.float_ .phi_cscsh_even) keygp.phi)
  else r

/-- The assignments of the GEM sim-hit layer loop into the record of index `i`; the
source has them twice, for `etrk_[st]` and, when `st` is 2 or 3, for `etrk_[1]`. -/
def gemShKeyFill (x : Externals) (keygp : GlobalPoint) (odd : Bool) (i : Int)
    (s : State) : State :=
  s.modify i (gemShKeyRecord x keygp odd)

/-- The loop `for (int layer=1; layer<3; layer++)` of the GEM sim-hit pass. -/
def gemShLayerLoop (m : SimTrackMatchManager) (x : Externals) (id : GEMDetId) (st : Int)
    (odd : Bool) : List Int → State → State
  | [], s => s
  | layer :: rest, s =>
    let id_tmp : GEMDetId :=
      { region := id.region, ring := id.ring, station := id.station, layer := layer,
        chamber := id.chamber, roll := 0 }
    let keygp := m.simHitsMeanPosition (m.hitsInChamber id_tmp.rawId)
    if (m.hitsInChamber id_tmp.rawId).length = 0 then gemShLayerLoop m x id st odd rest s
    else
      let s := gemShKeyFill x keygp odd st s
      let s := if st = 2 ∨ st = 3 then gemShKeyFill x keygp odd 1 s else s
      if id_tmp.layer = 1 then s else gemShLayerLoop m x id st odd rest s

/-- Body of the loop over `match_sh.superChamberIdsGEM()` (GEM sim hits). -/
def gemSimHitStep (a : GEMCSCAnalyzer) (m : SimTrackMatchManager) (x : Externals)
    (s : State) (id : GEMDetId) : State :=
  let d := id.rawId
  match gemMEStation id with
  | none => s
  | some MEStation =>
  let st := detIdToMEStation MEStation id.ring
  if a.count st = 0 then s else
  let odd : Bool := decide (cmod id.chamber 2 = 1)
  let s :=
    if (m.hitsInSuperChamber d).length > 0 then
      let s := s.orCP st odd .has_gem_sh
      let s := gemShLayerLoop m x id st odd [1, 2] s
      let mean_strip := m.simHitsMeanStrip (m.hitsInSuperChamber d)
      s.setFP st odd .strip_gemsh_odd .strip_gemsh_even mean_strip
    else s
  let s :=
    if m.nLayersWithHitsInSuperChamber d > 1 then
      s.orCP st odd .has_gem_sh2
    else s
  -- ME11 Case
  if st = 2 ∨ st = 3 then
    let s := s.orCP 1 odd .has_gem_sh
    let mean_strip := m.simHitsMeanStrip (m.hitsInSuperChamber d)
    let s := s.setFP 1 odd .strip_gemsh_odd .strip_gemsh_even mean_strip
    if m.nLayersWithHitsInSuperChamber d > 1 then
      s.orCP 1 odd .has_gem_sh2
    else s
  else s

/-- The block `if (is_valid(lct_odd[st])) { ... }` of the GEM pad loops: the closest pad
to the odd LCT of station `st`. -/
def closestPadOdd (m : SimTrackMatchManager) (x : Externals) (pads : List Digi) (st : Int)
    (s : State) : State :=
  if is_valid (s.lct_odd st) then
    let gem_dg_and_gp := m.digiInGEMClosestToCSC pads (s.gp_lct_odd st)
    let s := { s with best_pad_odd := upd s.best_pad_odd st gem_dg_and_gp.2 }
    let s := s.setI st .bx_pad_odd (digi_bx gem_dg_and_gp.1)
    let s := s.setF st .phi_pad_odd (s.best_pad_odd st).phi
    let s := s.setF st .eta_pad_odd (s.best_pad_odd st).eta
    let s := s.setF st .dphi_pad_odd
      (x.deltaPhi ((s.etrk_ st).float_ .phi_lct_odd) ((s.etrk_ st).float_ .phi_pad_odd))
    s.setF st .deta_pad_odd
      ((s.etrk_ st).float_ .eta_lct_odd - (s.etrk_ st).float_ .eta_pad_odd)
  else s

/-- The block `if (is_valid(lct_even[st])) { ... }` of the GEM pad loops. -/
def closestPadEven (m : SimTrackMatchManager) (x : Externals) (pads : List Digi) (st : Int)
    (s : State) : State :=
  if is_valid (s.lct_even st) then
    let gem_dg_and_gp := m.digiInGEMClosestToCSC pads (s.gp_lct_even st)
    let s := { s with best_pad_even := upd s.best_pad_even st gem_dg_and_gp.2 }
    let s := s.setI st .bx_pad_even (digi_bx gem_dg_and_gp.1)
    let s := s.setF st .phi_pad_even (s.best_pad_even st).phi
    let s := s.setF st .eta_pad_even (s.best_pad_even st).eta
    let s := s.setF st .dphi_pad_even
      (x.deltaPhi ((s.etrk_ st).float_ .phi_lct_even) ((s.etrk_ st).float_ .phi_pad_even))
    s.setF st .deta_pad_even
      ((s.etrk_ st).float_ .eta_lct_even - (s.etrk_ st).float_ .eta_pad_even)
  else s

/-- The pad loop `for (int layer=1; layer<3; layer++)` of the first GEM digi pass; `d` is
the raw id of the superchamber. -/
def gemPadLayerLoop (m : SimTrackMatchManager) (x : Externals) (id : GEMDetId) (st : Int)
    (odd : Bool) : List Int → State → State
  | [], s => s
  | layer :: rest, s =>
    let d := id.rawId
    let id_tmp : GEMDetId :=
      { region := id.region, ring := id.ring, station := id.station, layer := layer,
        chamber := id.chamber, roll := 0 }
    let pads := m.padsInChamber id_tmp.rawId
    if pads.length = 0 then gemPadLayerLoop m x id st odd rest s
    else
      let s :=
        if odd then
          let s := s.orC st .has_gem_pad 1
          let s := s.orC st .chamber_odd 1
          let s := s.setI st .pad_odd (digi_channel (firstDigi pads))
          let s := s.setI st .hsfromgem_odd
            (m.extrapolateHsfromGEMPad d (digi_channel (firstDigi pads)))
          closestPadOdd m x pads st s
        else
          let s := s.orC st .has_gem_pad 2
          let s := s.orC st .chamber_even 1
          let s := s.setI st .pad_even (digi_channel (firstDigi pads))
          let s := s.setI st .hsfromgem_even
            (m.extrapolateHsfromGEMPad d (digi_channel (firstDigi pads)))
          closestPadEven m x pads st s
      if id_tmp.layer = 1 then s else gemPadLayerLoop m x id st odd rest s

/-- The pad loop of the second GEM digi pass ("ME11Case"): as `gemPadLayerLoop`, without
the two `hsfromgem` assignments. -/
def gemPadLayerLoopME11 (m : SimTrackMatchManager) (x : Externals) (id : GEMDetId)
    (st : Int) (odd : Bool) : List Int → State → State
  | [], s => s
  | layer :: rest, s =>
    let id_tmp : GEMDetId :=
      { region := id.region, ring := id.ring, station := id.station, layer := layer,
        chamber := id.chamber, roll := 0 }
    let pads := m.padsInChamber id_tmp.rawId
    if pads.length = 0 then gemPadLayerLoopME11 m x id st odd rest s
    else
      let s :=
        if odd then
          let s := s.orC st .has_gem_pad 1
          let s := s.orC st .chamber_odd 1
          let s := s.setI st .pad_odd (digi_channel (firstDigi pads))
          closestPadOdd m x pads st s
        else
          let s := s.orC st .has_gem_pad 2
          let s := s.orC st .chamber_even 1
          let s := s.setI st .pad_even (digi_channel (firstDigi pads))
          closestPadEven m x pads st s
      if id_tmp.layer = 1 then s else gemPadLayerLoopME11 m x id st odd rest s

/-- The statements of a GEM digi pass between the station test and the pad loop:
`has_gem_dg2`, `has_gem_dg` with the median strip, and `has_gem_pad2`, written into the
record of index `st`; both GEM digi passes have them in the same words. -/
def gemDigiFill (m : SimTrackMatchManager) (d : DetId) (odd : Bool) (st : Int)
    (s : State) : State :=
  let s :=
    if m.nLayersWithDigisInSuperChamber d > 1 then
      s.orCP st odd .has_gem_dg2
    else s
  let digis := m.digisInSuperChamber d
  let median_strip := m.median digis
  let s :=
    if odd && decide (digis.length > 0) then
      let s := s.orC st .has_gem_dg 1
      s.setI st .strip_gemdg_odd median_strip
    else if digis.length > 0 then
      let s := s.orC st .has_gem_dg 2
      s.setI st .strip_gemdg_even median_strip
    else s
  if m.nLayersWithPadsInSuperChamber d > 1 then
    s.orCP st odd .has_gem_pad2
  else s

/-- Body of the first loop over `match_gd.superChamberIdsDigi()` (GEM digis and pads). -/
def gemDigiStep (a : GEMCSCAnalyzer) (m : SimTrackMatchManager) (x : Externals)
    (s : State) (id : GEMDetId) : State :=
  let d := id.rawId
  match gemMEStation id with
  | none => s
  | some MEStation =>
  let st := detIdToMEStation MEStation id.ring
  if a.count st = 0 then s else
  let odd : Bool := decide (cmod id.chamber 2 = 1)
  let s := gemDigiFill m d odd st s
  gemPadLayerLoop m x id st odd [1, 2] s

/-- Body of the second loop over `match_gd.superChamberIdsDigi()` ("ME11Case"). -/
def gemDigiStepME11 (a : GEMCSCAnalyzer) (m : SimTrackMatchManager) (x : Externals)
    (s : State) (id : GEMDetId) : State :=
  let d := id.rawId
  match gemMEStation id with
  | none => s
  | some MEStation =>
  let stations := detIdToMEStation MEStation id.ring
  if stations = 2 ∨ stations = 3 then
    let st : Int := 1
    if a.count st = 0 then s else
    let odd : Bool := decide (cmod id.chamber 2 = 1)
    let s := gemDigiFill m d odd st s
    gemPadLayerLoopME11 m x id st odd [1, 2] s
  else s

/-- Body of the loop over `match_gd.superChamberIdsCoPad()` (coincidence pads). -/
def gemCoPadStep (a : GEMCSCAnalyzer) (m : SimTrackMatchManager) (s : State)
    (id : GEMDetId) : State :=
  let d := id.rawId
  match gemMEStation id with
  | none => s
  | some MEStation =>
  let st := detIdToMEStation MEStation id.ring
  if a.count st = 0 then s else
  let odd : Bool := decide (cmod id.chamber 2 = 1)
  let s := s.orCP st odd .has_gem_copad
  let copads := m.coPadsInSuperChamber d
  if copads.length = 0 then s else
  let s := s.setIP st odd .Copad_odd .Copad_even (digi_channel (firstDigi copads))
  if st = 2 ∨ st = 3 then
    let s := s.orCP 1 odd .has_gem_copad
    let copads := m.coPadsInSuperChamber d
    if copads.length = 0 then s else
    s.setIP 1 odd .Copad_odd .Copad_even (digi_channel (firstDigi copads))
  else s

/-! ## Feature aggregator: track-level part -/

/-- What a throwing C++ call raises. -/
inductive Fault where
  | out_of_range
deriving DecidableEq

/-- The bounds-checked element access `v.at(i)`; a negative `int` index converts to a
huge unsigned one and is out of range as well. -/
def vecAt {α : Type} (v : List α) (i : Int) : Except Fault α :=
  if 0 ≤ i then
    match v.get? i.toNat with
    | some e => Except.ok e
    | none => Except.error Fault.out_of_range
  else Except.error Fault.out_of_range

/-- The assignments `eta_propagated_MEn = p.first; phi_propagated_MEn = p.second` for
`st` in 1..4, into the record of index `i`. -/
def propagatedFill (st : Int) (p : Float_t × Float_t) (i : Int) (s : State) : State :=
  let s := if st = 1 then (s.setF i .eta_propagated_ME1 p.1).setF i .phi_propagated_ME1 p.2
           else s
  let s := if st = 2 then (s.setF i .eta_propagated_ME2 p.1).setF i .phi_propagated_ME2 p.2
           else s
  let s := if st = 3 then (s.setF i .eta_propagated_ME3 p.1).setF i .phi_propagated_ME3 p.2
           else s
  if st = 4 then (s.setF i .eta_propagated_ME4 p.1).setF i .phi_propagated_ME4 p.2
  else s

/-- The three guarded assignments of the inter-station propagation, from the map
`interstat` (`propagate_interstat_odd` or `propagate_interstat_even`), into the record
of index `i`. -/
def interStatFill (st : Int) (interstat : Int → GlobalPoint) (i : Int) (s : State) : State :=
  let s :=
    if st = 2 ∧ !(Float_t.isnan (interstat 12).eta) then
      (s.setF i .eta_interStat12 (interstat 12).eta).setF i .phi_interStat12 (interstat 12).phi
    else s
  let s :=
    if st = 3 ∧ !(Float_t.isnan (interstat 23).eta) then
      (s.setF i .eta_interStat23 (interstat 23).eta).setF i .phi_interStat23 (interstat 23).phi
    else s
  if st = 3 ∧ !(Float_t.isnan (interstat 13).eta) then
    (s.setF i .eta_interStat13 (interstat 13).eta).setF i .phi_interStat13 (interstat 13).phi
  else s

/-- Body of the "general propagation" loop over `stations_to_use_`. -/
def propagationStep (m : SimTrackMatchManager) (s : State) (i : Int) : Except Fault State := do
  let cscdet ← vecAt cscStationsCo_ i
  if cscdet.1 < 1 ∨ cscdet.1 > 4 then return s
  let st := cscdet.1
  let odd ← vecAt m.simTrackPropagateGPs_odd (st - 1)
  let s := propagatedFill st odd i s
  return interStatFill st m.interStatPropagation_odd i s

/-- The block `if (lct1 < getTriggerDigis().size()) { ... }` for the ME1 stub of the best
track-finder track. -/
def tfME1Block (a : GEMCSCAnalyzer) (m : SimTrackMatchManager) (s : State) :
    Except Fault State := do
  let besttrack := m.bestTFTrack
  let pt := m.trk.pt
  let lct1 : Nat := 999
  let me1b := besttrack.digiInME 1 1
  let me1a := besttrack.digiInME 1 4
  let lct1 := if me1a ≠ 999 then me1a else lct1
  let lct1 := if me1b ≠ 999 then me1b else lct1
  if lct1 < besttrack.getTriggerDigis.length then
    let id_me1 ← vecAt besttrack.getTriggerDigisIds lct1
    let s := if cmod id_me1.chamber 2 = 1 then s.orC 0 .chamberME1 1 else s
    let s := if cmod id_me1.chamber 2 = 0 then s.orC 0 .chamberME1 2 else s
    let s := s.setI 0 .ME1_ring id_me1.ring
    let s := s.setB 0 .passGE11 (besttrack.passDPhicutTFTrack 1 a.bendingcutPt_)
    let s := s.setB 0 .passGE11_pt5 (besttrack.passDPhicutTFTrack 1 5)
    let s := s.setB 0 .passGE11_pt7 (besttrack.passDPhicutTFTrack 1 7)
    let s := s.setB 0 .passGE11_pt10 (besttrack.passDPhicutTFTrack 1 10)
    let s := s.setB 0 .passGE11_pt15 (besttrack.passDPhicutTFTrack 1 15)
    let s := s.setB 0 .passGE11_pt20 (besttrack.passDPhicutTFTrack 1 20)
    let s := s.setB 0 .passGE11_pt30 (besttrack.passDPhicutTFTrack 1 30)
    let s := s.setB 0 .passGE11_pt40 (besttrack.passDPhicutTFTrack 1 40)
    let digi ← vecAt besttrack.getTriggerDigis lct1
    let s := s.setF 0 .dphiGE11 digi.getGEMDPhi
    let s := s.setI 0 .ME1_hs digi.getStrip
    let s := s.setI 0 .ME1_wg digi.getKeyWG
    return s.setB 0 .passGE11_simpt
      (m.passDPhicut id_me1 ((s.etrk_ 0).uint_ .chargesign) ((s.etrk_ 0).float_ .dphiGE11) pt)
  else return s

/-- The block `if (lct2 < getTriggerDigis().size()) { ... }` for the ME2 stub of the best
track-finder track. -/
def tfME2Block (a : GEMCSCAnalyzer) (m : SimTrackMatchManager) (s : State) :
    Except Fault State := do
  let besttrack := m.bestTFTrack
  let pt := m.trk.pt
  let lct2 := besttrack.digiInME 2 1
  if lct2 < besttrack.getTriggerDigis.length then
    let id_me2 ← vecAt besttrack.getTriggerDigisIds lct2
    let s := if cmod id_me2.chamber 2 = 1 then s.orC 0 .chamberME2 1 else s
    let s := if cmod id_me2.chamber 2 = 0 then s.orC 0 .chamberME2 2 else s
    let s := s.setI 0 .ME2_ring id_me2.ring
    let s := s.setB 0 .passGE21 (besttrack.passDPhicutTFTrack 2 a.bendingcutPt_)
    let s := s.setB 0 .passGE21_pt5 (besttrack.passDPhicutTFTrack 2 5)
    let s := s.setB 0 .passGE21_pt7 (besttrack.passDPhicutTFTrack 2 7)
    let s := s.setB 0 .passGE21_pt10 (besttrack.passDPhicutTFTrack 2 10)
    let s := s.setB 0 .passGE21_pt15 (besttrack.passDPhicutTFTrack 2 15)
    let s := s.setB 0 .passGE21_pt20 (besttrack.passDPhicutTFTrack 2 20)
    let s := s.setB 0 .passGE21_pt30 (besttrack.passDPhicutTFTrack 2 30)
    let s := s.setB 0 .passGE21_pt40 (besttrack.passDPhicutTFTrack 2 40)
    let digi ← vecAt besttrack.getTriggerDigis lct2
    let s := s.setF 0 .dphiGE21 digi.getGEMDPhi
    let s := s.setI 0 .ME2_hs digi.getStrip
    let s := s.setI 0 .ME2_wg digi.getKeyWG
    return s.setB 0 .passGE21_simpt
      (m.passDPhicut id_me2 ((s.etrk_ 0).uint_ .chargesign) ((s.etrk_ 0).float_ .dphiGE21) pt)
  else return s

/-- The local array `bool stub_Good_ME[4]`. -/
structure StubGood where
  me0 : Bool
  me1 : Bool
  me2 : Bool
  me3 : Bool

/-- The assignments `eta_MEn_TF`, `phi_MEn_TF` and `stub_Good_ME[n-1]` of one stub of
the track-finder track. -/
def tfStubFill (m : SimTrackMatchManager) (id : CSCDetId) (etaphi : Float_t × Float_t)
    (digi : TriggerDigi) (st : Int) (sg : State × StubGood) : State × StubGood :=
  let sg :=
    if st = 1 then
      (((sg.1.setF 0 .eta_ME1_TF etaphi.1).setF 0 .phi_ME1_TF etaphi.2),
       { sg.2 with me0 := m.checkStubInChamber id digi })
    else sg
  let sg :=
    if st = 2 then
      (((sg.1.setF 0 .eta_ME2_TF etaphi.1).setF 0 .phi_ME2_TF etaphi.2),
       { sg.2 with me1 := m.checkStubInChamber id digi })
    else sg
  let sg :=
    if st = 3 then
      (((sg.1.setF 0 .eta_ME3_TF etaphi.1).setF 0 .phi_ME3_TF etaphi.2),
       { sg.2 with me2 := m.checkStubInChamber id digi })
    else sg
  if st = 4 then
    (((sg.1.setF 0 .eta_ME4_TF etaphi.1).setF 0 .phi_ME4_TF etaphi.2),
     { sg.2 with me3 := m.checkStubInChamber id digi })
  else sg

/-- Body of the loop over the stubs of the best track-finder track, for the index `i`. -/
def tfStubStep (m : SimTrackMatchManager) (sg : State × StubGood) (i : Nat) :
    Except Fault (State × StubGood) := do
  let besttrack := m.bestTFTrack
  let id ← vecAt besttrack.getTriggerDigisIds i
  let etaphi ← vecAt besttrack.getTriggerEtaPhis i
  let st := id.station
  let IsOdd : Bool := decide (cmod id.chamber 2 = 1)
  let s := sg.1
  let s ←
    if IsOdd then do
      let odd ← vecAt m.simTrackPropagateGPs_odd (st - 1)
      let s := propagatedFill st odd 0 s
      pure (interStatFill st m.interStatPropagation_odd 0 s)
    else do
      let even ← vecAt m.simTrackPropagateGPs_even (st - 1)
      let s := propagatedFill st even 0 s
      pure (interStatFill st m.interStatPropagation_even 0 s)
  let digi ← vecAt besttrack.getTriggerDigis i
  return tfStubFill m id etaphi digi st (s, sg.2)

/-- The statements after the stub loop: `allstubs_matched_TF` and the per-station sim-hit
summary bits of record 0. -/
def tfSummary (sg : State × StubGood) : State :=
  let s := sg.1.setB 0 .allstubs_matched_TF (sg.2.me0 && sg.2.me1 && sg.2.me2 && sg.2.me3)
  let sh := fun (i : Int) => (s.etrk_ i).char_ .has_csc_sh
  let s := if sh 1 > 0 ∨ sh 4 > 0 ∨ sh 5 > 0 then s.orC 0 .has_csc_sh 1 else s
  let sh := fun (i : Int) => (s.etrk_ i).char_ .has_csc_sh
  let s := if sh 6 > 0 ∨ sh 7 > 0 then s.orC 0 .has_csc_sh 2 else s
  let sh := fun (i : Int) => (s.etrk_ i).char_ .has_csc_sh
  let s := if sh 8 > 0 ∨ sh 9 > 0 then s.orC 0 .has_csc_sh 4 else s
  let sh := fun (i : Int) => (s.etrk_ i).char_ .has_csc_sh
  if sh 10 > 0 ∨ sh 11 > 0 then s.orC 0 .has_csc_sh 8 else s

/-- The head of the block `if (match_track.tfTracks().size()) { ... }`: the properties
of the best track-finder track copied into record 0. -/
def tfTrackHead (m : SimTrackMatchManager) (s : State) : State :=
  let besttrack := m.bestTFTrack
  let s := s.setI 0 .has_tfTrack 1
  let s := s.setF 0 .trackpt besttrack.pt
  let s := s.setF 0 .tracketa besttrack.eta
  let s := s.setF 0 .trackphi besttrack.phi
  let s := s.setU 0 .pt_packed besttrack.ptPacked
  let s := s.setU 0 .eta_packed besttrack.etaPacked
  let s := s.setU 0 .phi_packed besttrack.phiPacked
  let s := s.setU 0 .quality_packed besttrack.qPacked
  let s := s.setU 0 .deltaphi12 besttrack.dPhi12
  let s := s.setU 0 .deltaphi23 besttrack.dPhi23
  let s := s.setB 0 .hasME1 (besttrack.hasStubEndcap 1)
  let s := s.setB 0 .hasME2 (besttrack.hasStubEndcap 2)
  let s := s.setU 0 .nstubs besttrack.nStubs
  let s := s.setF 0 .deltaR besttrack.dr
  s.setU 0 .chargesign besttrack.chargesign

/-- The block `if (match_track.tfTracks().size()) { ... }`. -/
def tfTrackBlock (a : GEMCSCAnalyzer) (m : SimTrackMatchManager) (s : State) :
    Except Fault State := do
  if m.tfTracks_size = 0 then return s
  let besttrack := m.bestTFTrack
  let s := tfTrackHead m s
  let s ← tfME1Block a m s
  let s ← tfME2Block a m s
  let triggerDigiIds := besttrack.getTriggerDigisIds
  let triggerDigis := besttrack.getTriggerDigis
  let triggerDigiEtaPhi := besttrack.getTriggerEtaPhis
  let s ←
    if triggerDigiIds.length = triggerDigiEtaPhi.length
        ∧ triggerDigis.length = triggerDigiIds.length then do
      let stub_Good_ME : StubGood := { me0 := true, me1 := true, me2 := true, me3 := true }
      let sg ← (List.range triggerDigiIds.length).foldlM (tfStubStep m) (s, stub_Good_ME)
      pure (tfSummary sg)
    else pure s
  if triggerDigiEtaPhi.length > 1 then
    let etaphi1 ← vecAt triggerDigiEtaPhi 0
    let etaphi2 ← vecAt triggerDigiEtaPhi 1
    return s.setF 0 .lctdphi12 (etaphi1.2 - etaphi2.2)
  else return s

/-- The statements after the track-finder block: candidates, L1Extra and the three
reconstructed-track categories, all written into record 0. -/
def recoBlock (m : SimTrackMatchManager) (s : State) : State :=
  let s := if m.tfCands_size ≠ 0 then s.setI 0 .has_tfCand 1 else s
  let s := if m.gmtRegCands_size ≠ 0 then s.setI 0 .has_gmtRegCand 1 else s
  let s := if m.gmtCands_size ≠ 0 then s.setI 0 .has_gmtCand 1 else s
  -- L1Extra
  let s :=
    match m.getMatchedL1ExtraMuonParticles with
    | [] => s
    | l1Extra :: _ =>
      let s := s.setI 0 .has_l1Extra 1
      let s := s.setF 0 .l1Extra_pt l1Extra.1.pt
      let s := s.setF 0 .l1Extra_eta l1Extra.1.eta
      let s := s.setF 0 .l1Extra_phi l1Extra.1.phi
      s.setF 0 .l1Extra_dR l1Extra.2
  -- RecoTrackExtra
  let s :=
    match m.getMatchedRecoTrackExtras with
    | [] => s
    | recoTrackExtra :: _ =>
      let s := s.setI 0 .has_recoTrackExtra 1
      let s := s.setF 0 .recoTrackExtra_pt_inner recoTrackExtra.innerMomentumRho
      let s := s.setF 0 .recoTrackExtra_eta_inner recoTrackExtra.innerPosition.eta
      let s := s.setF 0 .recoTrackExtra_phi_inner recoTrackExtra.innerPosition.phi
      let s := s.setF 0 .recoTrackExtra_pt_outer recoTrackExtra.outerMomentumRho
      let s := s.setF 0 .recoTrackExtra_eta_outer recoTrackExtra.outerPosition.eta
      s.setF 0 .recoTrackExtra_phi_outer recoTrackExtra.outerPosition.phi
  -- RecoTrack
  let s :=
    match m.getMatchedRecoTracks with
    | [] => s
    | recoTrack :: _ =>
      let s := s.setI 0 .has_recoTrack 1
      let s := s.setF 0 .recoTrack_pt_outer recoTrack.outerPt
      let s := s.setF 0 .recoTrack_eta_outer recoTrack.outerEta
      s.setF 0 .recoTrack_phi_outer recoTrack.outerPhi
  -- RecoChargedCandidate
  match m.getMatchedRecoChargedCandidates with
  | [] => s
  | c :: _ =>
    let s := s.setI 0 .has_recoChargedCandidate 1
    let s := s.setF 0 .recoChargedCandidate_pt c.pt
    let s := s.setF 0 .recoChargedCandidate_eta c.eta
    let s := s.setF 0 .recoChargedCandidate_phi c.phi
    let s := s.setI 0 .recoChargedCandidate_nValidDTHits c.numberOfValidMuonDTHits
    let s := s.setI 0 .recoChargedCandidate_nValidCSCHits c.numberOfValidMuonCSCHits
    s.setI 0 .recoChargedCandidate_nValidRPCHits c.numberOfValidMuonRPCHits

/-! ## `analyzeTrackEff` -/

/-- The state at the entry of `analyzeTrackEff`: the member array `etrk_` as the previous
track left it, default-constructed local arrays (a default `GlobalPoint` is the origin, a
default `Digi` is the all-zero tuple, which `is_valid` rejects) and no estimator call. -/
def State.entry (etrk : Int → MyTrackEff) : State :=
  { etrk_ := etrk
    gp_sh_odd := fun _ => GlobalPoint.origin
    gp_sh_even := fun _ => GlobalPoint.origin
    lct_odd := fun _ => make_digi
    lct_even := fun _ => make_digi
    gp_lct_odd := fun _ => GlobalPoint.origin
    gp_lct_even := fun _ => GlobalPoint.origin
    best_pad_odd := fun _ => GlobalPoint.origin
    best_pad_even := fun _ => GlobalPoint.origin
    ptCalls := [] }

/-- The detector-id passes of `analyzeTrackEff`, from the re-initialisation of the
configured records to the coincidence pads, in source order. The two RPC loops of the
source are under `if (false)` and contribute nothing. -/
def aggregate (a : GEMCSCAnalyzer) (m : SimTrackMatchManager) (x : Externals)
    (etrk : Int → MyTrackEff) : State :=
  let s := State.entry etrk
  let s := a.stations_to_use_.foldl (initStation m) s
  let s := m.chamberIdsCSC.foldl (cscSimHitStep a m) s
  let s := m.chamberIdsStrip.foldl (cscStripStep a m) s
  let s := m.chamberIdsWire.foldl (cscWireStep a m) s
  let s := m.chamberIdsCLCT.foldl (cscCLCTStep a m) s
  let s := m.chamberIdsALCT.foldl (cscALCTStep a m) s
  let s := a.stations_to_use_.foldl lctHolderStep s
  let s := m.chamberIdsLCT.foldl (cscLCTStep a m) s
  let s := ptAssignSh x s
  let s := ptAssignLct x s
  let s := m.superChamberIdsGEM.foldl (gemSimHitStep a m x) s
  let s := m.superChamberIdsDigi.foldl (gemDigiStep a m x) s
  let s := m.superChamberIdsDigi.foldl (gemDigiStepME11 a m x) s
  m.superChamberIdsCoPad.foldl (gemCoPadStep a m) s

/-- The C++ `GEMCSCAnalyzer::analyzeTrackEff` up to the `Fill` loop: the state it reaches
from the array `etrk` the previous track left, or the exception it throws. -/
def analyzeTrackEff (a : GEMCSCAnalyzer) (m : SimTrackMatchManager) (x : Externals)
    (etrk : Int → MyTrackEff) : Except Fault State := do
  let s := aggregate a m x etrk
  let s ← a.stations_to_use_.foldlM (propagationStep m) s
  let s ← tfTrackBlock a m s
  return recoBlock m s

/-- The rows the final loop `tree_eff_[s]->Fill()` appends: one per configured station,
holding the record of that station. -/
def emittedRows (a : GEMCSCAnalyzer) (s : State) : List (Int × MyTrackEff) :=
  a.stations_to_use_.map (fun i => (i, s.etrk_ i))

/-! ## Concrete inputs used by the witnesses and counterexamples -/

/-- A selector configuration with cuts `pt >= 5`, `2 <= |eta| <= 3`, only muons. -/
def selectorConfig : GEMCSCAnalyzer :=
  { simTrackMinPt_ := Float_t.num 5, simTrackMinEta_ := Float_t.num 2,
    simTrackMaxEta_ := Float_t.num 3, simTrackOnlyMuon_ := true,
    bendingcutPt_ := Float_t.num 10, ntupleTrackChamberDelta_ := false,
    ntupleTrackEff_ := true, stations_to_use_ := [0, 1, 3, 6, 8],
    minNHitsChamberCSCSimHit_ := 4, minNHitsChamberCSCWireDigi_ := 4,
    minNHitsChamberCSCStripDigi_ := 4, minNHitsChamberCLCT_ := 4,
    minNHitsChamberALCT_ := 4, minNHitsChamberLCT_ := 4, minNHitsChamberMPLCT_ := 4 }

/-- A negative muon exactly on the pt cut and exactly on the lower eta cut. -/
def boundaryTrack : SimTrack :=
  { noVertex := false, noGenpart := false, type := -13, pt := Float_t.num 5,
    eta := Float_t.num (-2), phi := Float_t.num 0, charge := -1 }

/-- The record with every member zero, false or 0.0. -/
def zeroRecord : MyTrackEff :=
  { int_ := fun _ => 0, uint_ := fun _ => 0, char_ := fun _ => 0, bool_ := fun _ => false,
    float_ := fun _ => 0 }

/-- The member array with every record freshly initialised. -/
def freshRecords : Int → MyTrackEff := fun _ => zeroRecord.init

/-- A truth track: a positive muon with pt 10 and eta 2. -/
def sampleTrack : SimTrack :=
  { noVertex := false, noGenpart := false, type := 13, pt := Float_t.num 10,
    eta := Float_t.num 2, phi := Float_t.num 0, charge := 1 }

/-- A track-finder track without stubs. -/
def emptyTFTrack : TFTrack :=
  { pt := 0, eta := 0, phi := 0, ptPacked := 0, etaPacked := 0, phiPacked := 0, qPacked := 0,
    dPhi12 := 0, dPhi23 := 0, hasStubEndcap := fun _ => false, nStubs := 0, dr := 0,
    chargesign := 0, digiInME := fun _ _ => 999, getTriggerDigis := [],
    getTriggerDigisIds := [], getTriggerEtaPhis := [],
    passDPhicutTFTrack := fun _ _ => false }

/-- The adapters of a track that left no signal anywhere: every id list is empty and
every query returns an empty list, zero or false. -/
def emptyMatch : SimTrackMatchManager :=
  { run := 1, luminosityBlock := 1, event := 1, trk := sampleTrack,
    chamberIdsCSC := [], superChamberIdsGEM := [],
    nLayersWithHitsInSuperChamber := fun _ => 0,
    hitsInChamber := fun _ => [], hitsInDetId := fun _ => [],
    hitsInSuperChamber := fun _ => [],
    simHitsMeanMomentum := fun _ => { eta := 0, phi := 0, perp := 0 },
    simHitsMeanPosition := fun _ => GlobalPoint.origin,
    simHitsMeanStrip := fun _ => 0,
    LocalBendingInChamber := fun _ => 0,
    chamberIdsStrip := [], chamberIdsWire := [],
    nLayersWithStripInChamber := fun _ => 0, nLayersWithWireInChamber := fun _ => 0,
    chamberIdsCLCT := [], chamberIdsALCT := [], chamberIdsLCT := [],
    clctInChamber := fun _ => make_digi, alctInChamber := fun _ => make_digi,
    lctInChamber := fun _ => make_digi,
    digiPosition := fun _ => GlobalPoint.origin,
    passDPhicut := fun _ _ _ _ => false,
    checkStubInChamber := fun _ _ => false,
    superChamberIdsDigi := [], superChamberIdsCoPad := [],
    nLayersWithDigisInSuperChamber := fun _ => 0,
    nLayersWithPadsInSuperChamber := fun _ => 0,
    digisInSuperChamber := fun _ => [], median := fun _ => 0,
    padsInChamber := fun _ => [], coPadsInSuperChamber := fun _ => [],
    extrapolateHsfromGEMPad := fun _ _ => 0,
    digiInGEMClosestToCSC := fun _ gp => (make_digi, gp),
    simTrackPropagateGPs_odd := [(0, 0), (0, 0), (0, 0), (0, 0)],
    simTrackPropagateGPs_even := [(0, 0), (0, 0), (0, 0), (0, 0)],
    interStatPropagation_odd := fun _ => GlobalPoint.origin,
    interStatPropagation_even := fun _ => GlobalPoint.origin,
    tfTracks_size := 0, bestTFTrack := emptyTFTrack,
    tfCands_size := 0, gmtRegCands_size := 0, gmtCands_size := 0,
    getMatchedL1ExtraMuonParticles := [], getMatchedRecoTrackExtras := [],
    getMatchedRecoTracks := [], getMatchedRecoChargedCandidates := [] }

/-- Stand-ins for the external free functions: the plain difference for `deltaPhi` and
the constant 7 for the estimator. -/
def sampleExternals : Externals :=
  { deltaPhi := fun p q => p - q, Ptassign_Position_gp := fun _ _ _ _ _ => 7 }

/-- A configuration like `selectorConfig` with the station set replaced. -/
def configWith (stations : List Int) : GEMCSCAnalyzer :=
  { selectorConfig with stations_to_use_ := stations }

/-- The GEM superchamber of region 1, station 1, ring 1, chamber 1 (odd). -/
def ge11Odd : GEMDetId :=
  { region := 1, ring := 1, station := 1, layer := 0, chamber := 1, roll := 0 }

/-- Adapters of a track with GEM digis in two layers of `ge11Odd`. -/
def matchGemDigi : SimTrackMatchManager :=
  { emptyMatch with
    superChamberIdsDigi := [ge11Odd]
    nLayersWithDigisInSuperChamber := fun _ => 2 }

/-- The ME1/1b chamber (station 1, ring 1) number 1 of endcap 1: resolves to station 3. -/
def me1bOdd : CSCDetId := { endcap := 1, station := 1, ring := 1, chamber := 1 }

/-- The ME1/1a chamber (station 1, ring 4) number 1 of endcap 1: resolves to station 2. -/
def me1aOdd : CSCDetId := { endcap := 1, station := 1, ring := 4, chamber := 1 }

/-- Adapters of a track with strip digis in both rings of the ME1/1 chamber 1: six layers
in ring 1 and five layers in ring 4. -/
def matchTwoStrips : SimTrackMatchManager :=
  { emptyMatch with
    chamberIdsStrip := [me1bOdd, me1aOdd]
    nLayersWithStripInChamber := fun d => if d = DetId.csc me1bOdd then 6 else 5 }

/-- Adapters of a track for which the GEM sim-hit matcher lists the superchamber
`ge11Odd` while its hit list is empty. -/
def matchGemEmptyHits : SimTrackMatchManager :=
  { emptyMatch with superChamberIdsGEM := [ge11Odd] }

/-- A state whose records 1, 6 and 8 carry the given sim-hit and stub presence masks,
with the odd point of station `i` at eta `i`, phi 1 and the even point at eta `i`, phi 2. -/
def maskState (m1 m6 m8 : Int) : State :=
  { State.entry (fun i =>
      if i = 1 then (zeroRecord.init.setC .has_csc_sh m1).setC .has_lct m1
      else if i = 6 then (zeroRecord.init.setC .has_csc_sh m6).setC .has_lct m6
      else if i = 8 then (zeroRecord.init.setC .has_csc_sh m8).setC .has_lct m8
      else zeroRecord.init) with
    gp_sh_odd := fun i => { eta := Float_t.num i, phi := 1, z := 0 }
    gp_sh_even := fun i => { eta := Float_t.num i, phi := 2, z := 0 }
    gp_lct_odd := fun i => { eta := Float_t.num i, phi := 1, z := 0 }
    gp_lct_even := fun i => { eta := Float_t.num i, phi := 2, z := 0 } }

/-- The even ME2/1 chamber 2 of endcap 1: resolves to station 6. -/
def me21Even : CSCDetId := { endcap := 1, station := 2, ring := 1, chamber := 2 }

/-- The odd ME3/1 chamber 1 of endcap 1: resolves to station 8. -/
def me31Odd : CSCDetId := { endcap := 1, station := 3, ring := 1, chamber := 1 }

/-- The even ME3/1 chamber 2 of endcap 1: resolves to station 8. -/
def me31Even : CSCDetId := { endcap := 1, station := 3, ring := 1, chamber := 2 }

/-- Adapters of a track with six sim-hit layers in an odd ME1/1b, an even ME2/1 and an
odd ME3/1 chamber: presence odd-only, even-only, odd-only in records 1, 6, 8. -/
def matchOddEvenOdd : SimTrackMatchManager :=
  { emptyMatch with
    chamberIdsCSC := [me1bOdd, me21Even, me31Odd]
    nLayersWithHitsInSuperChamber := fun _ => 6 }

/-- Adapters of a first track: six sim-hit layers in the odd ME1/1b chamber only. -/
def matchTrackA : SimTrackMatchManager :=
  { emptyMatch with
    chamberIdsCSC := [me1bOdd]
    nLayersWithHitsInSuperChamber := fun _ => 6 }

/-- Adapters of a second track: six sim-hit layers in an even ME2/1 and an even ME3/1
chamber, nothing in station 1. -/
def matchTrackB : SimTrackMatchManager :=
  { emptyMatch with
    chamberIdsCSC := [me21Even, me31Even]
    nLayersWithHitsInSuperChamber := fun _ => 6 }

/-! ## Vocabulary of the claims -/

/-- The CSC response categories of `analyzeTrackEff`, in the order of its passes. -/
inductive CscCategory where
  | simHit | strip | wire | clct | alct | lct
deriving DecidableEq

/-- The loop body of a CSC category. -/
def cscStep (cat : CscCategory) (a : GEMCSCAnalyzer) (m : SimTrackMatchManager)
    (s : State) (c : CSCDetId) : State :=
  match cat with
  | .simHit => cscSimHitStep a m s c
  | .strip => cscStripStep a m s c
  | .wire => cscWireStep a m s c
  | .clct => cscCLCTStep a m s c
  | .alct => cscALCTStep a m s c
  | .lct => cscLCTStep a m s c

/-- Whether the id passes the minimum-layer gate of the category (the CLCT, ALCT and LCT
passes have none). -/
def cscGatePassed (cat : CscCategory) (a : GEMCSCAnalyzer) (m : SimTrackMatchManager)
    (c : CSCDetId) : Bool :=
  match cat with
  | .simHit => !decide (cscSimHitLayers m c < a.minNHitsChamberCSCSimHit_)
  | .strip => !decide (m.nLayersWithStripInChamber c.rawId < a.minNHitsChamberCSCStripDigi_)
  | .wire => !decide (m.nLayersWithWireInChamber c.rawId < a.minNHitsChamberCSCWireDigi_)
  | _ => true

/-- The `Int_t` members of the (category, parity) slot that the loop body always
assigns; `odd = true` is the odd slot. -/
def slotInt : CscCategory → Bool → List IntField
  | .simHit, true => [.nlayers_csc_sh_odd]
  | .simHit, false => [.nlayers_csc_sh_even]
  | .strip, true => [.nlayers_st_dg_odd]
  | .strip, false => [.nlayers_st_dg_even]
  | .wire, true => [.nlayers_wg_dg_odd]
  | .wire, false => [.nlayers_wg_dg_even]
  | .clct, true => [.halfstrip_odd, .quality_clct_odd]
  | .clct, false => [.halfstrip_even, .quality_clct_even]
  | .alct, true => [.wiregroup_odd, .quality_alct_odd]
  | .alct, false => [.wiregroup_even, .quality_alct_even]
  | .lct, true => [.bend_lct_odd, .bx_lct_odd, .quality_odd]
  | .lct, false => [.bend_lct_even, .bx_lct_even, .quality_even]

/-- The `Float_t` members of the (category, parity) slot that the loop body always
assigns. -/
def slotFloat : CscCategory → Bool → List FloatField
  | .simHit, _ => [.pteta_sh, .ptphi_sh, .pt_sh, .bending_sh]
  | .lct, true => [.phi_lct_odd, .eta_lct_odd, .dphi_lct_odd, .hs_lct_odd, .wg_lct_odd]
  | .lct, false => [.phi_lct_even, .eta_lct_even, .dphi_lct_even, .hs_lct_even, .wg_lct_even]
  | _, _ => []

/-- The `Bool_t` members of the (category, parity) slot that the loop body always
assigns. -/
def slotBool : CscCategory → Bool → List BoolField
  | .lct, true => [.passdphi_odd]
  | .lct, false => [.passdphi_even]
  | _, _ => []

/-- The presence bits of the (category, parity) slot: a mask member and the bit the loop
body sets in it. -/
def slotMask : CscCategory → Bool → List (CharField × Int)
  | .simHit, true => [(.has_csc_sh, 1)]
  | .simHit, false => [(.has_csc_sh, 2)]
  | .strip, true => [(.has_csc_strips, 1)]
  | .strip, false => [(.has_csc_strips, 2)]
  | .wire, true => [(.has_csc_wires, 1)]
  | .wire, false => [(.has_csc_wires, 2)]
  | .clct, true => [(.has_clct, 1)]
  | .clct, false => [(.has_clct, 2)]
  | .alct, true => [(.has_alct, 1)]
  | .alct, false => [(.has_alct, 2)]
  | .lct, true => [(.has_lct, 1), (.chamber_odd, 2)]
  | .lct, false => [(.has_lct, 2), (.chamber_even, 2)]

/-- Records `r` and `r1` agree on the slot of the category and parity: equal values in
every member of the slot, and every presence bit of the slot set in both. -/
def SlotAgrees (cat : CscCategory) (odd : Bool) (r r1 : MyTrackEff) : Prop :=
  (∀ f ∈ slotInt cat odd, r.int_ f = r1.int_ f) ∧
  (∀ f ∈ slotFloat cat odd, r.float_ f = r1.float_ f) ∧
  (∀ f ∈ slotBool cat odd, r.bool_ f = r1.bool_ f) ∧
  (∀ p ∈ slotMask cat odd, Int.land (r.char_ p.1) p.2 = p.2 ∧ Int.land (r1.char_ p.1) p.2 = p.2)

/-- Going from state `s` to state `t`, every member of record `st` whose value changed
has the identical value in record 1; for the `Char_t` masks this is said of each of the
two parity bits. The `Float_t` members listed in `except` are left out. -/
def ChangedMirrored (except : List FloatField) (s t : State) (st : Int) : Prop :=
  (∀ f : IntField, (t.etrk_ st).int_ f ≠ (s.etrk_ st).int_ f →
    (t.etrk_ 1).int_ f = (t.etrk_ st).int_ f) ∧
  (∀ f : UIntField, (t.etrk_ st).uint_ f ≠ (s.etrk_ st).uint_ f →
    (t.etrk_ 1).uint_ f = (t.etrk_ st).uint_ f) ∧
  (∀ f : BoolField, (t.etrk_ st).bool_ f ≠ (s.etrk_ st).bool_ f →
    (t.etrk_ 1).bool_ f = (t.etrk_ st).bool_ f) ∧
  (∀ f : FloatField, f ∉ except → (t.etrk_ st).float_ f ≠ (s.etrk_ st).float_ f →
    (t.etrk_ 1).float_ f = (t.etrk_ st).float_ f) ∧
  (∀ f : CharField, ∀ b : Int, b = 1 ∨ b = 2 →
    Int.land ((t.etrk_ st).char_ f) b ≠ Int.land ((s.etrk_ st).char_ f) b →
    Int.land ((t.etrk_ 1).char_ f) b = Int.land ((t.etrk_ st).char_ f) b)

/-- The four parity combinations in the priority order of the specification: the parity
bit required in the presence masks of records 1, 6 and 8 (1 is odd, 2 is even), then the
parity-path tag. -/
def parityCombinations : List (Int × Int × Int × Int) :=
  [(1, 2, 2, 0), (1, 1, 1, 1), (2, 2, 2, 2), (2, 1, 1, 3)]

/-- All three stations report presence in the parity the combination requires. -/
def combinationPresent (m1 m6 m8 : Int) (c : Int × Int × Int × Int) : Bool :=
  decide (Int.land m1 c.1 > 0 ∧ Int.land m6 c.2.1 > 0 ∧ Int.land m8 c.2.2.1 > 0)

/-- The first combination, in priority order, that is present. -/
def firstCombination (m1 m6 m8 : Int) : Option (Int × Int × Int × Int) :=
  parityCombinations.find? (combinationPresent m1 m6 m8)

/-- The point of station record `i` in the parity given by the bit: the odd point for
bit 1, the even point otherwise. -/
def parityPoint (gp_odd gp_even : Int → GlobalPoint) (bit i : Int) : GlobalPoint :=
  if bit = 1 then gp_odd i else gp_even i

/-- The call of the external estimator that the specification prescribes for a
combination: its three points, the pseudorapidity of record 0 and its tag. -/
def callFor (gp_odd gp_even : Int → GlobalPoint) (eta : Float_t)
    (c : Int × Int × Int × Int) : PtCall :=
  { gp1 := parityPoint gp_odd gp_even c.1 1
    gp2 := parityPoint gp_odd gp_even c.2.1 6
    gp3 := parityPoint gp_odd gp_even c.2.2.1 8
    eta := eta
    npar := c.2.2.2 }

/-- The member array an earlier call of `analyzeTrackEff` left behind, or `fallback` if
that call threw. -/
def recordsAfter (r : Except Fault State) (fallback : Int → MyTrackEff) : Int → MyTrackEff :=
  match r with
  | Except.ok s => s.etrk_
  | Except.error _ => fallback

/-! ## `analyzeTrackChamberDeltas` -/

/-- The matcher queries that only `analyzeTrackChamberDeltas` makes (`GEMDigiMatcher`,
`CSCDigiMatcher`) and the accessor `GEMDetId(digi_id(d)).roll()` of `Helpers.h`. -/
structure DeltaQueries where
  nPads : Int
  nCoincidenceStripChambers : Int → Int
  nCoincidenceWireChambers : Int → Int
  stripDigisInChamber : DetId → List Digi
  wireDigisInChamber : DetId → List Digi
  digisCSCMedianPosition : List Digi → List Digi → GlobalPoint
  padsInSuperChamber : DetId → List Digi
  digi_roll : Digi → Int

/-- The C++ `struct MyTrackChamberDelta`, member by member. -/
structure MyTrackChamberDelta where
  odd : Bool
  charge : Int
  endcap : Int
  station : Int
  chamber : Int
  roll : Int
  bend : Int
  pt : Float_t
  eta : Float_t
  phi : Float_t
  csc_sh_phi : Float_t
  csc_dg_phi : Float_t
  gem_sh_phi : Float_t
  gem_dg_phi : Float_t
  gem_pad_phi : Float_t
  dphi_sh : Float_t
  dphi_dg : Float_t
  dphi_pad : Float_t
  csc_sh_eta : Float_t
  csc_dg_eta : Float_t
  gem_sh_eta : Float_t
  gem_dg_eta : Float_t
  gem_pad_eta : Float_t
  deta_sh : Float_t
  deta_dg : Float_t
  deta_pad : Float_t
  csc_lct_phi : Float_t
  dphi_lct_pad : Float_t
  csc_lct_eta : Float_t
  deta_lct_pad : Float_t
  dphi_gem_sh_csc_sh : Float_t
  dphi_gem_dg_csc_dg : Float_t
  dphi_gem_pad_csc_lct : Float_t
  dphi_gem_rh_csc_seg : Float_t
deriving DecidableEq

/-- What `analyzeTrackChamberDeltas` mutates: the member `dtrk_` and the delta table, to
which `tree_delta_->Fill()` appends the current `dtrk_`. Each row is logged together with
the pair of ids of the iteration that filled it (a ghost tag: the table has no such
column). -/
structure DeltaState where
  dtrk_ : MyTrackChamberDelta
  rows : List (CSCDetId × GEMDetId × MyTrackChamberDelta)

/-- The literal `0.001` of the two `z` tests. -/
def zCut : Float_t := Float_t.num (1 / 1000)

/-- The assignments to `dtrk_` between the size test and `tree_delta_->Fill()`. -/
def deltaRowFill (q : DeltaQueries) (x : Externals)
    (csc_id : CSCDetId) (is_odd : Bool) (csc_sh_gp csc_dg_gp csc_lct_gp : GlobalPoint)
    (lct_digi : Digi) (gem_sh_gp gem_dg_gp gem_pad_gp : GlobalPoint) (best_gem_pad : Digi)
    (d : MyTrackChamberDelta) : MyTrackChamberDelta :=
  let d := { d with
    odd := is_odd
    chamber := csc_id.chamber
    endcap := csc_id.endcap
    roll := q.digi_roll best_gem_pad
    csc_sh_phi := csc_sh_gp.phi
    csc_dg_phi := csc_dg_gp.phi
    gem_sh_phi := gem_sh_gp.phi
    gem_dg_phi := gem_dg_gp.phi
    gem_pad_phi := gem_pad_gp.phi
    dphi_sh := x.deltaPhi csc_sh_gp.phi gem_sh_gp.phi
    dphi_dg := x.deltaPhi csc_dg_gp.phi gem_dg_gp.phi
    dphi_pad := x.deltaPhi csc_dg_gp.phi gem_pad_gp.phi
    csc_sh_eta := csc_sh_gp.eta
    csc_dg_eta := csc_dg_gp.eta
    gem_sh_eta := gem_sh_gp.eta
    gem_dg_eta := gem_dg_gp.eta
    gem_pad_eta := gem_pad_gp.eta
    deta_sh := csc_sh_gp.eta - gem_sh_gp.eta
    deta_dg := csc_dg_gp.eta - gem_dg_gp.eta
    deta_pad := csc_dg_gp.eta - gem_pad_gp.eta
    bend := -99
    csc_lct_phi := -99
    dphi_lct_pad := -99
    csc_lct_eta := -99
    deta_lct_pad := -99 }
  if Float_t.gt (Float_t.abs csc_lct_gp.z) zCut then
    { d with
      bend := bendPattern (digi_pattern lct_digi)
      csc_lct_phi := csc_lct_gp.phi
      dphi_lct_pad := x.deltaPhi csc_lct_gp.phi gem_pad_gp.phi
      csc_lct_eta := csc_lct_gp.eta
      deta_lct_pad := csc_lct_gp.eta - gem_pad_gp.eta }
  else d

/-- Body of the inner loop over `match_gd.superChamberIdsDigi()`. -/
def deltaGemStep (m : SimTrackMatchManager) (q : DeltaQueries) (x : Externals)
    (csc_id : CSCDetId) (is_odd : Bool) (region : Int)
    (csc_sh_gp csc_dg_gp csc_lct_gp : GlobalPoint) (lct_digi : Digi)
    (ds : DeltaState) (gem_id : GEMDetId) : DeltaState :=
  let gem_d := gem_id.rawId
  -- gotta be the same endcap
  if gem_id.region ≠ region then ds else
  -- gotta be the same chamber#
  if gem_id.chamber ≠ csc_id.chamber then ds else
  let gem_sh := m.hitsInSuperChamber gem_d
  let gem_sh_gp := m.simHitsMeanPosition gem_sh
  let gem_dg := m.digisInSuperChamber gem_d
  let gem_dg_and_gp := m.digiInGEMClosestToCSC gem_dg csc_dg_gp
  let gem_dg_gp := gem_dg_and_gp.2
  let gem_pads := q.padsInSuperChamber gem_d
  let gem_pad_and_gp := m.digiInGEMClosestToCSC gem_pads csc_dg_gp
  let best_gem_pad := gem_pad_and_gp.1
  let gem_pad_gp := gem_pad_and_gp.2
  if gem_sh.length = 0 ∨ gem_dg.length = 0 ∨ gem_pads.length = 0 then ds else
  let d := deltaRowFill q x csc_id is_odd csc_sh_gp csc_dg_gp csc_lct_gp lct_digi
    gem_sh_gp gem_dg_gp gem_pad_gp best_gem_pad ds.dtrk_
  { dtrk_ := d, rows := ds.rows ++ [(csc_id, gem_id, d)] }

/-- Body of the outer loop over `match_cd.chamberIdsStrip()`. -/
def deltaCscStep (a : GEMCSCAnalyzer) (m : SimTrackMatchManager) (q : DeltaQueries)
    (x : Externals) (ds : DeltaState) (csc_id : CSCDetId) : DeltaState :=
  let csc_d := csc_id.rawId
  -- require CSC chamber to have at least 4 layers with comparator digis
  if m.nLayersWithStripInChamber csc_d < a.minNHitsChamberCSCStripDigi_ then ds else
  let is_odd : Bool := decide (Int.land csc_id.chamber 1 ≠ 0)
  let region : Int := if csc_id.endcap = 1 then 1 else -1
  let csc_sh := m.hitsInChamber csc_d
  let csc_sh_gp := m.simHitsMeanPosition csc_sh
  let csc_sd := q.stripDigisInChamber csc_d
  let csc_wd := q.wireDigisInChamber csc_d
  let csc_dg_gp := q.digisCSCMedianPosition csc_sd csc_wd
  if Float_t.lt (Float_t.abs csc_dg_gp.z) zCut then ds else
  let lct_digi := m.lctInChamber csc_d
  let csc_lct_gp := if is_valid lct_digi then m.digiPosition lct_digi else GlobalPoint.origin
  m.superChamberIdsDigi.foldl
    (deltaGemStep m q x csc_id is_odd region csc_sh_gp csc_dg_gp csc_lct_gp lct_digi) ds

/-- The test that opens the delta block: at least one pad and at least one coincidence
strip chamber and one coincidence wire chamber at the configured thresholds. -/
def deltaTrackGate (a : GEMCSCAnalyzer) (q : DeltaQueries) : Bool :=
  decide (q.nPads > 0) &&
  decide (q.nCoincidenceStripChambers a.minNHitsChamberCSCStripDigi_ > 0) &&
  decide (q.nCoincidenceWireChambers a.minNHitsChamberCSCWireDigi_ > 0)

/-- The C++ `GEMCSCAnalyzer::analyzeTrackChamberDeltas`, without its console output. -/
def analyzeTrackChamberDeltas (a : GEMCSCAnalyzer) (m : SimTrackMatchManager)
    (q : DeltaQueries) (x : Externals) (ds : DeltaState) : DeltaState :=
  if deltaTrackGate a q then
    let t := m.trk
    let ds := { ds with dtrk_ := { ds.dtrk_ with
      pt := t.pt, phi := t.phi, eta := t.eta, charge := t.charge } }
    m.chamberIdsStrip.foldl (deltaCscStep a m q x) ds
  else ds

/-! ## `analyze` -/

/-- What `analyze` leaves behind: the member arrays `etrk_` and `dtrk_`, the rows of the
per-station tables in the order they were filled, each with the number `trk_no` of the
track and the station index of its table (ghost tags), the rows of the delta table, and
the track counter. -/
structure Output where
  etrk_ : Int → MyTrackEff
  delta : DeltaState
  effRows : List (Nat × Int × MyTrackEff)
  trk_no : Nat

/-- The state in which the first event is analysed: no rows yet. -/
def Output.start (etrk : Int → MyTrackEff) (dtrk : MyTrackChamberDelta) : Output :=
  { etrk_ := etrk, delta := { dtrk_ := dtrk, rows := [] }, effRows := [], trk_no := 0 }

/-- Body of the loop `for (auto& t: sim_track)` of `analyze`; `matchOf t` stands for the
construction `SimTrackMatchManager match(t, ...)`. An exception thrown by
`analyzeTrackEff` leaves the loop. -/
def analyzeStep (a : GEMCSCAnalyzer) (x : Externals)
    (matchOf : SimTrack → SimTrackMatchManager × DeltaQueries)
    (o : Output) (t : SimTrack) : Except Fault Output :=
  if !isSimTrackGood a t then pure o else
  let m := (matchOf t).1
  let q := (matchOf t).2
  let o :=
    if a.ntupleTrackChamberDelta_ then
      { o with delta := analyzeTrackChamberDeltas a m q x o.delta }
    else o
  if a.ntupleTrackEff_ then do
    let s ← analyzeTrackEff a m x o.etrk_
    pure { o with
      etrk_ := s.etrk_
      effRows := o.effRows ++ (emittedRows a s).map (fun r => (o.trk_no, r))
      trk_no := o.trk_no + 1 }
  else pure { o with trk_no := o.trk_no + 1 }

/-- The C++ `GEMCSCAnalyzer::analyze` on the truth tracks of one event. -/
def analyze (a : GEMCSCAnalyzer) (x : Externals)
    (matchOf : SimTrack → SimTrackMatchManager × DeltaQueries)
    (tracks : List SimTrack) (o : Output) : Except Fault Output :=
  tracks.foldlM (analyzeStep a x matchOf) o

/-! ## Constructor: the station list -/

/-- One element access of the constructor loop over `stations_to_use_`. -/
inductive Access where
  | cscStations (i : Int)
  | etrk (i : Int)
  | tree_eff (i : Int)
deriving DecidableEq

/-- The `std::set<int>` built from the parameter `cscStationsToUse`, in iteration order:
ascending and without duplicates. -/
def stationSet (cscStationsToUse : List Int) : List Int :=
  (cscStationsToUse.dedup).insertionSort (fun p q => decide (p ≤ q))

/-- The block `if (ntupleTrackEff_) { ... }` of the constructor: the set it stores in
`stations_to_use_` and the element accesses it makes, in order. No statement of the block
compares an index with the size of `cscStations_` or with the 12 elements of `etrk_` and
`tree_eff_`, and none throws. -/
def constructStations (ntupleTrackEff_ : Bool) (cscStationsToUse : List Int) :
    List Int × List Access :=
  if ntupleTrackEff_ then
    let stations_to_use_ := stationSet cscStationsToUse
    (stations_to_use_,
      stations_to_use_.flatMap (fun s =>
        [Access.cscStations s, Access.cscStations s, Access.etrk s, Access.tree_eff s,
          Access.tree_eff s]))
  else ([], [])
/-! ## Vocabulary of the claims on whole runs -/

/-- The C++ `a >= b`: false as soon as one side is NaN. -/
def Float_t.ge : Float_t → Float_t → Bool
  | Float_t.num a, Float_t.num b => decide (b ≤ a)
  | _, _ => false

/-- Between the states `s` and `t` every record keeps the value of the listed `Char_t`,
`Int_t` and `Float_t` members. -/
def Keeps (C : List CharField) (I : List IntField) (R : List FloatField)
    (s t : State) : Prop :=
  ∀ j : Int, (∀ F ∈ C, (t.etrk_ j).char_ F = (s.etrk_ j).char_ F) ∧
    (∀ F ∈ I, (t.etrk_ j).int_ F = (s.etrk_ j).int_ F) ∧
    (∀ F ∈ R, (t.etrk_ j).float_ F = (s.etrk_ j).float_ F)

/-- The shape of the inputs for which no bounds-checked access `.at()` of
`analyzeTrackEff` throws: station indices within the 12 rows of `cscStationsCo_`, one
propagated point per station 1..4, and, when there is a track-finder track, parallel stub
vectors whose ids lie in stations 1..4. -/
def WellFormed (a : GEMCSCAnalyzer) (m : SimTrackMatchManager) : Prop :=
  (∀ i ∈ a.stations_to_use_, 0 ≤ i ∧ i < 12) ∧
  4 ≤ m.simTrackPropagateGPs_odd.length ∧ 4 ≤ m.simTrackPropagateGPs_even.length ∧
  (m.tfTracks_size ≠ 0 →
    m.bestTFTrack.getTriggerDigisIds.length = m.bestTFTrack.getTriggerDigis.length ∧
    m.bestTFTrack.getTriggerEtaPhis.length = m.bestTFTrack.getTriggerDigis.length ∧
    ∀ id ∈ m.bestTFTrack.getTriggerDigisIds, 1 ≤ id.station ∧ id.station ≤ 4)
/-! ## Vocabulary and inputs of the claims on sentinels, bend codes, gates and rows -/

/-- The partner of an ME1/1 chamber: the chamber with the same endcap, station and chamber
number in the other of the rings 1 and 4. -/
def partnerChamber (id : CSCDetId) : CSCDetId :=
  { endcap := id.endcap, station := id.station, ring := if id.ring = 1 then 4 else 1,
    chamber := id.chamber }

/-- The layer count of the ME1/1 merge, as the claim words it: for an id in station 1,
ring 1 or 4, the own count plus the count of the partner when the partner is in the
track's CSC sim-hit id set; the own count otherwise. -/
def mergedLayerCount (m : SimTrackMatchManager) (id : CSCDetId) : Int :=
  if id.station = 1 ∧ (id.ring = 1 ∨ id.ring = 4) then
    if partnerChamber id ∈ m.chamberIdsCSC then
      m.nLayersWithHitsInSuperChamber id.rawId
        + m.nLayersWithHitsInSuperChamber (partnerChamber id).rawId
    else m.nLayersWithHitsInSuperChamber id.rawId
  else m.nLayersWithHitsInSuperChamber id.rawId

/-- Modelled from the spec: the closest-candidate query `digiInGEMClosestToCSC` of the GEM
digi matcher (not among the sources). Among the candidates it returns the one whose
position `pos d` is nearest to the reference point by the distance `dist`, the first in
input order among ties, together with that position; for an empty list the invalid digi
and the default point. -/
def closestCandidate (dist : GlobalPoint → GlobalPoint → ℚ) (pos : Digi → GlobalPoint)
    (candidates : List Digi) (ref : GlobalPoint) : Digi × GlobalPoint :=
  match candidates with
  | [] => (make_digi, GlobalPoint.origin)
  | d :: rest =>
    rest.foldl (fun best c => if dist (pos c) ref < dist best.2 ref then (c, pos c) else best)
      (d, pos d)

/-- A valid pad on channel `ch`. -/
def padAt (ch : Int) : Digi :=
  { valid := true, channel := ch, bx := ch, quality := 0, pattern := 0, wg := 0, dphi := 0 }

/-- Position of the pad `padAt ch` in the example of the closest-candidate claim: at the
azimuth `phi0 + ch / 100`, on the circle of the reference point. -/
def padPosition (phi0 : ℚ) (d : Digi) : GlobalPoint :=
  { eta := 2, phi := Float_t.num (phi0 + d.channel / 100), z := 0 }

/-- Distance of two points of one circle, measured by their azimuth difference; the 3D
distance of such points grows with it. -/
def azimuthDistance (p q : GlobalPoint) : ℚ :=
  match p.phi, q.phi with
  | Float_t.num a, Float_t.num b => |a - b|
  | _, _ => 0

/-- The pairs (CSC strip-digi chamber, GEM digi superchamber) of a track in the nested
iteration order of `analyzeTrackChamberDeltas`. -/
def deltaPairs (m : SimTrackMatchManager) : List (CSCDetId × GEMDetId) :=
  m.chamberIdsStrip.flatMap (fun c => m.superChamberIdsDigi.map (fun g => (c, g)))

/-- The condition of the delta-row claim on a pair, in its words. -/
def deltaRowCondition (a : GEMCSCAnalyzer) (m : SimTrackMatchManager) (q : DeltaQueries)
    (p : CSCDetId × GEMDetId) : Bool :=
  decide (q.nPads ≥ 1) &&
  decide (q.nCoincidenceStripChambers a.minNHitsChamberCSCStripDigi_ ≥ 1) &&
  decide (q.nCoincidenceWireChambers a.minNHitsChamberCSCWireDigi_ ≥ 1) &&
  decide (m.nLayersWithStripInChamber p.1.rawId ≥ a.minNHitsChamberCSCStripDigi_) &&
  Float_t.ge (Float_t.abs (q.digisCSCMedianPosition (q.stripDigisInChamber p.1.rawId)
    (q.wireDigisInChamber p.1.rawId)).z) zCut &&
  decide (p.2.region = if p.1.endcap = 1 then 1 else -1) &&
  decide (p.2.chamber = p.1.chamber) &&
  decide ((m.hitsInSuperChamber p.2.rawId) ≠ []) &&
  decide ((m.digisInSuperChamber p.2.rawId) ≠ []) &&
  decide ((q.padsInSuperChamber p.2.rawId) ≠ [])

/-- An LCT on half-strip 0 and wire group 0 with quality 0 and pattern 5. -/
def lctZero : Digi :=
  { valid := true, channel := 0, bx := 6, quality := 0, pattern := 5, wg := 0, dphi := 0 }

/-- Adapters of a track with a CLCT and the LCT `lctZero` in the odd ME1/1b chamber 1. -/
def matchLctZero : SimTrackMatchManager :=
  { emptyMatch with
    chamberIdsCLCT := [me1bOdd]
    chamberIdsLCT := [me1bOdd]
    lctInChamber := fun _ => lctZero }

/-- Adapters of a track with exactly four layers (the configured minimum of
`selectorConfig`) of sim hits, strip digis and wire digis in the even ME2/1 chamber 2. -/
def matchExactlyMin : SimTrackMatchManager :=
  { emptyMatch with
    chamberIdsCSC := [me21Even]
    chamberIdsStrip := [me21Even]
    chamberIdsWire := [me21Even]
    nLayersWithHitsInSuperChamber := fun _ => 4
    nLayersWithStripInChamber := fun _ => 4
    nLayersWithWireInChamber := fun _ => 4 }

/-- Adapters of a track with sim hits in both rings of the ME1/1 chamber 1: three layers in
ring 1 and two layers in ring 4. -/
def matchMerged : SimTrackMatchManager :=
  { emptyMatch with
    chamberIdsCSC := [me1bOdd, me1aOdd]
    nLayersWithHitsInSuperChamber := fun d => if d = DetId.csc me1bOdd then 3 else 2 }

/-- Delta queries of a track with one pad and one coincidence chamber of each kind; every
median position is at `z = 600`. -/
def sampleQueries : DeltaQueries :=
  { nPads := 1, nCoincidenceStripChambers := fun _ => 1, nCoincidenceWireChambers := fun _ => 1,
    stripDigisInChamber := fun _ => [], wireDigisInChamber := fun _ => [],
    digisCSCMedianPosition := fun _ _ => { eta := 2, phi := 0, z := Float_t.num 600 },
    padsInSuperChamber := fun _ => [padAt 3], digi_roll := fun _ => 1 }

/-- The GEM superchamber of region 1, station 1, ring 1, chamber 2 (even). -/
def ge11Even : GEMDetId :=
  { region := 1, ring := 1, station := 1, layer := 0, chamber := 2, roll := 0 }

/-- Adapters of a track with six strip layers in the odd ME1/1b chamber 1 and GEM sim hits
and digis in the superchambers of chamber 1 and chamber 2. -/
def matchDelta : SimTrackMatchManager :=
  { emptyMatch with
    chamberIdsStrip := [me1bOdd]
    nLayersWithStripInChamber := fun _ => 6
    superChamberIdsDigi := [ge11Even, ge11Odd]
    hitsInSuperChamber := fun _ => [{ handle := 0 }]
    digisInSuperChamber := fun _ => [padAt 3] }

/-- A truth track that the selector of `selectorConfig` rejects: pt 1 is below the cut. -/
def softTrack : SimTrack :=
  { noVertex := false, noGenpart := false, type := 13, pt := Float_t.num 1,
    eta := Float_t.num 2, phi := Float_t.num 0, charge := 1 }

/-- The all-zero delta record. -/
def zeroDelta : MyTrackChamberDelta :=
  { odd := false, charge := 0, endcap := 0, station := 0, chamber := 0, roll := 0, bend := 0,
    pt := 0, eta := 0, phi := 0, csc_sh_phi := 0, csc_dg_phi := 0, gem_sh_phi := 0,
    gem_dg_phi := 0, gem_pad_phi := 0, dphi_sh := 0, dphi_dg := 0, dphi_pad := 0,
    csc_sh_eta := 0, csc_dg_eta := 0, gem_sh_eta := 0, gem_dg_eta := 0, gem_pad_eta := 0,
    deta_sh := 0, deta_dg := 0, deta_pad := 0, csc_lct_phi := 0, dphi_lct_pad := 0,
    csc_lct_eta := 0, deta_lct_pad := 0, dphi_gem_sh_csc_sh := 0, dphi_gem_dg_csc_dg := 0,
    dphi_gem_pad_csc_lct := 0, dphi_gem_rh_csc_seg := 0 }

/-- Adapters whose closest-candidate query is the spec-modelled one on the example pads. -/
def matchClosest : SimTrackMatchManager :=
  { emptyMatch with digiInGEMClosestToCSC := closestCandidate azimuthDistance (padPosition 1) }

/-- A state with a valid odd LCT of station 3 at azimuth 1. -/
def stateWithLct : State :=
  { State.entry freshRecords with
    lct_odd := fun _ => lctZero
    gp_lct_odd := fun _ => { eta := 2, phi := 1, z := 0 } }
/-! ## Properties -/

/-! ### Track selector -/

/-- C2. For every (station, ring) pair of the table `cscStationsCo_`, `detIdToMEStation`
returns the unique index `i` in 0..11 with `cscStationsCo_[i] = (station, ring)`; the
table has no duplicates, reading the table at an index and looking the pair up gives the
index back, and (1,4), (1,1), (2,1), (3,1) map to 2, 3, 6, 8. -/
theorem detIdToMEStation_table (st ri : Int) (h : (st, ri) ∈ cscStationsCo_) :
    (∃ i : Nat, i < 12 ∧ detIdToMEStation st ri = (i : Int) ∧
        cscStationsCo_.get? i = some (st, ri) ∧
        ∀ j : Nat, cscStationsCo_.get? j = some (st, ri) → j = i) ∧
      cscStationsCo_.Nodup ∧
      (∀ i : Nat, ∀ p : Int × Int, cscStationsCo_.get? i = some p →
        detIdToMEStation p.1 p.2 = (i : Int)) ∧
      detIdToMEStation 1 4 = 2 ∧ detIdToMEStation 1 1 = 3 ∧
      detIdToMEStation 2 1 = 6 ∧ detIdToMEStation 3 1 = 8 := by
  have hnd : cscStationsCo_.Nodup := by decide
  have hread : ∀ i : Nat, ∀ p : Int × Int, cscStationsCo_.get? i = some p →
      detIdToMEStation p.1 p.2 = (i : Int) := by
    intro i p hp
    have hi : i < cscStationsCo_.length := (List.get?_eq_some.mp hp).1
    have hlen : cscStationsCo_.length = 12 := rfl
    rw [hlen] at hi
    interval_cases i <;> simp [cscStationsCo_] at hp <;> subst hp <;> decide
  refine ⟨?_, hnd, hread, by decide, by decide, by decide, by decide⟩
  obtain ⟨i, hi⟩ := List.mem_iff_get?.mp h
  have hlt : i < cscStationsCo_.length := (List.get?_eq_some.mp hi).1
  refine ⟨i, hlt, hread i (st, ri) hi, hi, ?_⟩
  intro j hj
  have h1 := hread i (st, ri) hi
  have h2 := hread j (st, ri) hj
  have : (j : Int) = (i : Int) := by rw [← h1, ← h2]
  exact_mod_cast this

/-- The pair (2,1) of the table is found at index 6. -/
theorem detIdToMEStation_table_witness :
    ∃ i : Nat, i < 12 ∧ detIdToMEStation 2 1 = (i : Int) ∧
      cscStationsCo_.get? i = some (2, 1) ∧
      ∀ j : Nat, cscStationsCo_.get? j = some (2, 1) → j = i :=
  (detIdToMEStation_table 2 1 (by decide)).1

/-- The lookup never exceeds the table length. -/
theorem detIdToMEStation_range (st ri : Int) :
    0 ≤ detIdToMEStation st ri ∧ detIdToMEStation st ri ≤ 12 := by
  unfold detIdToMEStation
  have h : List.findIdx (fun q => decide (q = (st, ri))) cscStationsCo_ ≤ cscStationsCo_.length :=
    List.findIdx_le_length _
  have hlen : cscStationsCo_.length = 12 := rfl
  rw [hlen] at h
  constructor
  · exact Int.natCast_nonneg _
  · show ((List.findIdx (fun q => decide (q = (st, ri))) cscStationsCo_ : Nat) : Int) ≤ 12
    exact_mod_cast h

/-! ### Record initialisation -/

/-- C10. `MyTrackEff::init` overwrites every member: applied to any two records it gives
equal records, so it is a constant function on the record type and idempotent. -/
theorem init_const (r1 r2 : MyTrackEff) : r1.init = r2.init ∧ r1.init.init = r1.init := by
  have key : ∀ p q : MyTrackEff, p.init = q.init := by
    intro p q
    have hi : ∀ f, p.init.int_ f = q.init.int_ f := by
      intro f; cases f <;> exact (by with_unfolding_all rfl)
    have hu : ∀ f, p.init.uint_ f = q.init.uint_ f := by
      intro f; cases f <;> exact (by with_unfolding_all rfl)
    have hc : ∀ f, p.init.char_ f = q.init.char_ f := by
      intro f; cases f <;> exact (by with_unfolding_all rfl)
    have hb : ∀ f, p.init.bool_ f = q.init.bool_ f := by
      intro f; cases f <;> exact (by with_unfolding_all rfl)
    have hf : ∀ f, p.init.float_ f = q.init.float_ f := by
      intro f; cases f <;> exact (by with_unfolding_all rfl)
    cases h1 : p.init; cases h2 : q.init
    rw [h1] at hi hu hc hb hf; rw [h2] at hi hu hc hb hf
    simp only [MyTrackEff.mk.injEq]
    exact ⟨funext hi, funext hu, funext hc, funext hb, funext hf⟩
  exact ⟨key r1 r2, key r1.init r1⟩

/-! ### Station gate of the feature aggregator -/

/-- With no station configured for `st`, `count` is zero. -/
theorem count_eq_zero_of_not_mem (a : GEMCSCAnalyzer) (st : Int)
    (h : st ∉ a.stations_to_use_) : a.count st = 0 := by
  simp [GEMCSCAnalyzer.count, h]

/-- Every CSC pass leaves the state as it is for an id whose station is not configured. -/
theorem csc_steps_skip (a : GEMCSCAnalyzer) (m : SimTrackMatchManager) (s : State)
    (c : CSCDetId) (h : detIdToMEStation c.station c.ring ∉ a.stations_to_use_) :
    cscSimHitStep a m s c = s ∧ cscStripStep a m s c = s ∧ cscWireStep a m s c = s ∧
      cscCLCTStep a m s c = s ∧ cscALCTStep a m s c = s ∧ cscLCTStep a m s c = s := by
  have h0 := count_eq_zero_of_not_mem a _ h
  refine ⟨?_, ?_, ?_, ?_, ?_, ?_⟩
  · simp [cscSimHitStep, h0]
  · simp [cscStripStep, h0]
  · simp [cscWireStep, h0]
  · simp [cscCLCTStep, h0]
  · simp [cscALCTStep, h0]
  · simp [cscLCTStep, h0]

/-- The GEM passes that test the looked-up station leave the state as it is for an id
whose looked-up station is not configured or whose GEM station is 2. -/
theorem gem_steps_skip (a : GEMCSCAnalyzer) (m : SimTrackMatchManager) (x : Externals)
    (s : State) (g : GEMDetId)
    (h : ∀ ME, gemMEStation g = some ME → detIdToMEStation ME g.ring ∉ a.stations_to_use_) :
    gemSimHitStep a m x s g = s ∧ gemDigiStep a m x s g = s ∧ gemCoPadStep a m s g = s := by
  cases hME : gemMEStation g with
  | none => simp [gemSimHitStep, gemDigiStep, gemCoPadStep, hME]
  | some ME =>
    have h0 := count_eq_zero_of_not_mem a _ (h ME hME)
    simp [gemSimHitStep, gemDigiStep, gemCoPadStep, hME, h0]

/-- The second GEM digi pass leaves the state as it is unless the looked-up station is 2
or 3 and station 1 is configured. -/
theorem gemDigiStepME11_skip (a : GEMCSCAnalyzer) (m : SimTrackMatchManager) (x : Externals)
    (s : State) (g : GEMDetId)
    (h : ∀ ME, gemMEStation g = some ME →
      (detIdToMEStation ME g.ring ≠ 2 ∧ detIdToMEStation ME g.ring ≠ 3) ∨
        (1 : Int) ∉ a.stations_to_use_) :
    gemDigiStepME11 a m x s g = s := by
  cases hME : gemMEStation g with
  | none => simp [gemDigiStepME11, hME]
  | some ME =>
    rcases h ME hME with h1 | h1
    · simp [gemDigiStepME11, hME, h1.1, h1.2]
    · have h0 := count_eq_zero_of_not_mem a _ h1
      simp [gemDigiStepME11, hME, h0]

/-- Reading the record a statement wrote. -/
@[simp] theorem etrk_modify_same (s : State) (i : Int) (f : MyTrackEff → MyTrackEff) :
    (s.modify i f).etrk_ i = f (s.etrk_ i) := by
  simp [State.modify, upd]

/-- Reading another record than the one a statement wrote. -/
@[simp] theorem etrk_modify_ne (s : State) (i j : Int) (f : MyTrackEff → MyTrackEff)
    (h : j ≠ i) : (s.modify i f).etrk_ j = s.etrk_ j := by
  simp [State.modify, upd, h]

/-- A statement on a record leaves the sim-hit points as they are. -/
@[simp] theorem gp_sh_modify (s : State) (i : Int) (f : MyTrackEff → MyTrackEff) :
    (s.modify i f).gp_sh_odd = s.gp_sh_odd ∧ (s.modify i f).gp_sh_even = s.gp_sh_even :=
  ⟨rfl, rfl⟩

/-- A statement on a record leaves the LCT holders as they are. -/
@[simp] theorem lct_modify (s : State) (i : Int) (f : MyTrackEff → MyTrackEff) :
    (s.modify i f).lct_odd = s.lct_odd ∧ (s.modify i f).lct_even = s.lct_even ∧
      (s.modify i f).gp_lct_odd = s.gp_lct_odd ∧ (s.modify i f).gp_lct_even = s.gp_lct_even :=
  ⟨rfl, rfl, rfl, rfl⟩

/-- A statement on a record leaves the best pads and the call log as they are. -/
@[simp] theorem pad_modify (s : State) (i : Int) (f : MyTrackEff → MyTrackEff) :
    (s.modify i f).best_pad_odd = s.best_pad_odd ∧
      (s.modify i f).best_pad_even = s.best_pad_even ∧
      (s.modify i f).ptCalls = s.ptCalls :=
  ⟨rfl, rfl, rfl⟩

/-- Storing a sim-hit point leaves the records as they are. -/
@[simp] theorem etrk_setGpSh (s : State) (i : Int) (odd : Bool) (gp : GlobalPoint) :
    (s.setGpSh i odd gp).etrk_ = s.etrk_ := by
  cases odd <;> rfl

/-! ### Which records a pass writes -/

/-- The closest-pad block for the odd slot writes no record but `st`. -/
theorem closestPadOdd_frame (m : SimTrackMatchManager) (x : Externals) (pads : List Digi)
    (st j : Int) (s : State) (h : j ≠ st) :
    (closestPadOdd m x pads st s).etrk_ j = s.etrk_ j := by
  unfold closestPadOdd
  split_ifs <;> simp [h]

/-- The closest-pad block for the even slot writes no record but `st`. -/
theorem closestPadEven_frame (m : SimTrackMatchManager) (x : Externals) (pads : List Digi)
    (st j : Int) (s : State) (h : j ≠ st) :
    (closestPadEven m x pads st s).etrk_ j = s.etrk_ j := by
  unfold closestPadEven
  split_ifs <;> simp [h]

/-- The pad loop of the second GEM digi pass writes no record but `st`. -/
theorem gemPadLayerLoopME11_frame (m : SimTrackMatchManager) (x : Externals) (id : GEMDetId)
    (st j : Int) (odd : Bool) (h : j ≠ st) (layers : List Int) (s : State) :
    (gemPadLayerLoopME11 m x id st odd layers s).etrk_ j = s.etrk_ j := by
  induction layers generalizing s with
  | nil => rfl
  | cons layer rest ih =>
    unfold gemPadLayerLoopME11
    simp only []
    split_ifs <;>
      simp [ih, closestPadOdd_frame, closestPadEven_frame, h]

/-- The statements before the pad loop write no record but `st`. -/
theorem gemDigiFill_frame (m : SimTrackMatchManager) (d : DetId) (odd : Bool) (st j : Int)
    (s : State) (h : j ≠ st) : (gemDigiFill m d odd st s).etrk_ j = s.etrk_ j := by
  unfold gemDigiFill
  simp only []
  split_ifs <;> simp [h]

/-- The second GEM digi pass writes no record but record 1. -/
theorem gemDigiStepME11_frame (a : GEMCSCAnalyzer) (m : SimTrackMatchManager)
    (x : Externals) (s : State) (g : GEMDetId) (j : Int) (h : j ≠ 1) :
    (gemDigiStepME11 a m x s g).etrk_ j = s.etrk_ j := by
  unfold gemDigiStepME11
  cases gemMEStation g with
  | none => rfl
  | some ME =>
    simp only []
    split_ifs <;> simp [gemPadLayerLoopME11_frame, gemDigiFill_frame, h]

/-! ### Isolation -/

/-- C4 (as stated, refuted). With only station 1 configured, the GEM superchamber
`ge11Odd` resolves to station 3, which is not configured, and yet the second GEM digi
pass sets bit 0 of `has_gem_dg2` in record 1. -/
theorem isolation_broken_by_ME11Case :
    detIdToMEStation 1 ge11Odd.ring = 3 ∧
      gemMEStation ge11Odd = some 1 ∧
      (3 : Int) ∉ (configWith [1]).stations_to_use_ ∧
      ((State.entry freshRecords).etrk_ 1).char_ .has_gem_dg2 = 0 ∧
      ((gemDigiStepME11 (configWith [1]) matchGemDigi sampleExternals
          (State.entry freshRecords) ge11Odd).etrk_ 1).char_ .has_gem_dg2 = 1 := by
  refine ⟨by decide, by decide, by decide, ?_, ?_⟩
  · with_unfolding_all rfl
  · with_unfolding_all rfl

/-- C4 (amended). An id whose resolved station is not in `stations_to_use_` leaves the
whole state as it is in every pass that tests the resolved station (CSC sim hits, strip
and wire digis, CLCT, ALCT, LCT, GEM sim hits, first GEM digi pass, copads). The second
GEM digi pass ("ME11Case") tests station 1 instead: it writes no record but record 1, and
it leaves the state as it is when station 1 is not configured or the resolved station is
neither 2 nor 3. -/
theorem isolation_amended (a : GEMCSCAnalyzer) (m : SimTrackMatchManager) (x : Externals)
    (s : State) (c : CSCDetId) (g : GEMDetId) (ME : Int)
    (hc : detIdToMEStation c.station c.ring ∉ a.stations_to_use_)
    (hME : gemMEStation g = some ME)
    (hg : detIdToMEStation ME g.ring ∉ a.stations_to_use_) :
    (cscSimHitStep a m s c = s ∧ cscStripStep a m s c = s ∧ cscWireStep a m s c = s ∧
      cscCLCTStep a m s c = s ∧ cscALCTStep a m s c = s ∧ cscLCTStep a m s c = s) ∧
    (gemSimHitStep a m x s g = s ∧ gemDigiStep a m x s g = s ∧ gemCoPadStep a m s g = s) ∧
    (∀ j : Int, j ≠ 1 → (gemDigiStepME11 a m x s g).etrk_ j = s.etrk_ j) ∧
    ((1 : Int) ∉ a.stations_to_use_ ∨
        (detIdToMEStation ME g.ring ≠ 2 ∧ detIdToMEStation ME g.ring ≠ 3) →
      gemDigiStepME11 a m x s g = s) := by
  refine ⟨csc_steps_skip a m s c hc, gem_steps_skip a m x s g ?_,
    fun j hj => gemDigiStepME11_frame a m x s g j hj, ?_⟩
  · intro ME2 hME2
    rw [hME] at hME2
    cases hME2
    exact hg
  · intro h
    apply gemDigiStepME11_skip
    intro ME2 hME2
    rw [hME] at hME2
    cases hME2
    rcases h with h | h
    · exact Or.inr h
    · exact Or.inl h


/-- With only station 1 configured, the superchamber `ge11Odd` (resolved station 3) is
skipped by the GEM sim-hit pass. -/
theorem isolation_amended_witness :
    gemSimHitStep (configWith [1]) matchGemDigi sampleExternals (State.entry freshRecords)
      ge11Odd = State.entry freshRecords :=
  (isolation_amended (configWith [1]) matchGemDigi sampleExternals (State.entry freshRecords)
    me21Even ge11Odd 1 (by decide) (by decide) (by decide)).2.1.1

/-! ### Alias mirroring -/

/-- C5 (as stated, refuted). A track with strip digis in ring 1 (six layers) and ring 4
(five layers) of the odd ME1/1 chamber 1: the first id resolves to station 3, the second
to station 2, both are mirrored into record 1, and after `analyzeTrackEff` record 3 holds
`nlayers_st_dg_odd = 6` while record 1 holds 5. -/
theorem alias_mirroring_broken_by_second_ring :
    detIdToMEStation me1bOdd.station me1bOdd.ring = 3 ∧
      detIdToMEStation me1aOdd.station me1aOdd.ring = 2 ∧
      (analyzeTrackEff (configWith [0, 1, 2, 3]) matchTwoStrips sampleExternals
          freshRecords).map (fun s => (s.etrk_ 3).int_ .nlayers_st_dg_odd) = Except.ok 6 ∧
      (analyzeTrackEff (configWith [0, 1, 2, 3]) matchTwoStrips sampleExternals
          freshRecords).map (fun s => (s.etrk_ 1).int_ .nlayers_st_dg_odd) = Except.ok 5 := by
  refine ⟨by decide, by decide, ?_, ?_⟩
  · with_unfolding_all rfl
  · with_unfolding_all rfl

/-! ### Bit masks -/

/-- Setting bit 0 makes bit 0 read as set. -/
theorem land_lor_one_one (v : Int) : Int.land (Int.lor v 1) 1 = 1 := by
  cases v with
  | ofNat n =>
    show Int.ofNat ((n ||| 1) &&& 1) = 1
    have h : (n ||| 1) &&& 1 = 1 := by
      rw [Nat.and_one_is_mod]; exact Nat.or_mod_two_eq_one.mpr (Or.inr rfl)
    rw [h]; rfl
  | negSucc n =>
    show Int.ofNat (Nat.ldiff 1 (Nat.ldiff n 1)) = 1
    have h : Nat.ldiff 1 (Nat.ldiff n 1) = 1 := by
      apply Nat.eq_of_testBit_eq
      intro i
      rw [Nat.testBit_ldiff, Nat.testBit_ldiff]
      cases i with
      | zero => simp
      | succ k => simp [Nat.testBit_one_eq_true_iff_self_eq_zero]
    rw [h]; rfl

/-- The bits 0 and 1 of the constants 1 and 2. -/
theorem testBit_one_two (i : Nat) :
    Nat.testBit 1 i = decide (i = 0) ∧ Nat.testBit 2 i = decide (i = 1) := by
  constructor
  · have h1 : (1 : Nat) = 2 ^ 0 := rfl
    rw [h1, Nat.testBit_two_pow]
    simp [eq_comm]
  · have h2 : (2 : Nat) = 2 ^ 1 := rfl
    rw [h2, Nat.testBit_two_pow]
    simp [eq_comm]

/-- Setting bit 1 makes bit 1 read as set. -/
theorem land_lor_two_two (v : Int) : Int.land (Int.lor v 2) 2 = 2 := by
  cases v with
  | ofNat n =>
    show Int.ofNat ((n ||| 2) &&& 2) = 2
    have h : (n ||| 2) &&& 2 = 2 := by
      apply Nat.eq_of_testBit_eq
      intro i
      simp only [Nat.testBit_and, Nat.testBit_or, (testBit_one_two i).2]
      by_cases hi : i = 1 <;> simp [hi]
    rw [h]; rfl
  | negSucc n =>
    show Int.ofNat (Nat.ldiff 2 (Nat.ldiff n 2)) = 2
    have h : Nat.ldiff 2 (Nat.ldiff n 2) = 2 := by
      apply Nat.eq_of_testBit_eq
      intro i
      simp only [Nat.testBit_ldiff, (testBit_one_two i).2]
      by_cases hi : i = 1 <;> simp [hi]
    rw [h]; rfl

/-- Setting bit 0 leaves bit 1 as it was. -/
theorem land_lor_one_two (v : Int) : Int.land (Int.lor v 1) 2 = Int.land v 2 := by
  cases v with
  | ofNat n =>
    show Int.ofNat ((n ||| 1) &&& 2) = Int.ofNat (n &&& 2)
    have h : (n ||| 1) &&& 2 = n &&& 2 := by
      apply Nat.eq_of_testBit_eq
      intro i
      simp only [Nat.testBit_and, Nat.testBit_or, (testBit_one_two i).1, (testBit_one_two i).2]
      by_cases hi : i = 1 <;> simp [hi]
    rw [h]
  | negSucc n =>
    show Int.ofNat (Nat.ldiff 2 (Nat.ldiff n 1)) = Int.ofNat (Nat.ldiff 2 n)
    have h : Nat.ldiff 2 (Nat.ldiff n 1) = Nat.ldiff 2 n := by
      apply Nat.eq_of_testBit_eq
      intro i
      simp only [Nat.testBit_ldiff, (testBit_one_two i).1, (testBit_one_two i).2]
      by_cases hi : i = 1 <;> simp [hi]
    rw [h]

/-- Setting bit 1 leaves bit 0 as it was. -/
theorem land_lor_two_one (v : Int) : Int.land (Int.lor v 2) 1 = Int.land v 1 := by
  cases v with
  | ofNat n =>
    show Int.ofNat ((n ||| 2) &&& 1) = Int.ofNat (n &&& 1)
    have h : (n ||| 2) &&& 1 = n &&& 1 := by
      apply Nat.eq_of_testBit_eq
      intro i
      simp only [Nat.testBit_and, Nat.testBit_or, (testBit_one_two i).1, (testBit_one_two i).2]
      by_cases hi : i = 0 <;> simp [hi]
    rw [h]
  | negSucc n =>
    show Int.ofNat (Nat.ldiff 1 (Nat.ldiff n 2)) = Int.ofNat (Nat.ldiff 1 n)
    have h : Nat.ldiff 1 (Nat.ldiff n 2) = Nat.ldiff 1 n := by
      apply Nat.eq_of_testBit_eq
      intro i
      simp only [Nat.testBit_ldiff, (testBit_one_two i).1, (testBit_one_two i).2]
      by_cases hi : i = 0 <;> simp [hi]
    rw [h]

/-- The statements on record 0 of the CSC sim-hit pass write no other record. -/
theorem cscSimHitSummary_frame (c : CSCDetId) (s : State) (j : Int) (h : j ≠ 0) :
    (cscSimHitSummary c s).etrk_ j = s.etrk_ j := by
  unfold cscSimHitSummary
  simp only []
  split_ifs <;> simp [h]

set_option maxHeartbeats 4000000 in
/-- The feature assignments of the CSC sim-hit pass for a station 2 or 3: records `st`
and 1 agree on the slot, and every member changed in record `st` is mirrored. -/
theorem cscSimHitFill_mirror (m : SimTrackMatchManager) (s : State) (c : CSCDetId)
    (st nlayers : Int) (hst : st = 2 ∨ st = 3) :
    SlotAgrees .simHit (decide (cmod c.chamber 2 = 1))
        ((cscSimHitFill m c st nlayers s).etrk_ st)
        ((cscSimHitFill m c st nlayers s).etrk_ 1) ∧
      ChangedMirrored [] s (cscSimHitFill m c st nlayers s) st := by
  have h1 : (1 : Int) ≠ st := by rcases hst with h | h <;> rw [h] <;> decide
  have h2 : st ≠ 1 := fun e => h1 e.symm
  unfold cscSimHitFill
  simp only [cscKeyLayerLoop, hst, if_true]
  cases hodd : decide (cmod c.chamber 2 = 1) <;>
    split_ifs <;>
    simp [SlotAgrees, ChangedMirrored, slotInt, slotFloat, slotBool, slotMask, h1, h2,
      MyTrackEff.setI, MyTrackEff.setF, MyTrackEff.setB, MyTrackEff.orC, MyTrackEff.setC,
      land_lor_one_one, land_lor_two_two, land_lor_one_two, land_lor_two_one] <;>
    (repeat' apply And.intro) <;>
    intro f <;> cases f <;>
    simp [land_lor_one_one, land_lor_two_two, land_lor_one_two, land_lor_two_one]

/-- The mirroring statement only looks at record `st` of the earlier state. -/
theorem changedMirrored_of_same_record (except : List FloatField) (s s0 t : State) (st : Int)
    (h : s.etrk_ st = s0.etrk_ st) (hm : ChangedMirrored except s t st) :
    ChangedMirrored except s0 t st := by
  unfold ChangedMirrored at *
  rw [← h]
  exact hm

/-- CSC sim hits: after the body has processed an id resolving to 2 or 3, records `st`
and 1 agree on the slot, and every member changed in record `st` is mirrored in record 1. -/
theorem cscSimHitStep_mirror (a : GEMCSCAnalyzer) (m : SimTrackMatchManager) (s : State)
    (c : CSCDetId)
    (hst : detIdToMEStation c.station c.ring = 2 ∨ detIdToMEStation c.station c.ring = 3)
    (hin : detIdToMEStation c.station c.ring ∈ a.stations_to_use_)
    (hgate : cscGatePassed .simHit a m c = true) :
    SlotAgrees .simHit (decide (cmod c.chamber 2 = 1))
        ((cscSimHitStep a m s c).etrk_ (detIdToMEStation c.station c.ring))
        ((cscSimHitStep a m s c).etrk_ 1) ∧
      ChangedMirrored [] s (cscSimHitStep a m s c) (detIdToMEStation c.station c.ring) := by
  have hcount : a.count (detIdToMEStation c.station c.ring) ≠ 0 := by
    simp [GEMCSCAnalyzer.count, hin]
  simp only [cscGatePassed, Bool.not_eq_true', decide_eq_false_iff_not] at hgate
  unfold cscSimHitStep
  simp only [hcount, hgate, if_false]
  have h0 : detIdToMEStation c.station c.ring ≠ 0 := by
    rcases hst with h | h <;> rw [h] <;> decide
  have hfill := cscSimHitFill_mirror m (cscSimHitSummary c s) c
    (detIdToMEStation c.station c.ring) (cscSimHitLayers m c) hst
  exact ⟨hfill.1, changedMirrored_of_same_record [] _ s _ _
    (cscSimHitSummary_frame c s _ h0) hfill.2⟩

set_option maxHeartbeats 4000000 in
/-- Strip digis: after the body has processed an id resolving to 2 or 3, records `st` and 1
agree on the slot, and every member changed in record `st` is mirrored in record 1. -/
theorem cscStripStep_mirror (a : GEMCSCAnalyzer) (m : SimTrackMatchManager) (s : State)
    (c : CSCDetId)
    (hst : detIdToMEStation c.station c.ring = 2 ∨ detIdToMEStation c.station c.ring = 3)
    (hin : detIdToMEStation c.station c.ring ∈ a.stations_to_use_)
    (hgate : cscGatePassed .strip a m c = true) :
    SlotAgrees .strip (decide (cmod c.chamber 2 = 1))
        ((cscStripStep a m s c).etrk_ (detIdToMEStation c.station c.ring))
        ((cscStripStep a m s c).etrk_ 1) ∧
      ChangedMirrored [] s (cscStripStep a m s c) (detIdToMEStation c.station c.ring) := by
  have hcount : a.count (detIdToMEStation c.station c.ring) ≠ 0 := by
    simp [GEMCSCAnalyzer.count, hin]
  simp only [cscGatePassed, Bool.not_eq_true', decide_eq_false_iff_not] at hgate
  unfold cscStripStep
  simp only [hcount, hgate, if_false]
  generalize detIdToMEStation c.station c.ring = st at *
  have h1 : (1 : Int) ≠ st := by rcases hst with h | h <;> rw [h] <;> decide
  have h2 : st ≠ 1 := fun e => h1 e.symm
  simp only [hst, if_true]
  cases hodd : decide (cmod c.chamber 2 = 1) <;>
    simp [SlotAgrees, ChangedMirrored, slotInt, slotFloat, slotBool, slotMask, h1, h2,
      MyTrackEff.setI, MyTrackEff.setF, MyTrackEff.setB, MyTrackEff.orC, MyTrackEff.setC,
      land_lor_one_one, land_lor_two_two, land_lor_one_two, land_lor_two_one] <;>
    intro f <;> cases f <;>
    simp [land_lor_one_one, land_lor_two_two, land_lor_one_two, land_lor_two_one]

set_option maxHeartbeats 4000000 in
/-- Wire digis: after the body has processed an id resolving to 2 or 3, records `st` and 1
agree on the slot, and every member changed in record `st` is mirrored in record 1. -/
theorem cscWireStep_mirror (a : GEMCSCAnalyzer) (m : SimTrackMatchManager) (s : State)
    (c : CSCDetId)
    (hst : detIdToMEStation c.station c.ring = 2 ∨ detIdToMEStation c.station c.ring = 3)
    (hin : detIdToMEStation c.station c.ring ∈ a.stations_to_use_)
    (hgate : cscGatePassed .wire a m c = true) :
    SlotAgrees .wire (decide (cmod c.chamber 2 = 1))
        ((cscWireStep a m s c).etrk_ (detIdToMEStation c.station c.ring))
        ((cscWireStep a m s c).etrk_ 1) ∧
      ChangedMirrored [] s (cscWireStep a m s c) (detIdToMEStation c.station c.ring) := by
  have hcount : a.count (detIdToMEStation c.station c.ring) ≠ 0 := by
    simp [GEMCSCAnalyzer.count, hin]
  simp only [cscGatePassed, Bool.not_eq_true', decide_eq_false_iff_not] at hgate
  unfold cscWireStep
  simp only [hcount, hgate, if_false]
  generalize detIdToMEStation c.station c.ring = st at *
  have h1 : (1 : Int) ≠ st := by rcases hst with h | h <;> rw [h] <;> decide
  have h2 : st ≠ 1 := fun e => h1 e.symm
  simp only [hst, if_true]
  cases hodd : decide (cmod c.chamber 2 = 1) <;>
    simp [SlotAgrees, ChangedMirrored, slotInt, slotFloat, slotBool, slotMask, h1, h2,
      MyTrackEff.setI, MyTrackEff.setF, MyTrackEff.setB, MyTrackEff.orC, MyTrackEff.setC,
      land_lor_one_one, land_lor_two_two, land_lor_one_two, land_lor_two_one] <;>
    intro f <;> cases f <;>
    simp [land_lor_one_one, land_lor_two_two, land_lor_one_two, land_lor_two_one]

set_option maxHeartbeats 4000000 in
/-- CLCTs: after the body has processed an id resolving to 2 or 3, records `st` and 1
agree on the slot, and every member changed in record `st` is mirrored in record 1. -/
theorem cscCLCTStep_mirror (a : GEMCSCAnalyzer) (m : SimTrackMatchManager) (s : State)
    (c : CSCDetId)
    (hst : detIdToMEStation c.station c.ring = 2 ∨ detIdToMEStation c.station c.ring = 3)
    (hin : detIdToMEStation c.station c.ring ∈ a.stations_to_use_)
    (_hgate : cscGatePassed .clct a m c = true) :
    SlotAgrees .clct (decide (cmod c.chamber 2 = 1))
        ((cscCLCTStep a m s c).etrk_ (detIdToMEStation c.station c.ring))
        ((cscCLCTStep a m s c).etrk_ 1) ∧
      ChangedMirrored [] s (cscCLCTStep a m s c) (detIdToMEStation c.station c.ring) := by
  have hcount : a.count (detIdToMEStation c.station c.ring) ≠ 0 := by
    simp [GEMCSCAnalyzer.count, hin]
  unfold cscCLCTStep
  simp only [hcount, if_false]
  generalize detIdToMEStation c.station c.ring = st at *
  have h1 : (1 : Int) ≠ st := by rcases hst with h | h <;> rw [h] <;> decide
  have h2 : st ≠ 1 := fun e => h1 e.symm
  simp only [hst, if_true]
  cases hodd : decide (cmod c.chamber 2 = 1) <;>
    simp [SlotAgrees, ChangedMirrored, slotInt, slotFloat, slotBool, slotMask, h1, h2,
      MyTrackEff.setI, MyTrackEff.setF, MyTrackEff.setB, MyTrackEff.orC, MyTrackEff.setC,
      land_lor_one_one, land_lor_two_two, land_lor_one_two, land_lor_two_one] <;>
    (repeat' apply And.intro) <;>
    intro f <;> cases f <;>
    simp [land_lor_one_one, land_lor_two_two, land_lor_one_two, land_lor_two_one]

set_option maxHeartbeats 4000000 in
/-- ALCTs: after the body has processed an id resolving to 2 or 3, records `st` and 1
agree on the slot, and every member changed in record `st` is mirrored in record 1. -/
theorem cscALCTStep_mirror (a : GEMCSCAnalyzer) (m : SimTrackMatchManager) (s : State)
    (c : CSCDetId)
    (hst : detIdToMEStation c.station c.ring = 2 ∨ detIdToMEStation c.station c.ring = 3)
    (hin : detIdToMEStation c.station c.ring ∈ a.stations_to_use_)
    (_hgate : cscGatePassed .alct a m c = true) :
    SlotAgrees .alct (decide (cmod c.chamber 2 = 1))
        ((cscALCTStep a m s c).etrk_ (detIdToMEStation c.station c.ring))
        ((cscALCTStep a m s c).etrk_ 1) ∧
      ChangedMirrored [] s (cscALCTStep a m s c) (detIdToMEStation c.station c.ring) := by
  have hcount : a.count (detIdToMEStation c.station c.ring) ≠ 0 := by
    simp [GEMCSCAnalyzer.count, hin]
  unfold cscALCTStep
  simp only [hcount, if_false]
  generalize detIdToMEStation c.station c.ring = st at *
  have h1 : (1 : Int) ≠ st := by rcases hst with h | h <;> rw [h] <;> decide
  have h2 : st ≠ 1 := fun e => h1 e.symm
  simp only [hst, if_true]
  cases hodd : decide (cmod c.chamber 2 = 1) <;>
    simp [SlotAgrees, ChangedMirrored, slotInt, slotFloat, slotBool, slotMask, h1, h2,
      MyTrackEff.setI, MyTrackEff.setF, MyTrackEff.setB, MyTrackEff.orC, MyTrackEff.setC,
      land_lor_one_one, land_lor_two_two, land_lor_one_two, land_lor_two_one] <;>
    (repeat' apply And.intro) <;>
    intro f <;> cases f <;>
    simp [land_lor_one_one, land_lor_two_two, land_lor_one_two, land_lor_two_one]

set_option maxHeartbeats 4000000 in
/-- LCT stubs: after the body has processed an id resolving to 2 or 3, records `st` and 1
agree on the slot, and every member changed in record `st` is mirrored in record 1. -/
theorem cscLCTStep_mirror (a : GEMCSCAnalyzer) (m : SimTrackMatchManager) (s : State)
    (c : CSCDetId)
    (hst : detIdToMEStation c.station c.ring = 2 ∨ detIdToMEStation c.station c.ring = 3)
    (hin : detIdToMEStation c.station c.ring ∈ a.stations_to_use_)
    (_hgate : cscGatePassed .lct a m c = true) :
    SlotAgrees .lct (decide (cmod c.chamber 2 = 1))
        ((cscLCTStep a m s c).etrk_ (detIdToMEStation c.station c.ring))
        ((cscLCTStep a m s c).etrk_ 1) ∧
      ChangedMirrored [] s (cscLCTStep a m s c) (detIdToMEStation c.station c.ring) := by
  have hcount : a.count (detIdToMEStation c.station c.ring) ≠ 0 := by
    simp [GEMCSCAnalyzer.count, hin]
  unfold cscLCTStep
  simp only [hcount, if_false]
  generalize detIdToMEStation c.station c.ring = st at *
  have h1 : (1 : Int) ≠ st := by rcases hst with h | h <;> rw [h] <;> decide
  have h2 : st ≠ 1 := fun e => h1 e.symm
  simp only [hst, if_true, lctFill]
  cases hodd : decide (cmod c.chamber 2 = 1) <;>
    simp [SlotAgrees, ChangedMirrored, slotInt, slotFloat, slotBool, slotMask, h1, h2,
      MyTrackEff.setI, MyTrackEff.setF, MyTrackEff.setB, MyTrackEff.orC, MyTrackEff.setC,
      land_lor_one_one, land_lor_two_two, land_lor_one_two, land_lor_two_one] <;>
    (repeat' apply And.intro) <;>
    intro f <;> cases f <;>
    simp [land_lor_one_one, land_lor_two_two, land_lor_one_two, land_lor_two_one]

/-- The key-point assignments of the GEM sim-hit pass leave every member that is not a
`Float_t` as it is. -/
theorem gemShKeyRecord_others (x : Externals) (keygp : GlobalPoint) (odd : Bool)
    (r : MyTrackEff) :
    (gemShKeyRecord x keygp odd r).int_ = r.int_ ∧
      (gemShKeyRecord x keygp odd r).uint_ = r.uint_ ∧
      (gemShKeyRecord x keygp odd r).char_ = r.char_ ∧
      (gemShKeyRecord x keygp odd r).bool_ = r.bool_ := by
  unfold gemShKeyRecord
  simp only []
  split_ifs <;> simp [MyTrackEff.setF]

/-- The key-point assignments of the GEM sim-hit pass, read at a `Float_t` member other
than `dphi_sh_odd` and `dphi_sh_even`. -/
theorem gemShKeyRecord_float (x : Externals) (keygp : GlobalPoint) (odd : Bool)
    (r : MyTrackEff) (f : FloatField) (h1 : f ≠ .dphi_sh_odd) (h2 : f ≠ .dphi_sh_even) :
    (gemShKeyRecord x keygp odd r).float_ f =
      if f = (if odd then FloatField.phi_gemsh_odd else FloatField.phi_gemsh_even) then
        keygp.phi
      else if f = (if odd then FloatField.eta_gemsh_odd else FloatField.eta_gemsh_even) then
        keygp.eta
      else r.float_ f := by
  unfold gemShKeyRecord
  simp only []
  split_ifs <;> simp_all [MyTrackEff.setF]

set_option maxHeartbeats 4000000 in
/-- GEM sim hits: after the body has processed an id resolving to 2 or 3, every member
changed in record `st`, `dphi_sh_odd` and `dphi_sh_even` apart, is mirrored in record 1. -/
theorem gemSimHitStep_mirror (a : GEMCSCAnalyzer) (m : SimTrackMatchManager) (x : Externals)
    (s : State) (g : GEMDetId) (ME : Int) (hME : gemMEStation g = some ME)
    (hst : detIdToMEStation ME g.ring = 2 ∨ detIdToMEStation ME g.ring = 3)
    (hin : detIdToMEStation ME g.ring ∈ a.stations_to_use_) :
    ChangedMirrored [.dphi_sh_odd, .dphi_sh_even] s (gemSimHitStep a m x s g)
      (detIdToMEStation ME g.ring) := by
  have hcount : a.count (detIdToMEStation ME g.ring) ≠ 0 := by
    simp [GEMCSCAnalyzer.count, hin]
  unfold gemSimHitStep
  simp only [hME, hcount, if_false]
  generalize detIdToMEStation ME g.ring = st at *
  have h1 : (1 : Int) ≠ st := by rcases hst with h | h <;> rw [h] <;> decide
  have h2 : st ≠ 1 := fun e => h1 e.symm
  simp only [hst, if_true, gemShLayerLoop, gemShKeyFill]
  cases hodd : decide (cmod g.chamber 2 = 1) <;>
    split_ifs <;>
    simp [ChangedMirrored, h1, h2, gemShKeyRecord_others,
      MyTrackEff.setI, MyTrackEff.setF, MyTrackEff.setB, MyTrackEff.orC, MyTrackEff.setC,
      land_lor_one_one, land_lor_two_two, land_lor_one_two, land_lor_two_one] <;>
    (repeat' apply And.intro) <;>
    intro f <;> cases f <;>
    simp [gemShKeyRecord_float, MyTrackEff.setF, land_lor_one_one, land_lor_two_two,
      land_lor_one_two, land_lor_two_one]

/-- Copads: after the body has processed an id resolving to 2 or 3, every `Int_t` member
changed in record `st` (the copad channel) is mirrored in record 1. -/
theorem gemCoPadStep_mirror (a : GEMCSCAnalyzer) (m : SimTrackMatchManager) (s : State)
    (g : GEMDetId) (ME : Int) (hME : gemMEStation g = some ME)
    (hst : detIdToMEStation ME g.ring = 2 ∨ detIdToMEStation ME g.ring = 3)
    (hin : detIdToMEStation ME g.ring ∈ a.stations_to_use_) :
    ∀ f : IntField,
      ((gemCoPadStep a m s g).etrk_ (detIdToMEStation ME g.ring)).int_ f
          ≠ (s.etrk_ (detIdToMEStation ME g.ring)).int_ f →
        ((gemCoPadStep a m s g).etrk_ 1).int_ f
          = ((gemCoPadStep a m s g).etrk_ (detIdToMEStation ME g.ring)).int_ f := by
  have hcount : a.count (detIdToMEStation ME g.ring) ≠ 0 := by
    simp [GEMCSCAnalyzer.count, hin]
  unfold gemCoPadStep
  simp only [hME, hcount, if_false]
  generalize detIdToMEStation ME g.ring = st at *
  have h1 : (1 : Int) ≠ st := by rcases hst with h | h <;> rw [h] <;> decide
  have h2 : st ≠ 1 := fun e => h1 e.symm
  simp only [hst, if_true]
  cases hodd : decide (cmod g.chamber 2 = 1) <;>
    split_ifs <;>
    simp [h1, h2, MyTrackEff.setI, MyTrackEff.orC, MyTrackEff.setC]

/-- C5 (amended). Alias mirroring holds for each id at the time it is processed. For
every CSC category (sim hits, strip digis, wire digis, CLCT, ALCT, LCT) and every id that
resolves to a configured station `st` in {2, 3} and passes the layer gate, right after
the loop body records `st` and 1 agree on the (category, parity) slot (equal values in
every member of the slot, the presence bit of the parity set in both), and every member
whose value the body changed in record `st` has the identical value in record 1. For
GEM sim hits the same holds for every member changed in record `st` except
`dphi_sh_odd` / `dphi_sh_even`, and for copads for the copad channel. -/
theorem alias_mirroring_per_id (a : GEMCSCAnalyzer) (m : SimTrackMatchManager)
    (x : Externals) (s : State) (cat : CscCategory) (c : CSCDetId) (g : GEMDetId) (ME : Int)
    (hst : detIdToMEStation c.station c.ring = 2 ∨ detIdToMEStation c.station c.ring = 3)
    (hin : detIdToMEStation c.station c.ring ∈ a.stations_to_use_)
    (hgate : cscGatePassed cat a m c = true)
    (hME : gemMEStation g = some ME)
    (hgst : detIdToMEStation ME g.ring = 2 ∨ detIdToMEStation ME g.ring = 3)
    (hgin : detIdToMEStation ME g.ring ∈ a.stations_to_use_) :
    (SlotAgrees cat (decide (cmod c.chamber 2 = 1))
        ((cscStep cat a m s c).etrk_ (detIdToMEStation c.station c.ring))
        ((cscStep cat a m s c).etrk_ 1) ∧
      ChangedMirrored [] s (cscStep cat a m s c) (detIdToMEStation c.station c.ring)) ∧
    ChangedMirrored [.dphi_sh_odd, .dphi_sh_even] s (gemSimHitStep a m x s g)
      (detIdToMEStation ME g.ring) ∧
    (∀ f : IntField,
      ((gemCoPadStep a m s g).etrk_ (detIdToMEStation ME g.ring)).int_ f
          ≠ (s.etrk_ (detIdToMEStation ME g.ring)).int_ f →
        ((gemCoPadStep a m s g).etrk_ 1).int_ f
          = ((gemCoPadStep a m s g).etrk_ (detIdToMEStation ME g.ring)).int_ f) := by
  refine ⟨?_, gemSimHitStep_mirror a m x s g ME hME hgst hgin,
    gemCoPadStep_mirror a m s g ME hME hgst hgin⟩
  cases cat with
  | simHit => exact cscSimHitStep_mirror a m s c hst hin hgate
  | strip => exact cscStripStep_mirror a m s c hst hin hgate
  | wire => exact cscWireStep_mirror a m s c hst hin hgate
  | clct => exact cscCLCTStep_mirror a m s c hst hin hgate
  | alct => exact cscALCTStep_mirror a m s c hst hin hgate
  | lct => exact cscLCTStep_mirror a m s c hst hin hgate

/-- The strip digis of the ME1/1a chamber: right after its id is processed records 2
and 1 agree on the odd strip-digi slot. -/
theorem alias_mirroring_per_id_witness :
    SlotAgrees .strip (decide (cmod me1aOdd.chamber 2 = 1))
      ((cscStep .strip (configWith [0, 1, 2, 3]) matchTwoStrips (State.entry freshRecords)
          me1aOdd).etrk_ (detIdToMEStation me1aOdd.station me1aOdd.ring))
      ((cscStep .strip (configWith [0, 1, 2, 3]) matchTwoStrips (State.entry freshRecords)
          me1aOdd).etrk_ 1) :=
  (alias_mirroring_per_id (configWith [0, 1, 2, 3]) matchTwoStrips sampleExternals
    (State.entry freshRecords) .strip me1aOdd ge11Odd 1
    (by decide) (by decide) (by decide) (by decide) (by decide) (by decide)).1.1

/-- The `if / else if` chain of the source picks the first present combination of the
specification, and falls back to default points and tag -1 when there is none. -/
theorem selectParityPath_eq (m1 m6 m8 : Int) (gp_odd gp_even : Int → GlobalPoint) :
    selectParityPath m1 m6 m8 gp_odd gp_even =
      match firstCombination m1 m6 m8 with
      | some c => (parityPoint gp_odd gp_even c.1 1, parityPoint gp_odd gp_even c.2.1 6,
          parityPoint gp_odd gp_even c.2.2.1 8, c.2.2.2)
      | none => (GlobalPoint.origin, GlobalPoint.origin, GlobalPoint.origin, -1) := by
  unfold selectParityPath firstCombination parityCombinations
  simp only [List.find?, combinationPresent, parityPoint]
  by_cases a1 : Int.land m1 1 > 0 <;> by_cases a2 : Int.land m1 2 > 0 <;>
    by_cases b1 : Int.land m6 1 > 0 <;> by_cases b2 : Int.land m6 2 > 0 <;>
    by_cases c1 : Int.land m8 1 > 0 <;> by_cases c2 : Int.land m8 2 > 0 <;>
    simp [a1, a2, b1, b2, c1, c2]

/-- What a pt-assignment block does when records 1, 6 and 8 all report presence: it sets
the flag, calls the estimator once with the selected points, the pseudorapidity of
record 0 and the selected tag, and stores the result. -/
theorem ptAssignBlock_fires (x : Externals) (mask : CharField)
    (gp_odd gp_even : Int → GlobalPoint) (flag : BoolField) (out : FloatField) (s : State)
    (h : (s.etrk_ 1).char_ mask > 0 ∧ (s.etrk_ 6).char_ mask > 0 ∧ (s.etrk_ 8).char_ mask > 0) :
    let sel := selectParityPath ((s.etrk_ 1).char_ mask) ((s.etrk_ 6).char_ mask)
      ((s.etrk_ 8).char_ mask) gp_odd gp_even
    (ptAssignBlock x mask gp_odd gp_even flag out s).ptCalls =
        s.ptCalls ++ [{ gp1 := sel.1, gp2 := sel.2.1, gp3 := sel.2.2.1,
                        eta := (s.etrk_ 0).float_ .eta, npar := sel.2.2.2 }] ∧
      ((ptAssignBlock x mask gp_odd gp_even flag out s).etrk_ 0).float_ out =
        x.Ptassign_Position_gp sel.1 sel.2.1 sel.2.2.1 ((s.etrk_ 0).float_ .eta) sel.2.2.2 ∧
      ((ptAssignBlock x mask gp_odd gp_even flag out s).etrk_ 0).bool_ flag = true := by
  intro sel
  unfold ptAssignBlock
  simp only [h, and_self, if_true]
  simp [MyTrackEff.setB, MyTrackEff.setF, sel]

/-- A pt-assignment block leaves the state as it is unless records 1, 6 and 8 all report
presence. -/
theorem ptAssignBlock_idle (x : Externals) (mask : CharField)
    (gp_odd gp_even : Int → GlobalPoint) (flag : BoolField) (out : FloatField) (s : State)
    (h : ¬((s.etrk_ 1).char_ mask > 0 ∧ (s.etrk_ 6).char_ mask > 0 ∧
      (s.etrk_ 8).char_ mask > 0)) :
    ptAssignBlock x mask gp_odd gp_even flag out s = s := by
  unfold ptAssignBlock
  simp only [h, if_false]

/-- C7. Parity-path selection: when the presence masks of records 1, 6 and 8 are all
positive and a combination is present, the sim-hit block (`has_csc_sh`) and the stub
block (`has_lct`) each call `Ptassign_Position_gp` exactly once, with the three points
and the tag of the first present combination in the order (odd,even,even) = 0,
(odd,odd,odd) = 1, (even,even,even) = 2, (even,odd,odd) = 3, and store its result. -/
theorem parity_path_selection (x : Externals) (s : State) :
    (∀ c : Int × Int × Int × Int,
      ((s.etrk_ 1).char_ .has_csc_sh > 0 ∧ (s.etrk_ 6).char_ .has_csc_sh > 0 ∧
        (s.etrk_ 8).char_ .has_csc_sh > 0) →
      firstCombination ((s.etrk_ 1).char_ .has_csc_sh) ((s.etrk_ 6).char_ .has_csc_sh)
        ((s.etrk_ 8).char_ .has_csc_sh) = some c →
      (ptAssignSh x s).ptCalls =
          s.ptCalls ++ [callFor s.gp_sh_odd s.gp_sh_even ((s.etrk_ 0).float_ .eta) c] ∧
        ((ptAssignSh x s).etrk_ 0).float_ .pt_position_sh =
          x.Ptassign_Position_gp (parityPoint s.gp_sh_odd s.gp_sh_even c.1 1)
            (parityPoint s.gp_sh_odd s.gp_sh_even c.2.1 6)
            (parityPoint s.gp_sh_odd s.gp_sh_even c.2.2.1 8)
            ((s.etrk_ 0).float_ .eta) c.2.2.2) ∧
    (∀ c : Int × Int × Int × Int,
      ((s.etrk_ 1).char_ .has_lct > 0 ∧ (s.etrk_ 6).char_ .has_lct > 0 ∧
        (s.etrk_ 8).char_ .has_lct > 0) →
      firstCombination ((s.etrk_ 1).char_ .has_lct) ((s.etrk_ 6).char_ .has_lct)
        ((s.etrk_ 8).char_ .has_lct) = some c →
      (ptAssignLct x s).ptCalls =
          s.ptCalls ++ [callFor s.gp_lct_odd s.gp_lct_even ((s.etrk_ 0).float_ .eta) c] ∧
        ((ptAssignLct x s).etrk_ 0).float_ .pt_position =
          x.Ptassign_Position_gp (parityPoint s.gp_lct_odd s.gp_lct_even c.1 1)
            (parityPoint s.gp_lct_odd s.gp_lct_even c.2.1 6)
            (parityPoint s.gp_lct_odd s.gp_lct_even c.2.2.1 8)
            ((s.etrk_ 0).float_ .eta) c.2.2.2) := by
  constructor
  · intro c h hc
    have hf := ptAssignBlock_fires x .has_csc_sh s.gp_sh_odd s.gp_sh_even .hasSt1St2St3_sh
      .pt_position_sh s h
    simp only [selectParityPath_eq, hc] at hf
    exact ⟨hf.1, hf.2.1⟩
  · intro c h hc
    have hf := ptAssignBlock_fires x .has_lct s.gp_lct_odd s.gp_lct_even .hasSt1St2St3
      .pt_position s h
    simp only [selectParityPath_eq, hc] at hf
    exact ⟨hf.1, hf.2.1⟩

/-- Masks (1,2,2) give tag 0 with the points (odd at 1, even at 6, even at 8); masks
(1,3,1) give tag 1 with the three odd points. -/
theorem parity_path_selection_witness :
    (ptAssignSh sampleExternals (maskState 1 2 2)).ptCalls =
        [{ gp1 := { eta := Float_t.num 1, phi := 1, z := 0 },
           gp2 := { eta := Float_t.num 6, phi := 2, z := 0 },
           gp3 := { eta := Float_t.num 8, phi := 2, z := 0 },
           eta := -9, npar := 0 }] ∧
      (ptAssignLct sampleExternals (maskState 1 3 1)).ptCalls =
        [{ gp1 := { eta := Float_t.num 1, phi := 1, z := 0 },
           gp2 := { eta := Float_t.num 6, phi := 1, z := 0 },
           gp3 := { eta := Float_t.num 8, phi := 1, z := 0 },
           eta := -9, npar := 1 }] :=
  ⟨((parity_path_selection sampleExternals (maskState 1 2 2)).1 (1, 2, 2, 0)
      (by decide) (by decide)).1,
   ((parity_path_selection sampleExternals (maskState 1 3 1)).2 (1, 1, 1, 1)
      (by decide) (by decide)).1⟩

/-- C8 (as stated, refuted). A track with sim hits in an odd ME1/1b, an even ME2/1 and
an odd ME3/1 chamber: the masks of records 1, 6, 8 are 1, 2, 1, no combination is present,
and yet `hasSt1St2St3_sh` of record 0 is true, the estimator was called (with tag -1) and
`pt_position_sh` holds its result 7 instead of the init value -1. -/
theorem no_combination_still_calls_estimator :
    firstCombination 1 2 1 = none ∧
      (analyzeTrackEff (configWith [0, 1, 3, 6, 8]) matchOddEvenOdd sampleExternals
          freshRecords).map
        (fun s => ((s.etrk_ 1).char_ .has_csc_sh, (s.etrk_ 6).char_ .has_csc_sh,
          (s.etrk_ 8).char_ .has_csc_sh, (s.etrk_ 0).bool_ .hasSt1St2St3_sh,
          (s.etrk_ 0).float_ .pt_position_sh, s.ptCalls.map (fun p => p.npar)))
        = Except.ok (1, 2, 1, true, 7, [-1]) := by
  refine ⟨by decide, ?_⟩
  with_unfolding_all rfl

/-- C8 (amended). A pt-assignment block (sim-hit or stub) leaves the whole state as it
is, so the estimate keeps its value, no estimator call is made and the flag stays as it
was, exactly when one of the presence masks of records 1, 6, 8 is not positive. When all
three are positive and no parity combination is present, the block sets the flag and
calls the estimator once with three default points and tag -1. -/
theorem no_path_amended (x : Externals) (s : State) :
    (¬((s.etrk_ 1).char_ .has_csc_sh > 0 ∧ (s.etrk_ 6).char_ .has_csc_sh > 0 ∧
        (s.etrk_ 8).char_ .has_csc_sh > 0) → ptAssignSh x s = s) ∧
    (¬((s.etrk_ 1).char_ .has_lct > 0 ∧ (s.etrk_ 6).char_ .has_lct > 0 ∧
        (s.etrk_ 8).char_ .has_lct > 0) → ptAssignLct x s = s) ∧
    (((s.etrk_ 1).char_ .has_csc_sh > 0 ∧ (s.etrk_ 6).char_ .has_csc_sh > 0 ∧
        (s.etrk_ 8).char_ .has_csc_sh > 0) →
      firstCombination ((s.etrk_ 1).char_ .has_csc_sh) ((s.etrk_ 6).char_ .has_csc_sh)
        ((s.etrk_ 8).char_ .has_csc_sh) = none →
      (ptAssignSh x s).ptCalls =
          s.ptCalls ++ [{ gp1 := GlobalPoint.origin, gp2 := GlobalPoint.origin,
                          gp3 := GlobalPoint.origin, eta := (s.etrk_ 0).float_ .eta,
                          npar := -1 }] ∧
        ((ptAssignSh x s).etrk_ 0).bool_ .hasSt1St2St3_sh = true) ∧
    (((s.etrk_ 1).char_ .has_lct > 0 ∧ (s.etrk_ 6).char_ .has_lct > 0 ∧
        (s.etrk_ 8).char_ .has_lct > 0) →
      firstCombination ((s.etrk_ 1).char_ .has_lct) ((s.etrk_ 6).char_ .has_lct)
        ((s.etrk_ 8).char_ .has_lct) = none →
      (ptAssignLct x s).ptCalls =
          s.ptCalls ++ [{ gp1 := GlobalPoint.origin, gp2 := GlobalPoint.origin,
                          gp3 := GlobalPoint.origin, eta := (s.etrk_ 0).float_ .eta,
                          npar := -1 }] ∧
        ((ptAssignLct x s).etrk_ 0).bool_ .hasSt1St2St3 = true) := by
  refine ⟨fun h => ptAssignBlock_idle x _ _ _ _ _ s h,
    fun h => ptAssignBlock_idle x _ _ _ _ _ s h, ?_, ?_⟩
  · intro h hc
    have hf := ptAssignBlock_fires x .has_csc_sh s.gp_sh_odd s.gp_sh_even .hasSt1St2St3_sh
      .pt_position_sh s h
    simp only [selectParityPath_eq, hc] at hf
    exact ⟨hf.1, hf.2.2⟩
  · intro h hc
    have hf := ptAssignBlock_fires x .has_lct s.gp_lct_odd s.gp_lct_even .hasSt1St2St3
      .pt_position s h
    simp only [selectParityPath_eq, hc] at hf
    exact ⟨hf.1, hf.2.2⟩

/-- With the mask of record 6 empty the sim-hit block does nothing; with masks 1, 2, 1
the stub block sets its flag. -/
theorem no_path_amended_witness :
    ptAssignSh sampleExternals (maskState 1 0 2) = maskState 1 0 2 ∧
      ((ptAssignLct sampleExternals (maskState 1 2 1)).etrk_ 0).bool_ .hasSt1St2St3 = true :=
  ⟨(no_path_amended sampleExternals (maskState 1 0 2)).1 (by decide),
   ((no_path_amended sampleExternals (maskState 1 2 1)).2.2.2 (by decide) (by decide)).2⟩

/-! ### Sentinels and earlier tracks -/

/-- C6 (the code at the failing input). The GEM sim-hit matcher lists `ge11Odd`, which
resolves to station 3, with an empty hit list: record 3 keeps the init values of its odd
GEM sim-hit slot (`has_gem_sh` 0, `strip_gemsh_odd` -9), but in record 1 bit 0 of
`has_gem_sh` is set and `strip_gemsh_odd` holds the mean strip of the empty list. -/
theorem sentinel_lost_in_gem_alias :
    matchGemEmptyHits.superChamberIdsGEM = [ge11Odd] ∧
      matchGemEmptyHits.hitsInSuperChamber ge11Odd.rawId = [] ∧
      zeroRecord.init.char_ .has_gem_sh = 0 ∧
      zeroRecord.init.float_ .strip_gemsh_odd = -9 ∧
      (analyzeTrackEff (configWith [0, 1, 3]) matchGemEmptyHits sampleExternals
          freshRecords).map
        (fun s => ((s.etrk_ 3).char_ .has_gem_sh, (s.etrk_ 3).float_ .strip_gemsh_odd,
          (s.etrk_ 1).char_ .has_gem_sh, (s.etrk_ 1).float_ .strip_gemsh_odd))
        = Except.ok (0, -9, 1, 0) := by
  refine ⟨rfl, rfl, ?_, ?_, ?_⟩
  · with_unfolding_all rfl
  · with_unfolding_all rfl
  · with_unfolding_all rfl

/-- C9 (the code at the failing input). Stations 0, 3, 6, 8 are configured. A second
track has sim hits in even ME2/1 and ME3/1 chambers only. Processed on freshly
initialised records its row for station 0 has `hasSt1St2St3_sh = false`; processed after
a first track with sim hits in an odd ME1/1b chamber, whose alias write into the
unconfigured record 1 is never re-initialised, the same adapters give
`hasSt1St2St3_sh = true`. -/
theorem rows_depend_on_previous_track :
    (analyzeTrackEff (configWith [0, 3, 6, 8]) matchTrackB sampleExternals freshRecords).map
        (fun s => (emittedRows (configWith [0, 3, 6, 8]) s).map
          (fun row => (row.1, row.2.bool_ .hasSt1St2St3_sh)))
        = Except.ok [(0, false), (3, false), (6, false), (8, false)] ∧
      (analyzeTrackEff (configWith [0, 3, 6, 8]) matchTrackB sampleExternals
          (recordsAfter (analyzeTrackEff (configWith [0, 3, 6, 8]) matchTrackA sampleExternals
            freshRecords) freshRecords)).map
        (fun s => (emittedRows (configWith [0, 3, 6, 8]) s).map
          (fun row => (row.1, row.2.bool_ .hasSt1St2St3_sh)))
        = Except.ok [(0, true), (3, false), (6, false), (8, false)] := by
  constructor
  · with_unfolding_all rfl
  · with_unfolding_all rfl

/-! ### Members a pass leaves alone -/

/-- Reading a `Char_t` member after an update of a record that does not change it. -/
theorem char_modify_keep (s : State) (i j : Int) (f : MyTrackEff → MyTrackEff)
    (F : CharField) (h : ∀ r, (f r).char_ F = r.char_ F) :
    ((s.modify i f).etrk_ j).char_ F = (s.etrk_ j).char_ F := by
  unfold State.modify upd
  by_cases hj : j = i
  · subst hj; simp [h]
  · simp [hj]

/-- Reading an `Int_t` member after an update of a record that does not change it. -/
theorem int_modify_keep (s : State) (i j : Int) (f : MyTrackEff → MyTrackEff)
    (F : IntField) (h : ∀ r, (f r).int_ F = r.int_ F) :
    ((s.modify i f).etrk_ j).int_ F = (s.etrk_ j).int_ F := by
  unfold State.modify upd
  by_cases hj : j = i
  · subst hj; simp [h]
  · simp [hj]

/-- Reading a `Float_t` member after an update of a record that does not change it. -/
theorem float_modify_keep (s : State) (i j : Int) (f : MyTrackEff → MyTrackEff)
    (F : FloatField) (h : ∀ r, (f r).float_ F = r.float_ F) :
    ((s.modify i f).etrk_ j).float_ F = (s.etrk_ j).float_ F := by
  unfold State.modify upd
  by_cases hj : j = i
  · subst hj; simp [h]
  · simp [hj]

/-- Every state keeps all members with respect to itself. -/
theorem Keeps.refl (C : List CharField) (I : List IntField) (R : List FloatField)
    (s : State) : Keeps C I R s s :=
  fun _ => ⟨fun _ _ => rfl, fun _ _ => rfl, fun _ _ => rfl⟩

/-- Keeping members composes. -/
theorem Keeps.trans {C : List CharField} {I : List IntField} {R : List FloatField}
    {s t u : State} (h1 : Keeps C I R s t) (h2 : Keeps C I R t u) : Keeps C I R s u :=
  fun j => ⟨fun F hF => ((h2 j).1 F hF).trans ((h1 j).1 F hF),
    fun F hF => ((h2 j).2.1 F hF).trans ((h1 j).2.1 F hF),
    fun F hF => ((h2 j).2.2 F hF).trans ((h1 j).2.2 F hF)⟩

/-- A state with the same records keeps all members. -/
theorem Keeps.of_etrk_eq {C : List CharField} {I : List IntField} {R : List FloatField}
    {s t : State} (h : t.etrk_ = s.etrk_) : Keeps C I R s t := by
  intro j; rw [h]; exact ⟨fun _ _ => rfl, fun _ _ => rfl, fun _ _ => rfl⟩

/-- A loop keeps the members its body keeps. -/
theorem foldl_keeps {α : Type} {C : List CharField} {I : List IntField}
    {R : List FloatField} (f : State → α → State)
    (h : ∀ s x, Keeps C I R s (f s x)) (l : List α) (s : State) :
    Keeps C I R s (l.foldl f s) := by
  induction l generalizing s with
  | nil => exact Keeps.refl C I R s
  | cons x l ih => exact (h s x).trans (ih (f s x))

/-- A loop that may throw keeps, when it completes, the members its body keeps. -/
theorem foldlM_keeps {α : Type} {C : List CharField} {I : List IntField}
    {R : List FloatField} (f : State → α → Except Fault State)
    (h : ∀ s x t, f s x = Except.ok t → Keeps C I R s t) (l : List α) (s t : State)
    (ht : l.foldlM f s = Except.ok t) : Keeps C I R s t := by
  induction l generalizing s with
  | nil =>
    simp only [List.foldlM, pure, Except.pure] at ht
    cases ht
    exact Keeps.refl C I R _
  | cons x l ih =>
    simp only [List.foldlM, bind, Except.bind] at ht
    cases hx : f s x with
    | error e => rw [hx] at ht; cases ht
    | ok u =>
      rw [hx] at ht
      exact (h s x u hx).trans (ih u ht)

/-- A loop that may throw completes when its body does at every state. -/
theorem foldlM_ok {α σ : Type} (f : σ → α → Except Fault σ) (l : List α)
    (h : ∀ s, ∀ x ∈ l, ∃ t, f s x = Except.ok t) (s : σ) :
    ∃ t, l.foldlM f s = Except.ok t := by
  induction l generalizing s with
  | nil => exact ⟨s, rfl⟩
  | cons x l ih =>
    obtain ⟨u, hu⟩ := h s x (List.mem_cons_self x l)
    obtain ⟨t, ht⟩ := ih (fun s y hy => h s y (List.mem_cons_of_mem x hy)) u
    refine ⟨t, ?_⟩
    simp only [List.foldlM, bind, Except.bind, hu]
    exact ht
/-! ### Keeping members across single statements -/

/-- A state with the same records keeps what the other keeps. -/
theorem Keeps.congr_etrk {C : List CharField} {I : List IntField} {R : List FloatField}
    {s t : State} (h : Keeps C I R s t) (u : State) (e : u.etrk_ = t.etrk_) :
    Keeps C I R s u := by
  intro j; rw [e]; exact h j

/-- An update of one record that changes none of the listed members keeps them. -/
theorem Keeps.modify {C : List CharField} {I : List IntField} {R : List FloatField}
    {s t : State} (h : Keeps C I R s t) (i : Int) (f : MyTrackEff → MyTrackEff)
    (hc : ∀ F ∈ C, ∀ r, (f r).char_ F = r.char_ F) (hi : ∀ F ∈ I, ∀ r, (f r).int_ F = r.int_ F)
    (hr : ∀ F ∈ R, ∀ r, (f r).float_ F = r.float_ F) : Keeps C I R s (t.modify i f) := by
  intro j
  refine ⟨fun F hF => ?_, fun F hF => ?_, fun F hF => ?_⟩
  · rw [char_modify_keep t i j f F (hc F hF)]; exact (h j).1 F hF
  · rw [int_modify_keep t i j f F (hi F hF)]; exact (h j).2.1 F hF
  · rw [float_modify_keep t i j f F (hr F hF)]; exact (h j).2.2 F hF

/-- The statement `etrk_[i].G = v` on an `Int_t` member that is not listed. -/
theorem Keeps.setI {C : List CharField} {I : List IntField} {R : List FloatField}
    {s t : State} (h : Keeps C I R s t) (i : Int) (G : IntField) (v : Int) (hG : G ∉ I) :
    Keeps C I R s (t.setI i G v) := by
  refine h.modify i _ (fun _ _ _ => rfl) (fun F hF r => ?_) (fun _ _ _ => rfl)
  have hne : F ≠ G := fun e => hG (e ▸ hF)
  simp [MyTrackEff.setI, hne]

/-- The statement `etrk_[i].G = v` on a `Float_t` member that is not listed. -/
theorem Keeps.setF {C : List CharField} {I : List IntField} {R : List FloatField}
    {s t : State} (h : Keeps C I R s t) (i : Int) (G : FloatField) (v : Float_t) (hG : G ∉ R) :
    Keeps C I R s (t.setF i G v) := by
  refine h.modify i _ (fun _ _ _ => rfl) (fun _ _ _ => rfl) (fun F hF r => ?_)
  have hne : F ≠ G := fun e => hG (e ▸ hF)
  simp [MyTrackEff.setF, hne]

/-- The statement `etrk_[i].G = v` on a `Char_t` member that is not listed. -/
theorem Keeps.setC {C : List CharField} {I : List IntField} {R : List FloatField}
    {s t : State} (h : Keeps C I R s t) (i : Int) (G : CharField) (v : Int) (hG : G ∉ C) :
    Keeps C I R s (t.setC i G v) := by
  refine h.modify i _ (fun F hF r => ?_) (fun _ _ _ => rfl) (fun _ _ _ => rfl)
  have hne : F ≠ G := fun e => hG (e ▸ hF)
  simp [MyTrackEff.setC, hne]

/-- The statement `etrk_[i].G |= b` on a `Char_t` member that is not listed. -/
theorem Keeps.orC {C : List CharField} {I : List IntField} {R : List FloatField}
    {s t : State} (h : Keeps C I R s t) (i : Int) (G : CharField) (b : Int) (hG : G ∉ C) :
    Keeps C I R s (t.orC i G b) := by
  refine h.modify i _ (fun F hF r => ?_) (fun _ _ _ => rfl) (fun _ _ _ => rfl)
  have hne : F ≠ G := fun e => hG (e ▸ hF)
  simp [MyTrackEff.orC, MyTrackEff.setC, hne]

/-- A statement on a `Bool_t` member keeps every listed member. -/
theorem Keeps.setB {C : List CharField} {I : List IntField} {R : List FloatField}
    {s t : State} (h : Keeps C I R s t) (i : Int) (G : BoolField) (v : Bool) :
    Keeps C I R s (t.setB i G v) :=
  h.modify i _ (fun _ _ _ => rfl) (fun _ _ _ => rfl) (fun _ _ _ => rfl)

/-- A statement on a `UInt_t` member keeps every listed member. -/
theorem Keeps.setU {C : List CharField} {I : List IntField} {R : List FloatField}
    {s t : State} (h : Keeps C I R s t) (i : Int) (G : UIntField) (v : Nat) :
    Keeps C I R s (t.setU i G v) :=
  h.modify i _ (fun _ _ _ => rfl) (fun _ _ _ => rfl) (fun _ _ _ => rfl)

/-- The statement pair on the `Int_t` members `fo` / `fe`, neither of them listed. -/
theorem Keeps.setIP {C : List CharField} {I : List IntField} {R : List FloatField}
    {s t : State} (h : Keeps C I R s t) (i : Int) (odd : Bool) (fo fe : IntField) (v : Int)
    (ho : fo ∉ I) (he : fe ∉ I) : Keeps C I R s (t.setIP i odd fo fe v) := by
  cases odd
  · exact h.setI i fe v he
  · exact h.setI i fo v ho

/-- The statement pair on the `Float_t` members `fo` / `fe`, neither of them listed. -/
theorem Keeps.setFP {C : List CharField} {I : List IntField} {R : List FloatField}
    {s t : State} (h : Keeps C I R s t) (i : Int) (odd : Bool) (fo fe : FloatField)
    (v : Float_t) (ho : fo ∉ R) (he : fe ∉ R) : Keeps C I R s (t.setFP i odd fo fe v) := by
  cases odd
  · exact h.setF i fe v he
  · exact h.setF i fo v ho

/-- The statement pair `|= 1` / `|= 2` on a `Char_t` member that is not listed. -/
theorem Keeps.orCP {C : List CharField} {I : List IntField} {R : List FloatField}
    {s t : State} (h : Keeps C I R s t) (i : Int) (odd : Bool) (G : CharField) (hG : G ∉ C) :
    Keeps C I R s (t.orCP i odd G) :=
  h.orC i G _ hG

/-- Storing a sim-hit point keeps every listed member. -/
theorem Keeps.setGpSh {C : List CharField} {I : List IntField} {R : List FloatField}
    {s t : State} (h : Keeps C I R s t) (i : Int) (odd : Bool) (gp : GlobalPoint) :
    Keeps C I R s (t.setGpSh i odd gp) :=
  h.congr_etrk _ (etrk_setGpSh t i odd gp)

/-- Both branches of a conditional keep the members. -/
theorem Keeps.ite {C : List CharField} {I : List IntField} {R : List FloatField}
    {s t u : State} (c : Prop) [Decidable c] (h1 : Keeps C I R s t) (h2 : Keeps C I R s u) :
    Keeps C I R s (if c then t else u) := by
  split_ifs
  · exact h1
  · exact h2

/-- An assignment to one of the local arrays, or to the call log, keeps every listed
member. -/
theorem Keeps.mk {C : List CharField} {I : List IntField} {R : List FloatField}
    {s t : State} (h : Keeps C I R s t) (a b : Int → GlobalPoint) (c d : Int → Digi)
    (e f g k : Int → GlobalPoint) (p : List PtCall) :
    Keeps C I R s
      { etrk_ := t.etrk_, gp_sh_odd := a, gp_sh_even := b, lct_odd := c, lct_even := d,
        gp_lct_odd := e, gp_lct_even := f, best_pad_odd := g, best_pad_even := k,
        ptCalls := p } :=
  h.congr_etrk _ rfl
/-! ### Members each pass of `aggregate` leaves alone -/

/-- The key-layer loop of the CSC sim-hit pass keeps every member but the sim-hit positions. -/
theorem cscKeyLayerLoop_keeps {C : List CharField} {I : List IntField} {R : List FloatField}
    (hR : ∀ G ∈ [FloatField.pteta_sh, FloatField.ptphi_sh, FloatField.pt_sh,
      FloatField.bending_sh, FloatField.eta_cscsh_odd, FloatField.eta_cscsh_even,
      FloatField.phi_cscsh_odd, FloatField.phi_cscsh_even], G ∉ R)
    (m : SimTrackMatchManager) (id : CSCDetId) (st : Int) (odd : Bool) (layers : List Int) (s :
        State)
    {s0 : State} (h0 : Keeps C I R s0 s) : Keeps C I R s0 (cscKeyLayerLoop m id st odd layers s)
        := by
  induction layers generalizing s with
  | nil => exact h0
  | cons layer rest ih =>
    unfold cscKeyLayerLoop
    simp only []
    with_reducible repeat' first
      | exact h0
      | refine ih _ ?_
      | refine Keeps.ite _ ?_ ?_
      | refine Keeps.setB ?_ _ _ _
      | refine Keeps.setU ?_ _ _ _
      | refine Keeps.setF ?_ _ _ _ (hR _ (by decide))
      | refine Keeps.setFP ?_ _ _ _ _ _ (hR _ (by decide)) (hR _ (by decide))

/-- The statements on record 0 of the CSC sim-hit pass keep every member but the sim-hit masks. -/
theorem cscSimHitSummary_keeps {C : List CharField} {I : List IntField} {R : List FloatField}
    (hC : ∀ G ∈ [CharField.chamber_ME1_csc_sh, CharField.chamber_ME2_csc_sh,
      CharField.has_csc_sh], G ∉ C)
    (id : CSCDetId) (s : State)
    {s0 : State} (h0 : Keeps C I R s0 s) : Keeps C I R s0 (cscSimHitSummary id s) := by
  unfold cscSimHitSummary
  simp only []
  with_reducible repeat' first
    | exact h0
    | refine Keeps.ite _ ?_ ?_
    | refine Keeps.setB ?_ _ _ _
    | refine Keeps.setU ?_ _ _ _
    | refine Keeps.orC ?_ _ _ _ (hC _ (by decide))

/-- The feature assignments of the CSC sim-hit pass keep every member but those of the sim-hit
    slots. -/
theorem cscSimHitFill_keeps {C : List CharField} {I : List IntField} {R : List FloatField}
    (hC : ∀ G ∈ [CharField.chamber_ME1_csc_sh, CharField.chamber_ME2_csc_sh,
      CharField.has_csc_sh], G ∉ C)
    (hI : ∀ G ∈ [IntField.nlayers_csc_sh_odd, IntField.nlayers_csc_sh_even], G ∉ I)
    (hR : ∀ G ∈ [FloatField.pteta_sh, FloatField.ptphi_sh, FloatField.pt_sh,
      FloatField.bending_sh, FloatField.eta_cscsh_odd, FloatField.eta_cscsh_even,
      FloatField.phi_cscsh_odd, FloatField.phi_cscsh_even], G ∉ R)
    (m : SimTrackMatchManager) (id : CSCDetId) (st nlayers : Int) (s : State)
    {s0 : State} (h0 : Keeps C I R s0 s) : Keeps C I R s0 (cscSimHitFill m id st nlayers s) := by
  unfold cscSimHitFill
  simp only []
  with_reducible repeat' first
    | exact h0
    | refine cscKeyLayerLoop_keeps hR _ _ _ _ _ _ ?_
    | refine Keeps.ite _ ?_ ?_
    | refine Keeps.setB ?_ _ _ _
    | refine Keeps.setU ?_ _ _ _
    | refine Keeps.setI ?_ _ _ _ (hI _ (by decide))
    | refine Keeps.setIP ?_ _ _ _ _ _ (hI _ (by decide)) (hI _ (by decide))
    | refine Keeps.setF ?_ _ _ _ (hR _ (by decide))
    | refine Keeps.orC ?_ _ _ _ (hC _ (by decide))
    | refine Keeps.orCP ?_ _ _ _ (hC _ (by decide))
    | refine Keeps.setC ?_ _ _ _ (hC _ (by decide))
    | refine Keeps.setGpSh ?_ _ _ _

/-- The CSC sim-hit pass keeps every member but those of the sim-hit slots and the two
    chamber-parity masks of record 0. -/
theorem cscSimHitStep_keeps {C : List CharField} {I : List IntField} {R : List FloatField}
    (hC : ∀ G ∈ [CharField.chamber_ME1_csc_sh, CharField.chamber_ME2_csc_sh,
      CharField.has_csc_sh], G ∉ C)
    (hI : ∀ G ∈ [IntField.nlayers_csc_sh_odd, IntField.nlayers_csc_sh_even], G ∉ I)
    (hR : ∀ G ∈ [FloatField.pteta_sh, FloatField.ptphi_sh, FloatField.pt_sh,
      FloatField.bending_sh, FloatField.eta_cscsh_odd, FloatField.eta_cscsh_even,
      FloatField.phi_cscsh_odd, FloatField.phi_cscsh_even], G ∉ R)
    (a : GEMCSCAnalyzer) (m : SimTrackMatchManager) (s : State) (id : CSCDetId)
    {s0 : State} (h0 : Keeps C I R s0 s) : Keeps C I R s0 (cscSimHitStep a m s id) := by
  unfold cscSimHitStep
  simp only []
  with_reducible repeat' first
    | exact h0
    | refine cscSimHitFill_keeps hC hI hR _ _ _ _ _ ?_
    | refine cscSimHitSummary_keeps hC _ _ ?_
    | refine Keeps.ite _ ?_ ?_

/-- The strip-digi pass keeps every member but `has_csc_strips` and `nlayers_st_dg_odd/even`. -/
theorem cscStripStep_keeps {C : List CharField} {I : List IntField} {R : List FloatField}
    (hC : ∀ G ∈ [CharField.has_csc_strips], G ∉ C)
    (hI : ∀ G ∈ [IntField.nlayers_st_dg_odd, IntField.nlayers_st_dg_even], G ∉ I)
    (a : GEMCSCAnalyzer) (m : SimTrackMatchManager) (s : State) (id : CSCDetId)
    {s0 : State} (h0 : Keeps C I R s0 s) : Keeps C I R s0 (cscStripStep a m s id) := by
  unfold cscStripStep
  simp only []
  with_reducible repeat' first
    | exact h0
    | refine Keeps.ite _ ?_ ?_
    | refine Keeps.setB ?_ _ _ _
    | refine Keeps.setU ?_ _ _ _
    | refine Keeps.setI ?_ _ _ _ (hI _ (by decide))
    | refine Keeps.setIP ?_ _ _ _ _ _ (hI _ (by decide)) (hI _ (by decide))
    | refine Keeps.orC ?_ _ _ _ (hC _ (by decide))
    | refine Keeps.orCP ?_ _ _ _ (hC _ (by decide))

/-- The wire-digi pass keeps every member but `has_csc_wires` and `nlayers_wg_dg_odd/even`. -/
theorem cscWireStep_keeps {C : List CharField} {I : List IntField} {R : List FloatField}
    (hC : ∀ G ∈ [CharField.has_csc_wires], G ∉ C)
    (hI : ∀ G ∈ [IntField.nlayers_wg_dg_odd, IntField.nlayers_wg_dg_even], G ∉ I)
    (a : GEMCSCAnalyzer) (m : SimTrackMatchManager) (s : State) (id : CSCDetId)
    {s0 : State} (h0 : Keeps C I R s0 s) : Keeps C I R s0 (cscWireStep a m s id) := by
  unfold cscWireStep
  simp only []
  with_reducible repeat' first
    | exact h0
    | refine Keeps.ite _ ?_ ?_
    | refine Keeps.setB ?_ _ _ _
    | refine Keeps.setU ?_ _ _ _
    | refine Keeps.setI ?_ _ _ _ (hI _ (by decide))
    | refine Keeps.setIP ?_ _ _ _ _ _ (hI _ (by decide)) (hI _ (by decide))
    | refine Keeps.orC ?_ _ _ _ (hC _ (by decide))
    | refine Keeps.orCP ?_ _ _ _ (hC _ (by decide))

/-- The CLCT pass keeps every member but those of the CLCT slots. -/
theorem cscCLCTStep_keeps {C : List CharField} {I : List IntField} {R : List FloatField}
    (hC : ∀ G ∈ [CharField.has_clct], G ∉ C)
    (hI : ∀ G ∈ [IntField.halfstrip_odd, IntField.halfstrip_even, IntField.quality_clct_odd,
      IntField.quality_clct_even], G ∉ I)
    (a : GEMCSCAnalyzer) (m : SimTrackMatchManager) (s : State) (id : CSCDetId)
    {s0 : State} (h0 : Keeps C I R s0 s) : Keeps C I R s0 (cscCLCTStep a m s id) := by
  unfold cscCLCTStep
  simp only []
  with_reducible repeat' first
    | exact h0
    | refine Keeps.ite _ ?_ ?_
    | refine Keeps.setB ?_ _ _ _
    | refine Keeps.setU ?_ _ _ _
    | refine Keeps.setI ?_ _ _ _ (hI _ (by decide))
    | refine Keeps.setIP ?_ _ _ _ _ _ (hI _ (by decide)) (hI _ (by decide))
    | refine Keeps.orC ?_ _ _ _ (hC _ (by decide))
    | refine Keeps.orCP ?_ _ _ _ (hC _ (by decide))

/-- The ALCT pass keeps every member but those of the ALCT slots. -/
theorem cscALCTStep_keeps {C : List CharField} {I : List IntField} {R : List FloatField}
    (hC : ∀ G ∈ [CharField.has_alct], G ∉ C)
    (hI : ∀ G ∈ [IntField.wiregroup_odd, IntField.wiregroup_even, IntField.quality_alct_odd,
      IntField.quality_alct_even], G ∉ I)
    (a : GEMCSCAnalyzer) (m : SimTrackMatchManager) (s : State) (id : CSCDetId)
    {s0 : State} (h0 : Keeps C I R s0 s) : Keeps C I R s0 (cscALCTStep a m s id) := by
  unfold cscALCTStep
  simp only []
  with_reducible repeat' first
    | exact h0
    | refine Keeps.ite _ ?_ ?_
    | refine Keeps.setB ?_ _ _ _
    | refine Keeps.setU ?_ _ _ _
    | refine Keeps.setI ?_ _ _ _ (hI _ (by decide))
    | refine Keeps.setIP ?_ _ _ _ _ _ (hI _ (by decide)) (hI _ (by decide))
    | refine Keeps.orC ?_ _ _ _ (hC _ (by decide))
    | refine Keeps.orCP ?_ _ _ _ (hC _ (by decide))

/-- The reset of the LCT holders changes no record. -/
theorem lctHolderStep_keeps {C : List CharField} {I : List IntField} {R : List FloatField}
    (s : State) (i : Int)
    {s0 : State} (h0 : Keeps C I R s0 s) : Keeps C I R s0 (lctHolderStep s i) := by
  unfold lctHolderStep
  simp only []
  with_reducible repeat' first
    | exact h0
    | refine Keeps.ite _ ?_ ?_
    | refine Keeps.setB ?_ _ _ _
    | refine Keeps.setU ?_ _ _ _
    | refine Keeps.setGpSh ?_ _ _ _
    | refine Keeps.mk ?_ _ _ _ _ _ _ _ _ _

/-- The block that stores one LCT keeps every member but those of the LCT slots. -/
theorem lctFill_keeps {C : List CharField} {I : List IntField} {R : List FloatField}
    (hC : ∀ G ∈ [CharField.has_lct, CharField.chamber_odd, CharField.chamber_even], G ∉ C)
    (hI : ∀ G ∈ [IntField.bend_lct_odd, IntField.bend_lct_even, IntField.bx_lct_odd,
      IntField.bx_lct_even, IntField.quality_odd, IntField.quality_even], G ∉ I)
    (hR : ∀ G ∈ [FloatField.phi_lct_odd, FloatField.phi_lct_even, FloatField.eta_lct_odd,
      FloatField.eta_lct_even, FloatField.dphi_lct_odd, FloatField.dphi_lct_even,
      FloatField.hs_lct_odd, FloatField.hs_lct_even, FloatField.wg_lct_odd,
      FloatField.wg_lct_even], G ∉ R)
    (m : SimTrackMatchManager) (id : CSCDetId) (lct : Digi) (gp : GlobalPoint) (bend chargesign :
        Int) (pt : Float_t) (odd : Bool) (i : Int) (s : State)
    {s0 : State} (h0 : Keeps C I R s0 s) : Keeps C I R s0 (lctFill m id lct gp bend chargesign pt
        odd i s) := by
  unfold lctFill
  simp only []
  with_reducible repeat' first
    | exact h0
    | refine Keeps.ite _ ?_ ?_
    | refine Keeps.setB ?_ _ _ _
    | refine Keeps.setU ?_ _ _ _
    | refine Keeps.setI ?_ _ _ _ (hI _ (by decide))
    | refine Keeps.setF ?_ _ _ _ (hR _ (by decide))
    | refine Keeps.orC ?_ _ _ _ (hC _ (by decide))
    | refine Keeps.orCP ?_ _ _ _ (hC _ (by decide))
    | refine Keeps.setC ?_ _ _ _ (hC _ (by decide))
    | refine Keeps.setGpSh ?_ _ _ _
    | refine Keeps.mk ?_ _ _ _ _ _ _ _ _ _

/-- The LCT pass keeps every member but those of the LCT slots. -/
theorem cscLCTStep_keeps {C : List CharField} {I : List IntField} {R : List FloatField}
    (hC : ∀ G ∈ [CharField.has_lct, CharField.chamber_odd, CharField.chamber_even], G ∉ C)
    (hI : ∀ G ∈ [IntField.bend_lct_odd, IntField.bend_lct_even, IntField.bx_lct_odd,
      IntField.bx_lct_even, IntField.quality_odd, IntField.quality_even], G ∉ I)
    (hR : ∀ G ∈ [FloatField.phi_lct_odd, FloatField.phi_lct_even, FloatField.eta_lct_odd,
      FloatField.eta_lct_even, FloatField.dphi_lct_odd, FloatField.dphi_lct_even,
      FloatField.hs_lct_odd, FloatField.hs_lct_even, FloatField.wg_lct_odd,
      FloatField.wg_lct_even], G ∉ R)
    (a : GEMCSCAnalyzer) (m : SimTrackMatchManager) (s : State) (id : CSCDetId)
    {s0 : State} (h0 : Keeps C I R s0 s) : Keeps C I R s0 (cscLCTStep a m s id) := by
  unfold cscLCTStep
  simp only []
  with_reducible repeat' first
    | exact h0
    | refine lctFill_keeps hC hI hR _ _ _ _ _ _ _ _ _ _ ?_
    | refine Keeps.ite _ ?_ ?_
    | refine Keeps.setB ?_ _ _ _
    | refine Keeps.setU ?_ _ _ _
    | refine Keeps.setI ?_ _ _ _ (hI _ (by decide))
    | refine Keeps.setF ?_ _ _ _ (hR _ (by decide))
    | refine Keeps.orC ?_ _ _ _ (hC _ (by decide))
    | refine Keeps.orCP ?_ _ _ _ (hC _ (by decide))

/-- A pt-assignment block keeps every member but its output `out`. -/
theorem ptAssignBlock_keeps {C : List CharField} {I : List IntField} {R : List FloatField}
    (x : Externals) (mask : CharField) (gp_odd gp_even : Int → GlobalPoint) (flag : BoolField)
    (out : FloatField) (hout : out ∉ R) (s : State)
    {s0 : State} (h0 : Keeps C I R s0 s) :
    Keeps C I R s0 (ptAssignBlock x mask gp_odd gp_even flag out s) := by
  unfold ptAssignBlock
  simp only []
  with_reducible repeat' first
    | exact h0
    | refine Keeps.ite _ ?_ ?_
    | refine Keeps.setB ?_ _ _ _
    | refine Keeps.setF ?_ _ _ _ hout
    | refine Keeps.mk ?_ _ _ _ _ _ _ _ _ _

/-- The key-point assignments of the GEM sim-hit pass keep every member but the GEM sim-hit
    positions and `dphi_sh_odd/even`. -/
theorem gemShKeyFill_keeps {C : List CharField} {I : List IntField} {R : List FloatField}
    (hR : ∀ G ∈ [FloatField.eta_gemsh_odd, FloatField.eta_gemsh_even, FloatField.phi_gemsh_odd,
      FloatField.phi_gemsh_even, FloatField.dphi_sh_odd, FloatField.dphi_sh_even,
      FloatField.strip_gemsh_odd, FloatField.strip_gemsh_even], G ∉ R)
    (x : Externals) (keygp : GlobalPoint) (odd : Bool) (i : Int) (s : State)
    {s0 : State} (h0 : Keeps C I R s0 s) : Keeps C I R s0 (gemShKeyFill x keygp odd i s) := by
  unfold gemShKeyFill
  refine h0.modify i _ (fun F _ r => ?_) (fun F _ r => ?_) (fun F hF r => ?_)
  · rw [(gemShKeyRecord_others x keygp odd r).2.2.1]
  · rw [(gemShKeyRecord_others x keygp odd r).1]
  · have h1 : F ≠ .eta_gemsh_odd := fun e => hR _ (by decide) (e ▸ hF)
    have h2 : F ≠ .eta_gemsh_even := fun e => hR _ (by decide) (e ▸ hF)
    have h3 : F ≠ .phi_gemsh_odd := fun e => hR _ (by decide) (e ▸ hF)
    have h4 : F ≠ .phi_gemsh_even := fun e => hR _ (by decide) (e ▸ hF)
    have h5 : F ≠ .dphi_sh_odd := fun e => hR _ (by decide) (e ▸ hF)
    have h6 : F ≠ .dphi_sh_even := fun e => hR _ (by decide) (e ▸ hF)
    rw [gemShKeyRecord_float x keygp odd r F h5 h6]
    cases odd <;> simp [h1, h2, h3, h4]

/-- The layer loop of the GEM sim-hit pass keeps every member but the GEM sim-hit positions and
    `dphi_sh_odd/even`. -/
theorem gemShLayerLoop_keeps {C : List CharField} {I : List IntField} {R : List FloatField}
    (hR : ∀ G ∈ [FloatField.eta_gemsh_odd, FloatField.eta_gemsh_even, FloatField.phi_gemsh_odd,
      FloatField.phi_gemsh_even, FloatField.dphi_sh_odd, FloatField.dphi_sh_even,
      FloatField.strip_gemsh_odd, FloatField.strip_gemsh_even], G ∉ R)
    (m : SimTrackMatchManager) (x : Externals) (id : GEMDetId) (st : Int) (odd : Bool) (layers :
        List Int) (s : State)
    {s0 : State} (h0 : Keeps C I R s0 s) : Keeps C I R s0 (gemShLayerLoop m x id st odd layers s)
        := by
  induction layers generalizing s with
  | nil => exact h0
  | cons layer rest ih =>
    unfold gemShLayerLoop
    simp only []
    with_reducible repeat' first
      | exact h0
      | refine ih _ ?_
      | refine gemShKeyFill_keeps hR _ _ _ _ _ ?_
      | refine Keeps.ite _ ?_ ?_

/-- The GEM sim-hit pass keeps every member but those of the GEM sim-hit slots. -/
theorem gemSimHitStep_keeps {C : List CharField} {I : List IntField} {R : List FloatField}
    (hC : ∀ G ∈ [CharField.has_gem_sh, CharField.has_gem_sh2], G ∉ C)
    (hR : ∀ G ∈ [FloatField.eta_gemsh_odd, FloatField.eta_gemsh_even, FloatField.phi_gemsh_odd,
      FloatField.phi_gemsh_even, FloatField.dphi_sh_odd, FloatField.dphi_sh_even,
      FloatField.strip_gemsh_odd, FloatField.strip_gemsh_even], G ∉ R)
    (a : GEMCSCAnalyzer) (m : SimTrackMatchManager) (x : Externals) (s : State) (id : GEMDetId)
    {s0 : State} (h0 : Keeps C I R s0 s) : Keeps C I R s0 (gemSimHitStep a m x s id) := by
  unfold gemSimHitStep
  simp only []
  cases gemMEStation id with
  | none => exact h0
  | some ME =>
    simp only []
    with_reducible repeat' first
      | exact h0
      | refine gemShLayerLoop_keeps hR _ _ _ _ _ _ _ ?_
      | refine Keeps.ite _ ?_ ?_
      | refine Keeps.setB ?_ _ _ _
      | refine Keeps.setU ?_ _ _ _
      | refine Keeps.setF ?_ _ _ _ (hR _ (by decide))
      | refine Keeps.setFP ?_ _ _ _ _ _ (hR _ (by decide)) (hR _ (by decide))
      | refine Keeps.orC ?_ _ _ _ (hC _ (by decide))
      | refine Keeps.orCP ?_ _ _ _ (hC _ (by decide))

/-- The closest-pad block of the odd slot keeps every member but those of the pad slots. -/
theorem closestPadOdd_keeps {C : List CharField} {I : List IntField} {R : List FloatField}
    (hI : ∀ G ∈ [IntField.strip_gemdg_odd, IntField.strip_gemdg_even, IntField.pad_odd,
      IntField.pad_even, IntField.hsfromgem_odd, IntField.hsfromgem_even, IntField.bx_pad_odd,
      IntField.bx_pad_even], G ∉ I)
    (hR : ∀ G ∈ [FloatField.phi_pad_odd, FloatField.phi_pad_even, FloatField.eta_pad_odd,
      FloatField.eta_pad_even, FloatField.dphi_pad_odd, FloatField.dphi_pad_even,
      FloatField.deta_pad_odd, FloatField.deta_pad_even], G ∉ R)
    (m : SimTrackMatchManager) (x : Externals) (pads : List Digi) (st : Int) (s : State)
    {s0 : State} (h0 : Keeps C I R s0 s) : Keeps C I R s0 (closestPadOdd m x pads st s) := by
  unfold closestPadOdd
  simp only []
  with_reducible repeat' first
    | exact h0
    | refine Keeps.ite _ ?_ ?_
    | refine Keeps.setB ?_ _ _ _
    | refine Keeps.setU ?_ _ _ _
    | refine Keeps.setI ?_ _ _ _ (hI _ (by decide))
    | refine Keeps.setF ?_ _ _ _ (hR _ (by decide))
    | refine Keeps.setGpSh ?_ _ _ _
    | refine Keeps.mk ?_ _ _ _ _ _ _ _ _ _

/-- The closest-pad block of the even slot keeps every member but those of the pad slots. -/
theorem closestPadEven_keeps {C : List CharField} {I : List IntField} {R : List FloatField}
    (hI : ∀ G ∈ [IntField.strip_gemdg_odd, IntField.strip_gemdg_even, IntField.pad_odd,
      IntField.pad_even, IntField.hsfromgem_odd, IntField.hsfromgem_even, IntField.bx_pad_odd,
      IntField.bx_pad_even], G ∉ I)
    (hR : ∀ G ∈ [FloatField.phi_pad_odd, FloatField.phi_pad_even, FloatField.eta_pad_odd,
      FloatField.eta_pad_even, FloatField.dphi_pad_odd, FloatField.dphi_pad_even,
      FloatField.deta_pad_odd, FloatField.deta_pad_even], G ∉ R)
    (m : SimTrackMatchManager) (x : Externals) (pads : List Digi) (st : Int) (s : State)
    {s0 : State} (h0 : Keeps C I R s0 s) : Keeps C I R s0 (closestPadEven m x pads st s) := by
  unfold closestPadEven
  simp only []
  with_reducible repeat' first
    | exact h0
    | refine Keeps.ite _ ?_ ?_
    | refine Keeps.setB ?_ _ _ _
    | refine Keeps.setU ?_ _ _ _
    | refine Keeps.setI ?_ _ _ _ (hI _ (by decide))
    | refine Keeps.setF ?_ _ _ _ (hR _ (by decide))
    | refine Keeps.setGpSh ?_ _ _ _
    | refine Keeps.mk ?_ _ _ _ _ _ _ _ _ _

/-- The pad loop of the first GEM digi pass keeps every member but those of the pad slots. -/
theorem gemPadLayerLoop_keeps {C : List CharField} {I : List IntField} {R : List FloatField}
    (hC : ∀ G ∈ [CharField.has_gem_dg2, CharField.has_gem_dg, CharField.has_gem_pad2,
      CharField.has_gem_pad, CharField.chamber_odd, CharField.chamber_even], G ∉ C)
    (hI : ∀ G ∈ [IntField.strip_gemdg_odd, IntField.strip_gemdg_even, IntField.pad_odd,
      IntField.pad_even, IntField.hsfromgem_odd, IntField.hsfromgem_even, IntField.bx_pad_odd,
      IntField.bx_pad_even], G ∉ I)
    (hR : ∀ G ∈ [FloatField.phi_pad_odd, FloatField.phi_pad_even, FloatField.eta_pad_odd,
      FloatField.eta_pad_even, FloatField.dphi_pad_odd, FloatField.dphi_pad_even,
      FloatField.deta_pad_odd, FloatField.deta_pad_even], G ∉ R)
    (m : SimTrackMatchManager) (x : Externals) (id : GEMDetId) (st : Int) (odd : Bool) (layers :
        List Int) (s : State)
    {s0 : State} (h0 : Keeps C I R s0 s) : Keeps C I R s0 (gemPadLayerLoop m x id st odd layers s)
        := by
  induction layers generalizing s with
  | nil => exact h0
  | cons layer rest ih =>
    unfold gemPadLayerLoop
    simp only []
    with_reducible repeat' first
      | exact h0
      | refine ih _ ?_
      | refine closestPadOdd_keeps hI hR _ _ _ _ _ ?_
      | refine closestPadEven_keeps hI hR _ _ _ _ _ ?_
      | refine Keeps.ite _ ?_ ?_
      | refine Keeps.setB ?_ _ _ _
      | refine Keeps.setU ?_ _ _ _
      | refine Keeps.setI ?_ _ _ _ (hI _ (by decide))
      | refine Keeps.setF ?_ _ _ _ (hR _ (by decide))
      | refine Keeps.orC ?_ _ _ _ (hC _ (by decide))

/-- The pad loop of the second GEM digi pass keeps every member but those of the pad slots. -/
theorem gemPadLayerLoopME11_keeps {C : List CharField} {I : List IntField} {R : List FloatField}
    (hC : ∀ G ∈ [CharField.has_gem_dg2, CharField.has_gem_dg, CharField.has_gem_pad2,
      CharField.has_gem_pad, CharField.chamber_odd, CharField.chamber_even], G ∉ C)
    (hI : ∀ G ∈ [IntField.strip_gemdg_odd, IntField.strip_gemdg_even, IntField.pad_odd,
      IntField.pad_even, IntField.hsfromgem_odd, IntField.hsfromgem_even, IntField.bx_pad_odd,
      IntField.bx_pad_even], G ∉ I)
    (hR : ∀ G ∈ [FloatField.phi_pad_odd, FloatField.phi_pad_even, FloatField.eta_pad_odd,
      FloatField.eta_pad_even, FloatField.dphi_pad_odd, FloatField.dphi_pad_even,
      FloatField.deta_pad_odd, FloatField.deta_pad_even], G ∉ R)
    (m : SimTrackMatchManager) (x : Externals) (id : GEMDetId) (st : Int) (odd : Bool) (layers :
        List Int) (s : State)
    {s0 : State} (h0 : Keeps C I R s0 s) : Keeps C I R s0 (gemPadLayerLoopME11 m x id st odd
        layers s) := by
  induction layers generalizing s with
  | nil => exact h0
  | cons layer rest ih =>
    unfold gemPadLayerLoopME11
    simp only []
    with_reducible repeat' first
      | exact h0
      | refine ih _ ?_
      | refine closestPadOdd_keeps hI hR _ _ _ _ _ ?_
      | refine closestPadEven_keeps hI hR _ _ _ _ _ ?_
      | refine Keeps.ite _ ?_ ?_
      | refine Keeps.setB ?_ _ _ _
      | refine Keeps.setU ?_ _ _ _
      | refine Keeps.setI ?_ _ _ _ (hI _ (by decide))
      | refine Keeps.setF ?_ _ _ _ (hR _ (by decide))
      | refine Keeps.orC ?_ _ _ _ (hC _ (by decide))

/-- The digi statements of a GEM digi pass keep every member but those of the GEM digi slots. -/
theorem gemDigiFill_keeps {C : List CharField} {I : List IntField} {R : List FloatField}
    (hC : ∀ G ∈ [CharField.has_gem_dg2, CharField.has_gem_dg, CharField.has_gem_pad2,
      CharField.has_gem_pad, CharField.chamber_odd, CharField.chamber_even], G ∉ C)
    (hI : ∀ G ∈ [IntField.strip_gemdg_odd, IntField.strip_gemdg_even, IntField.pad_odd,
      IntField.pad_even, IntField.hsfromgem_odd, IntField.hsfromgem_even, IntField.bx_pad_odd,
      IntField.bx_pad_even], G ∉ I)
    (m : SimTrackMatchManager) (d : DetId) (odd : Bool) (st : Int) (s : State)
    {s0 : State} (h0 : Keeps C I R s0 s) : Keeps C I R s0 (gemDigiFill m d odd st s) := by
  unfold gemDigiFill
  simp only []
  with_reducible repeat' first
    | exact h0
    | refine Keeps.ite _ ?_ ?_
    | refine Keeps.setB ?_ _ _ _
    | refine Keeps.setU ?_ _ _ _
    | refine Keeps.setI ?_ _ _ _ (hI _ (by decide))
    | refine Keeps.orC ?_ _ _ _ (hC _ (by decide))
    | refine Keeps.orCP ?_ _ _ _ (hC _ (by decide))

/-- The first GEM digi pass keeps every member but those of the GEM digi and pad slots. -/
theorem gemDigiStep_keeps {C : List CharField} {I : List IntField} {R : List FloatField}
    (hC : ∀ G ∈ [CharField.has_gem_dg2, CharField.has_gem_dg, CharField.has_gem_pad2,
      CharField.has_gem_pad, CharField.chamber_odd, CharField.chamber_even], G ∉ C)
    (hI : ∀ G ∈ [IntField.strip_gemdg_odd, IntField.strip_gemdg_even, IntField.pad_odd,
      IntField.pad_even, IntField.hsfromgem_odd, IntField.hsfromgem_even, IntField.bx_pad_odd,
      IntField.bx_pad_even], G ∉ I)
    (hR : ∀ G ∈ [FloatField.phi_pad_odd, FloatField.phi_pad_even, FloatField.eta_pad_odd,
      FloatField.eta_pad_even, FloatField.dphi_pad_odd, FloatField.dphi_pad_even,
      FloatField.deta_pad_odd, FloatField.deta_pad_even], G ∉ R)
    (a : GEMCSCAnalyzer) (m : SimTrackMatchManager) (x : Externals) (s : State) (id : GEMDetId)
    {s0 : State} (h0 : Keeps C I R s0 s) : Keeps C I R s0 (gemDigiStep a m x s id) := by
  unfold gemDigiStep
  simp only []
  cases gemMEStation id with
  | none => exact h0
  | some ME =>
    simp only []
    with_reducible repeat' first
      | exact h0
      | refine gemPadLayerLoop_keeps hC hI hR _ _ _ _ _ _ _ ?_
      | refine gemDigiFill_keeps hC hI _ _ _ _ _ ?_
      | refine Keeps.ite _ ?_ ?_

/-- The second GEM digi pass keeps every member but those of the GEM digi and pad slots. -/
theorem gemDigiStepME11_keeps {C : List CharField} {I : List IntField} {R : List FloatField}
    (hC : ∀ G ∈ [CharField.has_gem_dg2, CharField.has_gem_dg, CharField.has_gem_pad2,
      CharField.has_gem_pad, CharField.chamber_odd, CharField.chamber_even], G ∉ C)
    (hI : ∀ G ∈ [IntField.strip_gemdg_odd, IntField.strip_gemdg_even, IntField.pad_odd,
      IntField.pad_even, IntField.hsfromgem_odd, IntField.hsfromgem_even, IntField.bx_pad_odd,
      IntField.bx_pad_even], G ∉ I)
    (hR : ∀ G ∈ [FloatField.phi_pad_odd, FloatField.phi_pad_even, FloatField.eta_pad_odd,
      FloatField.eta_pad_even, FloatField.dphi_pad_odd, FloatField.dphi_pad_even,
      FloatField.deta_pad_odd, FloatField.deta_pad_even], G ∉ R)
    (a : GEMCSCAnalyzer) (m : SimTrackMatchManager) (x : Externals) (s : State) (id : GEMDetId)
    {s0 : State} (h0 : Keeps C I R s0 s) : Keeps C I R s0 (gemDigiStepME11 a m x s id) := by
  unfold gemDigiStepME11
  simp only []
  cases gemMEStation id with
  | none => exact h0
  | some ME =>
    simp only []
    with_reducible repeat' first
      | exact h0
      | refine gemPadLayerLoopME11_keeps hC hI hR _ _ _ _ _ _ _ ?_
      | refine gemDigiFill_keeps hC hI _ _ _ _ _ ?_
      | refine Keeps.ite _ ?_ ?_

/-- The coincidence-pad pass keeps every member but `has_gem_copad` and `Copad_odd/even`. -/
theorem gemCoPadStep_keeps {C : List CharField} {I : List IntField} {R : List FloatField}
    (hC : ∀ G ∈ [CharField.has_gem_copad], G ∉ C)
    (hI : ∀ G ∈ [IntField.Copad_odd, IntField.Copad_even], G ∉ I)
    (a : GEMCSCAnalyzer) (m : SimTrackMatchManager) (s : State) (id : GEMDetId)
    {s0 : State} (h0 : Keeps C I R s0 s) : Keeps C I R s0 (gemCoPadStep a m s id) := by
  unfold gemCoPadStep
  simp only []
  cases gemMEStation id with
  | none => exact h0
  | some ME =>
    simp only []
    with_reducible repeat' first
      | exact h0
      | refine Keeps.ite _ ?_ ?_
      | refine Keeps.setB ?_ _ _ _
      | refine Keeps.setU ?_ _ _ _
      | refine Keeps.setI ?_ _ _ _ (hI _ (by decide))
      | refine Keeps.setIP ?_ _ _ _ _ _ (hI _ (by decide)) (hI _ (by decide))
      | refine Keeps.orC ?_ _ _ _ (hC _ (by decide))
      | refine Keeps.orCP ?_ _ _ _ (hC _ (by decide))

/-! ### Members the track-level part leaves alone -/

/-- The assignments of a propagated point keep every member but those of the track-finder part. -/
theorem propagatedFill_keeps {C : List CharField} {I : List IntField} {R : List FloatField}
    (hR : ∀ G ∈ [FloatField.trackpt, FloatField.tracketa, FloatField.trackphi, FloatField.deltaR,
      FloatField.dphiGE11, FloatField.dphiGE21, FloatField.lctdphi12, FloatField.eta_ME1_TF,
      FloatField.phi_ME1_TF, FloatField.eta_ME2_TF, FloatField.phi_ME2_TF, FloatField.eta_ME3_TF,
      FloatField.phi_ME3_TF, FloatField.eta_ME4_TF, FloatField.phi_ME4_TF,
      FloatField.eta_propagated_ME1, FloatField.phi_propagated_ME1, FloatField.eta_propagated_ME2,
      FloatField.phi_propagated_ME2, FloatField.eta_propagated_ME3, FloatField.phi_propagated_ME3,
      FloatField.eta_propagated_ME4, FloatField.phi_propagated_ME4, FloatField.eta_interStat12,
      FloatField.phi_interStat12, FloatField.eta_interStat23, FloatField.phi_interStat23,
      FloatField.eta_interStat13, FloatField.phi_interStat13], G ∉ R)
    (st : Int) (p : Float_t × Float_t) (i : Int) (s : State)
    {s0 : State} (h0 : Keeps C I R s0 s) : Keeps C I R s0 (propagatedFill st p i s) := by
  unfold propagatedFill
  simp only []
  with_reducible repeat' first
    | exact h0
    | refine Keeps.ite _ ?_ ?_
    | refine Keeps.setB ?_ _ _ _
    | refine Keeps.setU ?_ _ _ _
    | refine Keeps.setF ?_ _ _ _ (hR _ (by decide))

/-- The assignments of the inter-station propagation keep every member but those of the
    track-finder part. -/
theorem interStatFill_keeps {C : List CharField} {I : List IntField} {R : List FloatField}
    (hR : ∀ G ∈ [FloatField.trackpt, FloatField.tracketa, FloatField.trackphi, FloatField.deltaR,
      FloatField.dphiGE11, FloatField.dphiGE21, FloatField.lctdphi12, FloatField.eta_ME1_TF,
      FloatField.phi_ME1_TF, FloatField.eta_ME2_TF, FloatField.phi_ME2_TF, FloatField.eta_ME3_TF,
      FloatField.phi_ME3_TF, FloatField.eta_ME4_TF, FloatField.phi_ME4_TF,
      FloatField.eta_propagated_ME1, FloatField.phi_propagated_ME1, FloatField.eta_propagated_ME2,
      FloatField.phi_propagated_ME2, FloatField.eta_propagated_ME3, FloatField.phi_propagated_ME3,
      FloatField.eta_propagated_ME4, FloatField.phi_propagated_ME4, FloatField.eta_interStat12,
      FloatField.phi_interStat12, FloatField.eta_interStat23, FloatField.phi_interStat23,
      FloatField.eta_interStat13, FloatField.phi_interStat13], G ∉ R)
    (st : Int) (interstat : Int → GlobalPoint) (i : Int) (s : State)
    {s0 : State} (h0 : Keeps C I R s0 s) : Keeps C I R s0 (interStatFill st interstat i s) := by
  unfold interStatFill
  simp only []
  with_reducible repeat' first
    | exact h0
    | refine Keeps.ite _ ?_ ?_
    | refine Keeps.setB ?_ _ _ _
    | refine Keeps.setU ?_ _ _ _
    | refine Keeps.setF ?_ _ _ _ (hR _ (by decide))

/-- One step of the general propagation keeps, when it does not throw, every member but those of
    the track-finder part. -/
theorem propagationStep_keeps {C : List CharField} {I : List IntField} {R : List FloatField}
    (hR : ∀ G ∈ [FloatField.trackpt, FloatField.tracketa, FloatField.trackphi, FloatField.deltaR,
      FloatField.dphiGE11, FloatField.dphiGE21, FloatField.lctdphi12, FloatField.eta_ME1_TF,
      FloatField.phi_ME1_TF, FloatField.eta_ME2_TF, FloatField.phi_ME2_TF, FloatField.eta_ME3_TF,
      FloatField.phi_ME3_TF, FloatField.eta_ME4_TF, FloatField.phi_ME4_TF,
      FloatField.eta_propagated_ME1, FloatField.phi_propagated_ME1, FloatField.eta_propagated_ME2,
      FloatField.phi_propagated_ME2, FloatField.eta_propagated_ME3, FloatField.phi_propagated_ME3,
      FloatField.eta_propagated_ME4, FloatField.phi_propagated_ME4, FloatField.eta_interStat12,
      FloatField.phi_interStat12, FloatField.eta_interStat23, FloatField.phi_interStat23,
      FloatField.eta_interStat13, FloatField.phi_interStat13], G ∉ R)
    (m : SimTrackMatchManager) (s : State) (i : Int) (t : State)
    (h : propagationStep m s i = Except.ok t) : Keeps C I R s t := by
  have h0 := Keeps.refl C I R s
  unfold propagationStep at h
  simp only [bind, Except.bind, pure, Except.pure] at h
  split at h
  · cases h
  · split_ifs at h
    · cases h; exact h0
    · split at h
      · cases h
      · cases h
        with_reducible repeat' first
          | exact h0
          | refine interStatFill_keeps hR _ _ _ _ ?_
          | refine propagatedFill_keeps hR _ _ _ _ ?_

/-- A loop that may throw, over a state with a `State` component: when it completes, it
keeps the members its body keeps. -/
theorem foldlM_keeps_proj {α σ : Type} {C : List CharField} {I : List IntField}
    {R : List FloatField} (p : σ → State) (f : σ → α → Except Fault σ)
    (h : ∀ s x t, f s x = Except.ok t → Keeps C I R (p s) (p t)) (l : List α) (s t : σ)
    (ht : l.foldlM f s = Except.ok t) : Keeps C I R (p s) (p t) := by
  induction l generalizing s with
  | nil =>
    simp only [List.foldlM, pure, Except.pure] at ht
    cases ht
    exact Keeps.refl C I R _
  | cons x l ih =>
    simp only [List.foldlM, bind, Except.bind] at ht
    cases hx : f s x with
    | error e => rw [hx] at ht; cases ht
    | ok u =>
      rw [hx] at ht
      exact (h s x u hx).trans (ih u ht)

/-- The access `v.at(i)` returns an element for an index within the vector. -/
theorem vecAt_ok {α : Type} (v : List α) (i : Int) (h0 : 0 ≤ i) (h1 : i < (v.length : Int)) :
    ∃ e, vecAt v i = Except.ok e := by
  unfold vecAt
  have hlt : i.toNat < v.length := by omega
  simp only [h0, if_true]
  cases hg : v.get? i.toNat with
  | none => rw [List.get?_eq_none] at hg; omega
  | some e => exact ⟨e, rfl⟩

/-- The element `v.at(i)` returns is an element of the vector. -/
theorem vecAt_mem {α : Type} (v : List α) (i : Int) (e : α) (h : vecAt v i = Except.ok e) :
    e ∈ v := by
  unfold vecAt at h
  split_ifs at h
  · cases hg : v.get? i.toNat with
    | none => rw [hg] at h; cases h
    | some e1 =>
      rw [hg] at h
      cases h
      exact List.get?_mem hg

/-- One step of the general propagation does not throw for a station index within the
table and four propagated points. -/
theorem propagationStep_ok (m : SimTrackMatchManager) (s : State) (i : Int)
    (hi : 0 ≤ i ∧ i < 12) (hodd : 4 ≤ m.simTrackPropagateGPs_odd.length) :
    ∃ t, propagationStep m s i = Except.ok t := by
  obtain ⟨e, he⟩ := vecAt_ok cscStationsCo_ i hi.1 (by simp [cscStationsCo_]; omega)
  unfold propagationStep
  simp only [bind, Except.bind, pure, Except.pure, he]
  split_ifs with hr
  · exact ⟨_, rfl⟩
  · obtain ⟨p, hp⟩ := vecAt_ok m.simTrackPropagateGPs_odd (e.1 - 1) (by omega) (by omega)
    simp only [hp]
    exact ⟨_, rfl⟩

/-- The head of the track-finder block keeps every member but those of the track-finder part. -/
theorem tfTrackHead_keeps {C : List CharField} {I : List IntField} {R : List FloatField}
    (hI : ∀ G ∈ [IntField.has_tfTrack, IntField.ME1_ring, IntField.ME1_hs, IntField.ME1_wg,
      IntField.ME2_ring, IntField.ME2_hs, IntField.ME2_wg], G ∉ I)
    (hR : ∀ G ∈ [FloatField.trackpt, FloatField.tracketa, FloatField.trackphi, FloatField.deltaR,
      FloatField.dphiGE11, FloatField.dphiGE21, FloatField.lctdphi12, FloatField.eta_ME1_TF,
      FloatField.phi_ME1_TF, FloatField.eta_ME2_TF, FloatField.phi_ME2_TF, FloatField.eta_ME3_TF,
      FloatField.phi_ME3_TF, FloatField.eta_ME4_TF, FloatField.phi_ME4_TF,
      FloatField.eta_propagated_ME1, FloatField.phi_propagated_ME1, FloatField.eta_propagated_ME2,
      FloatField.phi_propagated_ME2, FloatField.eta_propagated_ME3, FloatField.phi_propagated_ME3,
      FloatField.eta_propagated_ME4, FloatField.phi_propagated_ME4, FloatField.eta_interStat12,
      FloatField.phi_interStat12, FloatField.eta_interStat23, FloatField.phi_interStat23,
      FloatField.eta_interStat13, FloatField.phi_interStat13], G ∉ R)
    (m : SimTrackMatchManager) (s : State)
    {s0 : State} (h0 : Keeps C I R s0 s) : Keeps C I R s0 (tfTrackHead m s) := by
  unfold tfTrackHead
  simp only []
  with_reducible repeat' first
    | exact h0
    | refine Keeps.ite _ ?_ ?_
    | refine Keeps.setB ?_ _ _ _
    | refine Keeps.setU ?_ _ _ _
    | refine Keeps.setI ?_ _ _ _ (hI _ (by decide))
    | refine Keeps.setF ?_ _ _ _ (hR _ (by decide))

/-- The ME1 block of the track-finder part keeps, when it does not throw, every member but those
    of the track-finder part. -/
theorem tfME1Block_keeps {C : List CharField} {I : List IntField} {R : List FloatField}
    (hC : ∀ G ∈ [CharField.chamberME1, CharField.chamberME2, CharField.has_csc_sh], G ∉ C)
    (hI : ∀ G ∈ [IntField.has_tfTrack, IntField.ME1_ring, IntField.ME1_hs, IntField.ME1_wg,
      IntField.ME2_ring, IntField.ME2_hs, IntField.ME2_wg], G ∉ I)
    (hR : ∀ G ∈ [FloatField.trackpt, FloatField.tracketa, FloatField.trackphi, FloatField.deltaR,
      FloatField.dphiGE11, FloatField.dphiGE21, FloatField.lctdphi12, FloatField.eta_ME1_TF,
      FloatField.phi_ME1_TF, FloatField.eta_ME2_TF, FloatField.phi_ME2_TF, FloatField.eta_ME3_TF,
      FloatField.phi_ME3_TF, FloatField.eta_ME4_TF, FloatField.phi_ME4_TF,
      FloatField.eta_propagated_ME1, FloatField.phi_propagated_ME1, FloatField.eta_propagated_ME2,
      FloatField.phi_propagated_ME2, FloatField.eta_propagated_ME3, FloatField.phi_propagated_ME3,
      FloatField.eta_propagated_ME4, FloatField.phi_propagated_ME4, FloatField.eta_interStat12,
      FloatField.phi_interStat12, FloatField.eta_interStat23, FloatField.phi_interStat23,
      FloatField.eta_interStat13, FloatField.phi_interStat13], G ∉ R)
    (a : GEMCSCAnalyzer) (m : SimTrackMatchManager) (s t : State)
    (h : tfME1Block a m s = Except.ok t) : Keeps C I R s t := by
  have h0 := Keeps.refl C I R s
  revert h
  unfold tfME1Block
  lift_lets
  intro besttrack pt lct0 me1b me1a lcta lct
  by_cases hc : lct < besttrack.getTriggerDigis.length
  · simp only [hc, if_true, bind, Except.bind, pure, Except.pure]
    cases h1 : vecAt besttrack.getTriggerDigisIds lct with
    | error e => intro h; cases h
    | ok id_me =>
      simp only []
      cases h2 : vecAt besttrack.getTriggerDigis lct with
      | error e => intro h; cases h
      | ok digi =>
        simp only []
        intro h
        cases h
        with_reducible repeat' first
          | exact h0
          | refine Keeps.ite _ ?_ ?_
          | refine Keeps.setB ?_ _ _ _
          | refine Keeps.setU ?_ _ _ _
          | refine Keeps.setI ?_ _ _ _ (hI _ (by decide))
          | refine Keeps.setF ?_ _ _ _ (hR _ (by decide))
          | refine Keeps.orC ?_ _ _ _ (hC _ (by decide))
  · simp only [hc, if_false, pure, Except.pure]
    intro h
    cases h
    exact h0

/-- The ME1 block of the track-finder part does not throw when the stub ids are as many as the
    stubs. -/
theorem tfME1Block_ok (a : GEMCSCAnalyzer) (m : SimTrackMatchManager) (s : State)
    (hlen : m.bestTFTrack.getTriggerDigisIds.length = m.bestTFTrack.getTriggerDigis.length) :
    ∃ t, tfME1Block a m s = Except.ok t := by
  unfold tfME1Block
  lift_lets
  intro besttrack pt lct0 me1b me1a lcta lct
  by_cases hc : lct < besttrack.getTriggerDigis.length
  · obtain ⟨e1, h1⟩ := vecAt_ok besttrack.getTriggerDigisIds lct (by omega)
      (by simp only [besttrack] at hc ⊢; omega)
    obtain ⟨e2, h2⟩ := vecAt_ok besttrack.getTriggerDigis lct (by omega) (by omega)
    simp only [hc, if_true, bind, Except.bind, pure, Except.pure, h1, h2]
    exact ⟨_, rfl⟩
  · simp only [hc, if_false, pure, Except.pure]
    exact ⟨_, rfl⟩

/-- The ME2 block of the track-finder part keeps, when it does not throw, every member but those
    of the track-finder part. -/
theorem tfME2Block_keeps {C : List CharField} {I : List IntField} {R : List FloatField}
    (hC : ∀ G ∈ [CharField.chamberME1, CharField.chamberME2, CharField.has_csc_sh], G ∉ C)
    (hI : ∀ G ∈ [IntField.has_tfTrack, IntField.ME1_ring, IntField.ME1_hs, IntField.ME1_wg,
      IntField.ME2_ring, IntField.ME2_hs, IntField.ME2_wg], G ∉ I)
    (hR : ∀ G ∈ [FloatField.trackpt, FloatField.tracketa, FloatField.trackphi, FloatField.deltaR,
      FloatField.dphiGE11, FloatField.dphiGE21, FloatField.lctdphi12, FloatField.eta_ME1_TF,
      FloatField.phi_ME1_TF, FloatField.eta_ME2_TF, FloatField.phi_ME2_TF, FloatField.eta_ME3_TF,
      FloatField.phi_ME3_TF, FloatField.eta_ME4_TF, FloatField.phi_ME4_TF,
      FloatField.eta_propagated_ME1, FloatField.phi_propagated_ME1, FloatField.eta_propagated_ME2,
      FloatField.phi_propagated_ME2, FloatField.eta_propagated_ME3, FloatField.phi_propagated_ME3,
      FloatField.eta_propagated_ME4, FloatField.phi_propagated_ME4, FloatField.eta_interStat12,
      FloatField.phi_interStat12, FloatField.eta_interStat23, FloatField.phi_interStat23,
      FloatField.eta_interStat13, FloatField.phi_interStat13], G ∉ R)
    (a : GEMCSCAnalyzer) (m : SimTrackMatchManager) (s t : State)
    (h : tfME2Block a m s = Except.ok t) : Keeps C I R s t := by
  have h0 := Keeps.refl C I R s
  revert h
  unfold tfME2Block
  lift_lets
  intro besttrack pt lct
  by_cases hc : lct < besttrack.getTriggerDigis.length
  · simp only [hc, if_true, bind, Except.bind, pure, Except.pure]
    cases h1 : vecAt besttrack.getTriggerDigisIds lct with
    | error e => intro h; cases h
    | ok id_me =>
      simp only []
      cases h2 : vecAt besttrack.getTriggerDigis lct with
      | error e => intro h; cases h
      | ok digi =>
        simp only []
        intro h
        cases h
        with_reducible repeat' first
          | exact h0
          | refine Keeps.ite _ ?_ ?_
          | refine Keeps.setB ?_ _ _ _
          | refine Keeps.setU ?_ _ _ _
          | refine Keeps.setI ?_ _ _ _ (hI _ (by decide))
          | refine Keeps.setF ?_ _ _ _ (hR _ (by decide))
          | refine Keeps.orC ?_ _ _ _ (hC _ (by decide))
  · simp only [hc, if_false, pure, Except.pure]
    intro h
    cases h
    exact h0

/-- The ME2 block of the track-finder part does not throw when the stub ids are as many as the
    stubs. -/
theorem tfME2Block_ok (a : GEMCSCAnalyzer) (m : SimTrackMatchManager) (s : State)
    (hlen : m.bestTFTrack.getTriggerDigisIds.length = m.bestTFTrack.getTriggerDigis.length) :
    ∃ t, tfME2Block a m s = Except.ok t := by
  unfold tfME2Block
  lift_lets
  intro besttrack pt lct
  by_cases hc : lct < besttrack.getTriggerDigis.length
  · obtain ⟨e1, h1⟩ := vecAt_ok besttrack.getTriggerDigisIds lct (by omega)
      (by simp only [besttrack] at hc ⊢; omega)
    obtain ⟨e2, h2⟩ := vecAt_ok besttrack.getTriggerDigis lct (by omega) (by omega)
    simp only [hc, if_true, bind, Except.bind, pure, Except.pure, h1, h2]
    exact ⟨_, rfl⟩
  · simp only [hc, if_false, pure, Except.pure]
    exact ⟨_, rfl⟩

/-- The state component of a conditional on pairs. -/
theorem Keeps.ite_fst {C : List CharField} {I : List IntField} {R : List FloatField}
    {α : Type} {s : State} {t u : State × α} (c : Prop) [Decidable c]
    (h1 : Keeps C I R s t.1) (h2 : Keeps C I R s u.1) :
    Keeps C I R s (if c then t else u).1 := by
  split_ifs
  · exact h1
  · exact h2

/-- The state component of a pair. -/
theorem Keeps.fst_mk {C : List CharField} {I : List IntField} {R : List FloatField}
    {α : Type} {s t : State} (y : α) (h : Keeps C I R s t) : Keeps C I R s (t, y).1 :=
  h

/-- The assignments of one track-finder stub keep every member but those of the track-finder part.
    -/
theorem tfStubFill_keeps {C : List CharField} {I : List IntField} {R : List FloatField}
    (hR : ∀ G ∈ [FloatField.trackpt, FloatField.tracketa, FloatField.trackphi, FloatField.deltaR,
      FloatField.dphiGE11, FloatField.dphiGE21, FloatField.lctdphi12, FloatField.eta_ME1_TF,
      FloatField.phi_ME1_TF, FloatField.eta_ME2_TF, FloatField.phi_ME2_TF, FloatField.eta_ME3_TF,
      FloatField.phi_ME3_TF, FloatField.eta_ME4_TF, FloatField.phi_ME4_TF,
      FloatField.eta_propagated_ME1, FloatField.phi_propagated_ME1, FloatField.eta_propagated_ME2,
      FloatField.phi_propagated_ME2, FloatField.eta_propagated_ME3, FloatField.phi_propagated_ME3,
      FloatField.eta_propagated_ME4, FloatField.phi_propagated_ME4, FloatField.eta_interStat12,
      FloatField.phi_interStat12, FloatField.eta_interStat23, FloatField.phi_interStat23,
      FloatField.eta_interStat13, FloatField.phi_interStat13], G ∉ R)
    (m : SimTrackMatchManager) (id : CSCDetId) (etaphi : Float_t × Float_t) (digi : TriggerDigi)
        (st : Int) (sg : State × StubGood)
    {s0 : State} (h0 : Keeps C I R s0 sg.1) :
    Keeps C I R s0 (tfStubFill m id etaphi digi st sg).1 := by
  unfold tfStubFill
  simp only []
  with_reducible repeat' first
    | exact h0
    | refine Keeps.ite_fst _ ?_ ?_
    | refine Keeps.fst_mk _ ?_
    | refine Keeps.ite _ ?_ ?_
    | refine Keeps.setB ?_ _ _ _
    | refine Keeps.setU ?_ _ _ _
    | refine Keeps.setF ?_ _ _ _ (hR _ (by decide))

/-- One step of the stub loop keeps, when it does not throw, every member but those of the
    track-finder part. -/
theorem tfStubStep_keeps {C : List CharField} {I : List IntField} {R : List FloatField}
    (hR : ∀ G ∈ [FloatField.trackpt, FloatField.tracketa, FloatField.trackphi, FloatField.deltaR,
      FloatField.dphiGE11, FloatField.dphiGE21, FloatField.lctdphi12, FloatField.eta_ME1_TF,
      FloatField.phi_ME1_TF, FloatField.eta_ME2_TF, FloatField.phi_ME2_TF, FloatField.eta_ME3_TF,
      FloatField.phi_ME3_TF, FloatField.eta_ME4_TF, FloatField.phi_ME4_TF,
      FloatField.eta_propagated_ME1, FloatField.phi_propagated_ME1, FloatField.eta_propagated_ME2,
      FloatField.phi_propagated_ME2, FloatField.eta_propagated_ME3, FloatField.phi_propagated_ME3,
      FloatField.eta_propagated_ME4, FloatField.phi_propagated_ME4, FloatField.eta_interStat12,
      FloatField.phi_interStat12, FloatField.eta_interStat23, FloatField.phi_interStat23,
      FloatField.eta_interStat13, FloatField.phi_interStat13], G ∉ R)
    (m : SimTrackMatchManager) (sg : State × StubGood) (i : Nat) (t : State × StubGood)
    (h : tfStubStep m sg i = Except.ok t) : Keeps C I R sg.1 t.1 := by
  have h0 := Keeps.refl C I R sg.1
  unfold tfStubStep at h
  simp only [bind, Except.bind, pure, Except.pure] at h
  split at h
  · cases h
  · split at h
    · cases h
    · split_ifs at h
      · split at h
        · cases h
        · split at h
          · cases h
          · cases h
            with_reducible refine tfStubFill_keeps hR _ _ _ _ _ _ ?_
            with_reducible refine Keeps.fst_mk _ ?_
            with_reducible repeat' first
              | exact h0
              | refine interStatFill_keeps hR _ _ _ _ ?_
              | refine propagatedFill_keeps hR _ _ _ _ ?_
      · split at h
        · cases h
        · split at h
          · cases h
          · cases h
            with_reducible refine tfStubFill_keeps hR _ _ _ _ _ _ ?_
            with_reducible refine Keeps.fst_mk _ ?_
            with_reducible repeat' first
              | exact h0
              | refine interStatFill_keeps hR _ _ _ _ ?_
              | refine propagatedFill_keeps hR _ _ _ _ ?_

/-- One step of the stub loop does not throw for an index within parallel stub vectors
whose ids lie in stations 1..4, given four propagated points of each parity. -/
theorem tfStubStep_ok (m : SimTrackMatchManager) (sg : State × StubGood) (i : Nat)
    (hi : i < m.bestTFTrack.getTriggerDigisIds.length)
    (hlen : m.bestTFTrack.getTriggerDigisIds.length = m.bestTFTrack.getTriggerDigis.length)
    (hlen2 : m.bestTFTrack.getTriggerEtaPhis.length = m.bestTFTrack.getTriggerDigis.length)
    (hst : ∀ id ∈ m.bestTFTrack.getTriggerDigisIds, 1 ≤ id.station ∧ id.station ≤ 4)
    (hodd : 4 ≤ m.simTrackPropagateGPs_odd.length)
    (heven : 4 ≤ m.simTrackPropagateGPs_even.length) :
    ∃ t, tfStubStep m sg i = Except.ok t := by
  obtain ⟨id, h1⟩ := vecAt_ok m.bestTFTrack.getTriggerDigisIds i (by omega) (by omega)
  obtain ⟨ep, h2⟩ := vecAt_ok m.bestTFTrack.getTriggerEtaPhis i (by omega) (by omega)
  obtain ⟨dg, h3⟩ := vecAt_ok m.bestTFTrack.getTriggerDigis i (by omega) (by omega)
  have hs := hst id (vecAt_mem _ _ _ h1)
  obtain ⟨po, h4⟩ := vecAt_ok m.simTrackPropagateGPs_odd (id.station - 1) (by omega) (by omega)
  obtain ⟨pe, h5⟩ := vecAt_ok m.simTrackPropagateGPs_even (id.station - 1) (by omega)
    (by omega)
  unfold tfStubStep
  simp only [bind, Except.bind, pure, Except.pure, h1, h2, h3, h4, h5]
  split_ifs <;> exact ⟨_, rfl⟩

/-- The statements after the stub loop keep every member but those of the track-finder part. -/
theorem tfSummary_keeps {C : List CharField} {I : List IntField} {R : List FloatField}
    (hC : ∀ G ∈ [CharField.chamberME1, CharField.chamberME2, CharField.has_csc_sh], G ∉ C)
    (sg : State × StubGood)
    {s0 : State} (h0 : Keeps C I R s0 sg.1) : Keeps C I R s0 (tfSummary sg) := by
  unfold tfSummary
  simp only []
  with_reducible repeat' first
    | exact h0
    | refine Keeps.ite _ ?_ ?_
    | refine Keeps.setB ?_ _ _ _
    | refine Keeps.setU ?_ _ _ _
    | refine Keeps.orC ?_ _ _ _ (hC _ (by decide))

/-- The assignment of `lctdphi12` keeps, when it does not throw, every member but those of the
    track-finder part. -/
theorem lctdphi_keeps {C : List CharField} {I : List IntField} {R : List FloatField}
    (hR : ∀ G ∈ [FloatField.trackpt, FloatField.tracketa, FloatField.trackphi, FloatField.deltaR,
      FloatField.dphiGE11, FloatField.dphiGE21, FloatField.lctdphi12, FloatField.eta_ME1_TF,
      FloatField.phi_ME1_TF, FloatField.eta_ME2_TF, FloatField.phi_ME2_TF, FloatField.eta_ME3_TF,
      FloatField.phi_ME3_TF, FloatField.eta_ME4_TF, FloatField.phi_ME4_TF,
      FloatField.eta_propagated_ME1, FloatField.phi_propagated_ME1, FloatField.eta_propagated_ME2,
      FloatField.phi_propagated_ME2, FloatField.eta_propagated_ME3, FloatField.phi_propagated_ME3,
      FloatField.eta_propagated_ME4, FloatField.phi_propagated_ME4, FloatField.eta_interStat12,
      FloatField.phi_interStat12, FloatField.eta_interStat23, FloatField.phi_interStat23,
      FloatField.eta_interStat13, FloatField.phi_interStat13], G ∉ R)
    (l : List (Float_t × Float_t)) (v t : State)
    (h : (if l.length > 1 then do
            let etaphi1 ← vecAt l 0
            let etaphi2 ← vecAt l 1
            pure (v.setF 0 .lctdphi12 (etaphi1.2 - etaphi2.2))
          else pure v : Except Fault State) = Except.ok t) : Keeps C I R v t := by
  have h0 := Keeps.refl C I R v
  simp only [bind, Except.bind, pure, Except.pure] at h
  split_ifs at h
  · split at h
    · cases h
    · split at h
      · cases h
      · cases h
        exact Keeps.setF h0 _ _ _ (hR _ (by decide))
  · cases h
    exact h0

/-- The block on the best track-finder track keeps, when it does not throw, every member but those
    of the track-finder part. -/
theorem tfTrackBlock_keeps {C : List CharField} {I : List IntField} {R : List FloatField}
    (hC : ∀ G ∈ [CharField.chamberME1, CharField.chamberME2, CharField.has_csc_sh], G ∉ C)
    (hI : ∀ G ∈ [IntField.has_tfTrack, IntField.ME1_ring, IntField.ME1_hs, IntField.ME1_wg,
      IntField.ME2_ring, IntField.ME2_hs, IntField.ME2_wg], G ∉ I)
    (hR : ∀ G ∈ [FloatField.trackpt, FloatField.tracketa, FloatField.trackphi, FloatField.deltaR,
      FloatField.dphiGE11, FloatField.dphiGE21, FloatField.lctdphi12, FloatField.eta_ME1_TF,
      FloatField.phi_ME1_TF, FloatField.eta_ME2_TF, FloatField.phi_ME2_TF, FloatField.eta_ME3_TF,
      FloatField.phi_ME3_TF, FloatField.eta_ME4_TF, FloatField.phi_ME4_TF,
      FloatField.eta_propagated_ME1, FloatField.phi_propagated_ME1, FloatField.eta_propagated_ME2,
      FloatField.phi_propagated_ME2, FloatField.eta_propagated_ME3, FloatField.phi_propagated_ME3,
      FloatField.eta_propagated_ME4, FloatField.phi_propagated_ME4, FloatField.eta_interStat12,
      FloatField.phi_interStat12, FloatField.eta_interStat23, FloatField.phi_interStat23,
      FloatField.eta_interStat13, FloatField.phi_interStat13], G ∉ R)
    (a : GEMCSCAnalyzer) (m : SimTrackMatchManager) (s t : State)
    (h : tfTrackBlock a m s = Except.ok t) : Keeps C I R s t := by
  unfold tfTrackBlock at h
  simp only [bind, Except.bind, pure, Except.pure] at h
  by_cases hz : m.tfTracks_size = 0
  · simp only [hz, if_true] at h
    cases h
    exact Keeps.refl C I R _
  · simp only [hz, if_false] at h
    have kh := tfTrackHead_keeps hI hR m s (Keeps.refl C I R s)
    cases h1 : tfME1Block a m (tfTrackHead m s) with
    | error e => rw [h1] at h; cases h
    | ok s1 =>
      rw [h1] at h
      simp only [] at h
      have k1 := kh.trans (tfME1Block_keeps hC hI hR a m _ _ h1)
      cases h2 : tfME2Block a m s1 with
      | error e => rw [h2] at h; cases h
      | ok s2 =>
        rw [h2] at h
        simp only [] at h
        have k2 := k1.trans (tfME2Block_keeps hC hI hR a m _ _ h2)
        by_cases hs : m.bestTFTrack.getTriggerDigisIds.length
            = m.bestTFTrack.getTriggerEtaPhis.length
            ∧ m.bestTFTrack.getTriggerDigis.length = m.bestTFTrack.getTriggerDigisIds.length
        · rw [if_pos hs] at h
          cases h3 : List.foldlM (tfStubStep m)
              (s2, ({ me0 := true, me1 := true, me2 := true, me3 := true } : StubGood))
              (List.range m.bestTFTrack.getTriggerDigisIds.length) with
          | error e => rw [h3] at h; cases h
          | ok sg =>
            rw [h3] at h
            simp only [] at h
            have k3 : Keeps C I R s2 sg.1 := foldlM_keeps_proj Prod.fst (tfStubStep m)
              (fun u i w hw => tfStubStep_keeps hR m u i w hw) _ _ _ h3
            have k4 := tfSummary_keeps hC sg (k2.trans k3)
            exact k4.trans (lctdphi_keeps hR _ _ _ h)
        · rw [if_neg hs] at h
          exact k2.trans (lctdphi_keeps hR _ _ _ h)

/-- The block on the best track-finder track does not throw when the stub vectors are
parallel, the stub ids lie in stations 1..4 and there are four propagated points of each
parity. -/
theorem tfTrackBlock_ok (a : GEMCSCAnalyzer) (m : SimTrackMatchManager) (s : State)
    (hodd : 4 ≤ m.simTrackPropagateGPs_odd.length)
    (heven : 4 ≤ m.simTrackPropagateGPs_even.length)
    (htf : m.tfTracks_size ≠ 0 →
      m.bestTFTrack.getTriggerDigisIds.length = m.bestTFTrack.getTriggerDigis.length ∧
      m.bestTFTrack.getTriggerEtaPhis.length = m.bestTFTrack.getTriggerDigis.length ∧
      ∀ id ∈ m.bestTFTrack.getTriggerDigisIds, 1 ≤ id.station ∧ id.station ≤ 4) :
    ∃ t, tfTrackBlock a m s = Except.ok t := by
  unfold tfTrackBlock
  simp only [bind, Except.bind, pure, Except.pure]
  by_cases hz : m.tfTracks_size = 0
  · simp only [hz, if_true]
    exact ⟨_, rfl⟩
  · obtain ⟨hlen, hlen2, hst⟩ := htf hz
    simp only [hz, if_false]
    obtain ⟨s1, h1⟩ := tfME1Block_ok a m (tfTrackHead m s) hlen
    obtain ⟨s2, h2⟩ := tfME2Block_ok a m s1 hlen
    simp only [h1, h2]
    have hs : m.bestTFTrack.getTriggerDigisIds.length
          = m.bestTFTrack.getTriggerEtaPhis.length
        ∧ m.bestTFTrack.getTriggerDigis.length = m.bestTFTrack.getTriggerDigisIds.length :=
      ⟨by omega, by omega⟩
    rw [if_pos hs]
    obtain ⟨sg, h3⟩ := foldlM_ok (tfStubStep m)
      (List.range m.bestTFTrack.getTriggerDigisIds.length)
      (fun u i hi => tfStubStep_ok m u i (List.mem_range.mp hi) hlen hlen2 hst hodd heven)
      (s2, ({ me0 := true, me1 := true, me2 := true, me3 := true } : StubGood))
    simp only [h3]
    by_cases hl : m.bestTFTrack.getTriggerEtaPhis.length > 1
    · obtain ⟨e1, he1⟩ := vecAt_ok m.bestTFTrack.getTriggerEtaPhis 0 (by omega) (by omega)
      obtain ⟨e2, he2⟩ := vecAt_ok m.bestTFTrack.getTriggerEtaPhis 1 (by omega) (by omega)
      simp only [hl, if_true, he1, he2]
      exact ⟨_, rfl⟩
    · simp only [hl, if_false]
      exact ⟨_, rfl⟩

/-- The statements after the track-finder block keep every member but the candidate flags and the
    L1Extra and reconstructed-track members. -/
theorem recoBlock_keeps {C : List CharField} {I : List IntField} {R : List FloatField}
    (hI : ∀ G ∈ [IntField.has_tfCand, IntField.has_gmtRegCand, IntField.has_gmtCand,
      IntField.has_l1Extra, IntField.has_recoTrackExtra, IntField.has_recoTrack,
      IntField.has_recoChargedCandidate, IntField.recoChargedCandidate_nValidDTHits,
      IntField.recoChargedCandidate_nValidCSCHits, IntField.recoChargedCandidate_nValidRPCHits], G
      ∉ I)
    (hR : ∀ G ∈ [FloatField.l1Extra_pt, FloatField.l1Extra_eta, FloatField.l1Extra_phi,
      FloatField.l1Extra_dR, FloatField.recoTrackExtra_pt_inner,
      FloatField.recoTrackExtra_eta_inner, FloatField.recoTrackExtra_phi_inner,
      FloatField.recoTrackExtra_pt_outer, FloatField.recoTrackExtra_eta_outer,
      FloatField.recoTrackExtra_phi_outer, FloatField.recoTrack_pt_outer,
      FloatField.recoTrack_eta_outer, FloatField.recoTrack_phi_outer,
      FloatField.recoChargedCandidate_pt, FloatField.recoChargedCandidate_eta,
      FloatField.recoChargedCandidate_phi], G ∉ R)
    (m : SimTrackMatchManager) (s : State) : Keeps C I R s (recoBlock m s) := by
  have h0 := Keeps.refl C I R s
  unfold recoBlock
  lift_lets
  intro s1 s2 s3 s4 s5 s6 s7 s8 s9 s10
  have k1 : Keeps C I R s s1 := by
    simp only [s1]
    with_reducible repeat' first
      | exact h0
      | refine Keeps.ite _ ?_ ?_
      | refine Keeps.setB ?_ _ _ _
      | refine Keeps.setU ?_ _ _ _
      | refine Keeps.setI ?_ _ _ _ (hI _ (by decide))
  have k2 : Keeps C I R s s2 := by
    simp only [s2]
    with_reducible repeat' first
      | exact k1
      | refine Keeps.ite _ ?_ ?_
      | refine Keeps.setB ?_ _ _ _
      | refine Keeps.setU ?_ _ _ _
      | refine Keeps.setI ?_ _ _ _ (hI _ (by decide))
  have k3 : Keeps C I R s s3 := by
    simp only [s3]
    with_reducible repeat' first
      | exact k2
      | refine Keeps.ite _ ?_ ?_
      | refine Keeps.setB ?_ _ _ _
      | refine Keeps.setU ?_ _ _ _
      | refine Keeps.setI ?_ _ _ _ (hI _ (by decide))
  have k5 : Keeps C I R s s5 := by
    simp only [s5, s4]
    cases m.getMatchedL1ExtraMuonParticles <;> simp only []
    · exact k3
    with_reducible repeat' first
      | exact k3
      | refine Keeps.ite _ ?_ ?_
      | refine Keeps.setB ?_ _ _ _
      | refine Keeps.setU ?_ _ _ _
      | refine Keeps.setI ?_ _ _ _ (hI _ (by decide))
      | refine Keeps.setF ?_ _ _ _ (hR _ (by decide))
  have k7 : Keeps C I R s s7 := by
    simp only [s7, s6]
    cases m.getMatchedRecoTrackExtras <;> simp only []
    · exact k5
    with_reducible repeat' first
      | exact k5
      | refine Keeps.ite _ ?_ ?_
      | refine Keeps.setB ?_ _ _ _
      | refine Keeps.setU ?_ _ _ _
      | refine Keeps.setI ?_ _ _ _ (hI _ (by decide))
      | refine Keeps.setF ?_ _ _ _ (hR _ (by decide))
  have k9 : Keeps C I R s s9 := by
    simp only [s9, s8]
    cases m.getMatchedRecoTracks <;> simp only []
    · exact k7
    with_reducible repeat' first
      | exact k7
      | refine Keeps.ite _ ?_ ?_
      | refine Keeps.setB ?_ _ _ _
      | refine Keeps.setU ?_ _ _ _
      | refine Keeps.setI ?_ _ _ _ (hI _ (by decide))
      | refine Keeps.setF ?_ _ _ _ (hR _ (by decide))
  simp only [s10]
  cases m.getMatchedRecoChargedCandidates <;> simp only []
  · exact k9
  with_reducible repeat' first
    | exact k9
    | refine Keeps.ite _ ?_ ?_
    | refine Keeps.setB ?_ _ _ _
    | refine Keeps.setU ?_ _ _ _
    | refine Keeps.setI ?_ _ _ _ (hI _ (by decide))
    | refine Keeps.setF ?_ _ _ _ (hR _ (by decide))

/-- The track-level part of `analyzeTrackEff` keeps, when it does not throw, every member but
    those of the track-finder part and of the candidates and reconstructed tracks. -/
theorem analyzeTrackEff_keeps {C : List CharField} {I : List IntField} {R : List FloatField}
    (hC : ∀ G ∈ [CharField.chamberME1, CharField.chamberME2, CharField.has_csc_sh], G ∉ C)
    (hI : ∀ G ∈ [IntField.has_tfTrack, IntField.ME1_ring, IntField.ME1_hs, IntField.ME1_wg,
      IntField.ME2_ring, IntField.ME2_hs, IntField.ME2_wg], G ∉ I)
    (hR : ∀ G ∈ [FloatField.trackpt, FloatField.tracketa, FloatField.trackphi, FloatField.deltaR,
      FloatField.dphiGE11, FloatField.dphiGE21, FloatField.lctdphi12, FloatField.eta_ME1_TF,
      FloatField.phi_ME1_TF, FloatField.eta_ME2_TF, FloatField.phi_ME2_TF, FloatField.eta_ME3_TF,
      FloatField.phi_ME3_TF, FloatField.eta_ME4_TF, FloatField.phi_ME4_TF,
      FloatField.eta_propagated_ME1, FloatField.phi_propagated_ME1, FloatField.eta_propagated_ME2,
      FloatField.phi_propagated_ME2, FloatField.eta_propagated_ME3, FloatField.phi_propagated_ME3,
      FloatField.eta_propagated_ME4, FloatField.phi_propagated_ME4, FloatField.eta_interStat12,
      FloatField.phi_interStat12, FloatField.eta_interStat23, FloatField.phi_interStat23,
      FloatField.eta_interStat13, FloatField.phi_interStat13], G ∉ R)
    (hI2 : ∀ G ∈ [IntField.has_tfCand, IntField.has_gmtRegCand, IntField.has_gmtCand,
      IntField.has_l1Extra, IntField.has_recoTrackExtra, IntField.has_recoTrack,
      IntField.has_recoChargedCandidate, IntField.recoChargedCandidate_nValidDTHits,
      IntField.recoChargedCandidate_nValidCSCHits, IntField.recoChargedCandidate_nValidRPCHits], G
      ∉ I)
    (hR2 : ∀ G ∈ [FloatField.l1Extra_pt, FloatField.l1Extra_eta, FloatField.l1Extra_phi,
      FloatField.l1Extra_dR, FloatField.recoTrackExtra_pt_inner,
      FloatField.recoTrackExtra_eta_inner, FloatField.recoTrackExtra_phi_inner,
      FloatField.recoTrackExtra_pt_outer, FloatField.recoTrackExtra_eta_outer,
      FloatField.recoTrackExtra_phi_outer, FloatField.recoTrack_pt_outer,
      FloatField.recoTrack_eta_outer, FloatField.recoTrack_phi_outer,
      FloatField.recoChargedCandidate_pt, FloatField.recoChargedCandidate_eta,
      FloatField.recoChargedCandidate_phi], G ∉ R)
    (a : GEMCSCAnalyzer) (m : SimTrackMatchManager) (x : Externals) (etrk : Int → MyTrackEff)
    (t : State) (h : analyzeTrackEff a m x etrk = Except.ok t) :
    Keeps C I R (aggregate a m x etrk) t := by
  unfold analyzeTrackEff at h
  simp only [bind, Except.bind, pure, Except.pure] at h
  cases h1 : List.foldlM (propagationStep m) (aggregate a m x etrk) a.stations_to_use_ with
  | error e => rw [h1] at h; cases h
  | ok s1 =>
    rw [h1] at h
    simp only [] at h
    have k1 : Keeps C I R (aggregate a m x etrk) s1 := foldlM_keeps (propagationStep m)
      (fun u i w hw => propagationStep_keeps hR m u i w hw) _ _ _ h1
    cases h2 : tfTrackBlock a m s1 with
    | error e => rw [h2] at h; cases h
    | ok s2 =>
      rw [h2] at h
      cases h
      exact (k1.trans (tfTrackBlock_keeps hC hI hR a m _ _ h2)).trans
        (recoBlock_keeps hI2 hR2 m s2)

/-- The function `analyzeTrackEff` does not throw on well-formed inputs. -/
theorem analyzeTrackEff_ok (a : GEMCSCAnalyzer) (m : SimTrackMatchManager) (x : Externals)
    (etrk : Int → MyTrackEff) (hwf : WellFormed a m) :
    ∃ t, analyzeTrackEff a m x etrk = Except.ok t := by
  obtain ⟨hst, hodd, heven, htf⟩ := hwf
  unfold analyzeTrackEff
  simp only [bind, Except.bind, pure, Except.pure]
  obtain ⟨s1, h1⟩ := foldlM_ok (propagationStep m) a.stations_to_use_
    (fun u i hi => propagationStep_ok m u i (hst i hi) hodd) (aggregate a m x etrk)
  obtain ⟨s2, h2⟩ := tfTrackBlock_ok a m s1 hodd heven htf
  simp only [h1, h2]
  exact ⟨_, rfl⟩

/-! ### Bend code -/

/-- The LCT pass stores `LCT_BEND_PATTERN[digi_pattern(lct)]` in the bend member of the
parity of the chamber, in the record of its station. -/
theorem cscLCTStep_bend (a : GEMCSCAnalyzer) (m : SimTrackMatchManager) (s : State)
    (id : CSCDetId) (hin : detIdToMEStation id.station id.ring ∈ a.stations_to_use_) :
    ((cscLCTStep a m s id).etrk_ (detIdToMEStation id.station id.ring)).int_
        (if cmod id.chamber 2 = 1 then IntField.bend_lct_odd else IntField.bend_lct_even)
      = bendPattern (digi_pattern (m.lctInChamber id.rawId)) := by
  have hcount : a.count (detIdToMEStation id.station id.ring) ≠ 0 := by
    simp [GEMCSCAnalyzer.count, hin]
  unfold cscLCTStep
  simp only [hcount, if_false]
  generalize detIdToMEStation id.station id.ring = st
  by_cases hst : st = 2 ∨ st = 3
  · have h1 : (1 : Int) ≠ st := by rcases hst with h | h <;> rw [h] <;> decide
    have h2 : st ≠ 1 := fun e => h1 e.symm
    simp only [hst, if_true]
    by_cases hodd : cmod id.chamber 2 = 1 <;>
      simp [hodd, lctFill, h1, h2, MyTrackEff.setI, MyTrackEff.setF, MyTrackEff.setB,
        MyTrackEff.orC, MyTrackEff.setC]
  · simp only [hst, if_false]
    by_cases hodd : cmod id.chamber 2 = 1 <;>
      simp [hodd, lctFill, MyTrackEff.setI, MyTrackEff.setF, MyTrackEff.setB,
        MyTrackEff.orC, MyTrackEff.setC]

/-- The delta row takes its bend from the same table, when the LCT position is off the
plane `z = 0`, and the value -99 otherwise. -/
theorem deltaRowFill_bend (q : DeltaQueries) (x : Externals) (csc_id : CSCDetId)
    (is_odd : Bool) (csc_sh_gp csc_dg_gp csc_lct_gp : GlobalPoint) (lct_digi : Digi)
    (gem_sh_gp gem_dg_gp gem_pad_gp : GlobalPoint) (best_gem_pad : Digi)
    (d : MyTrackChamberDelta) :
    (deltaRowFill q x csc_id is_odd csc_sh_gp csc_dg_gp csc_lct_gp lct_digi gem_sh_gp
        gem_dg_gp gem_pad_gp best_gem_pad d).bend
      = if Float_t.gt (Float_t.abs csc_lct_gp.z) zCut then
          bendPattern (digi_pattern lct_digi)
        else -99 := by
  unfold deltaRowFill
  simp only []
  split_ifs <;> rfl

/-- C14. The signed bend code is a lookup in the 11-entry table `LCT_BEND_PATTERN`: for a
pattern code `p` in 0..10 the index is in bounds, `p = 0` gives -99, an odd `p` gives
`-(11 - p)/2`, an even `p >= 2` gives `(10 - p)/2` (so 5 gives -3 and 10 gives 0) and the
absolute value is at most 5 for `p >= 1`; the LCT pass stores this lookup in the
per-station record and `analyzeTrackChamberDeltas` stores the same lookup in the delta
row. -/
theorem bend_code_lookup (p : Int) (h0 : 0 ≤ p) (h10 : p ≤ 10) :
    p.toNat < LCT_BEND_PATTERN.length ∧
    LCT_BEND_PATTERN.get? p.toNat = some (bendPattern p) ∧
    (p = 0 → bendPattern p = -99) ∧
    (p % 2 = 1 → bendPattern p = -((11 - p) / 2)) ∧
    (p % 2 = 0 → 2 ≤ p → bendPattern p = (10 - p) / 2) ∧
    (p = 5 → bendPattern p = -3) ∧ (p = 10 → bendPattern p = 0) ∧
    (1 ≤ p → |bendPattern p| ≤ 5) ∧
    (∀ (a : GEMCSCAnalyzer) (m : SimTrackMatchManager) (s : State) (id : CSCDetId),
      detIdToMEStation id.station id.ring ∈ a.stations_to_use_ →
      digi_pattern (m.lctInChamber id.rawId) = p →
      ((cscLCTStep a m s id).etrk_ (detIdToMEStation id.station id.ring)).int_
          (if cmod id.chamber 2 = 1 then IntField.bend_lct_odd else IntField.bend_lct_even)
        = bendPattern p) ∧
    (∀ (q : DeltaQueries) (x : Externals) (csc_id : CSCDetId) (is_odd : Bool)
      (csc_sh_gp csc_dg_gp csc_lct_gp : GlobalPoint) (lct_digi : Digi)
      (gem_sh_gp gem_dg_gp gem_pad_gp : GlobalPoint) (best_gem_pad : Digi)
      (d : MyTrackChamberDelta),
      Float_t.gt (Float_t.abs csc_lct_gp.z) zCut = true → digi_pattern lct_digi = p →
      (deltaRowFill q x csc_id is_odd csc_sh_gp csc_dg_gp csc_lct_gp lct_digi gem_sh_gp
          gem_dg_gp gem_pad_gp best_gem_pad d).bend = bendPattern p) := by
  have table : p.toNat < LCT_BEND_PATTERN.length ∧
      LCT_BEND_PATTERN.get? p.toNat = some (bendPattern p) ∧
      (p = 0 → bendPattern p = -99) ∧
      (p % 2 = 1 → bendPattern p = -((11 - p) / 2)) ∧
      (p % 2 = 0 → 2 ≤ p → bendPattern p = (10 - p) / 2) ∧
      (p = 5 → bendPattern p = -3) ∧ (p = 10 → bendPattern p = 0) ∧
      (1 ≤ p → |bendPattern p| ≤ 5) := by
    interval_cases p <;> decide
  obtain ⟨t1, t2, t3, t4, t5, t6, t7, t8⟩ := table
  refine ⟨t1, t2, t3, t4, t5, t6, t7, t8, ?_, ?_⟩
  · intro a m s id hin hp
    rw [cscLCTStep_bend a m s id hin, hp]
  · intro q x csc_id is_odd csc_sh_gp csc_dg_gp csc_lct_gp lct_digi gem_sh_gp gem_dg_gp
      gem_pad_gp best_gem_pad d hz hp
    rw [deltaRowFill_bend, hz, hp]
    rfl

/-- The pattern code 5 is looked up as -3, in the record and in the delta row. -/
theorem bend_code_lookup_witness :
    (0 : Int) ≤ 5 ∧ (5 : Int) ≤ 10 ∧ bendPattern 5 = -3 ∧
      ((cscLCTStep (configWith [0, 1, 3]) matchLctZero (State.entry freshRecords)
        me1bOdd).etrk_ (detIdToMEStation me1bOdd.station me1bOdd.ring)).int_
          (if cmod me1bOdd.chamber 2 = 1 then IntField.bend_lct_odd
            else IntField.bend_lct_even) = bendPattern 5 :=
  ⟨by decide, by decide, (bend_code_lookup 5 (by decide) (by decide)).2.2.2.2.2.1 rfl,
    (bend_code_lookup 5 (by decide) (by decide)).2.2.2.2.2.2.2.2.1 (configWith [0, 1, 3])
      matchLctZero (State.entry freshRecords) me1bOdd (by decide) rfl⟩
/-! ### ME1/1 merge of the sim-hit layer counts -/

/-- The key-layer loop changes no `Int_t` member. -/
theorem cscKeyLayerLoop_int (m : SimTrackMatchManager) (id : CSCDetId) (st : Int) (odd : Bool)
    (layers : List Int) (s : State) (j : Int) (F : IntField) :
    ((cscKeyLayerLoop m id st odd layers s).etrk_ j).int_ F = (s.etrk_ j).int_ F :=
  ((cscKeyLayerLoop_keeps (C := []) (I := [F]) (R := []) (by simp) m id st odd layers s
    (Keeps.refl _ _ _ s)) j).2.1 F (by simp)

/-- The layer count the CSC sim-hit pass works with is the merged count of the claim. -/
theorem cscSimHitLayers_eq (m : SimTrackMatchManager) (id : CSCDetId) :
    cscSimHitLayers m id = mergedLayerCount m id := by
  unfold cscSimHitLayers mergedLayerCount partnerChamber CSCDetId.rawId
  simp only [List.mem_map, DetId.csc.injEq, exists_eq_right]
  by_cases h1 : id.station = 1
  · by_cases h4 : id.ring = 4
    · have hr1 : id.ring ≠ 1 := by rw [h4]; decide
      simp [h1, h4]
    · by_cases hr1 : id.ring = 1
      · simp [h1, hr1]
      · simp [h1, h4, hr1]
  · simp [h1]

/-- C20. ME1/1 merge: the layer count of the CSC sim-hit pass is, for an id in station 1,
ring 1 or 4, the own count plus the count of the chamber with the same endcap, station and
chamber number in the other ring when that chamber is in the track's CSC sim-hit id set,
and the own count otherwise (also outside station 1 rings 1 and 4); an id of a configured
station with a merged count below `minNHitsChamberCSCSimHit_` gets no feature
assignment, and with a merged count at or above it the merged count is stored in
`nlayers_csc_sh_odd/even` of the record of its station. -/
theorem me11_layer_merge (a : GEMCSCAnalyzer) (m : SimTrackMatchManager) (s : State)
    (id : CSCDetId) (hin : detIdToMEStation id.station id.ring ∈ a.stations_to_use_) :
    cscSimHitLayers m id = mergedLayerCount m id ∧
    (¬(id.station = 1 ∧ (id.ring = 1 ∨ id.ring = 4)) →
      cscSimHitLayers m id = m.nLayersWithHitsInSuperChamber id.rawId) ∧
    (mergedLayerCount m id < a.minNHitsChamberCSCSimHit_ →
      cscSimHitStep a m s id = cscSimHitSummary id s) ∧
    (a.minNHitsChamberCSCSimHit_ ≤ mergedLayerCount m id →
      ((cscSimHitStep a m s id).etrk_ (detIdToMEStation id.station id.ring)).int_
          (if cmod id.chamber 2 = 1 then IntField.nlayers_csc_sh_odd
            else IntField.nlayers_csc_sh_even)
        = mergedLayerCount m id) := by
  have hcount : a.count (detIdToMEStation id.station id.ring) ≠ 0 := by
    simp [GEMCSCAnalyzer.count, hin]
  refine ⟨cscSimHitLayers_eq m id, ?_, ?_, ?_⟩
  · intro h
    rw [cscSimHitLayers_eq]
    simp [mergedLayerCount, h]
  · intro h
    rw [← cscSimHitLayers_eq] at h
    simp [cscSimHitStep, hcount, h]
  · intro h
    rw [← cscSimHitLayers_eq] at h ⊢
    have hn : ¬ cscSimHitLayers m id < a.minNHitsChamberCSCSimHit_ := not_lt.mpr h
    unfold cscSimHitStep
    simp only [hcount, hn, if_false]
    generalize detIdToMEStation id.station id.ring = st
    generalize cscSimHitLayers m id = n
    unfold cscSimHitFill
    simp only []
    by_cases hst : st = 2 ∨ st = 3
    · have h1 : (1 : Int) ≠ st := by rcases hst with h | h <;> rw [h] <;> decide
      have h2 : st ≠ 1 := fun e => h1 e.symm
      simp only [hst, if_true]
      by_cases hodd : cmod id.chamber 2 = 1 <;>
        simp [hodd, h1, h2, cscKeyLayerLoop_int, MyTrackEff.setI, MyTrackEff.setF,
          MyTrackEff.orC, MyTrackEff.setC]
    · simp only [hst, if_false]
      by_cases hodd : cmod id.chamber 2 = 1 <;>
        simp [hodd, cscKeyLayerLoop_int, MyTrackEff.setI, MyTrackEff.setF,
          MyTrackEff.orC, MyTrackEff.setC]

/-- Three layers in ring 1 and two in ring 4 of one ME1/1 chamber pass the gate of four
layers together: the merged count 5 is stored. -/
theorem me11_layer_merge_witness :
    detIdToMEStation me1bOdd.station me1bOdd.ring ∈ (configWith [0, 1, 3]).stations_to_use_ ∧
    mergedLayerCount matchMerged me1bOdd = 5 ∧
    ((cscSimHitStep (configWith [0, 1, 3]) matchMerged (State.entry freshRecords)
        me1bOdd).etrk_ (detIdToMEStation me1bOdd.station me1bOdd.ring)).int_
          (if cmod me1bOdd.chamber 2 = 1 then IntField.nlayers_csc_sh_odd
            else IntField.nlayers_csc_sh_even)
        = mergedLayerCount matchMerged me1bOdd :=
  ⟨by decide, by decide,
    (me11_layer_merge (configWith [0, 1, 3]) matchMerged (State.entry freshRecords) me1bOdd
      (by decide)).2.2.2 (by decide)⟩

/-! ### Gate at exactly the minimum -/

/-- C11. `MyTrackEff::init` leaves 0, a valid value, in pt, phi, hs_lct_odd/even,
wg_lct_odd/even, quality_odd/even, pteta_sh, trackpt, tracketa and hsfromrpc_odd/even,
while their sibling members get -1 or -9; an LCT on half-strip 0 and wire group 0 with
quality 0 then leaves in `hs_lct_odd`, `wg_lct_odd` and `quality_odd` of its record
exactly the values of a record without LCT, although its presence bit is set. -/
theorem init_leaves_valid_zero :
    (∀ r : MyTrackEff,
      r.init.float_ .pt = 0 ∧ r.init.float_ .phi = 0 ∧ r.init.float_ .hs_lct_odd = 0 ∧
      r.init.float_ .hs_lct_even = 0 ∧ r.init.float_ .wg_lct_odd = 0 ∧
      r.init.float_ .wg_lct_even = 0 ∧ r.init.int_ .quality_odd = 0 ∧
      r.init.int_ .quality_even = 0 ∧ r.init.float_ .pteta_sh = 0 ∧
      r.init.float_ .trackpt = 0 ∧ r.init.float_ .tracketa = 0 ∧
      r.init.int_ .hsfromrpc_odd = 0 ∧ r.init.int_ .hsfromrpc_even = 0 ∧
      r.init.float_ .eta = -9 ∧ r.init.float_ .pt_sh = -9 ∧ r.init.float_ .trackphi = -9 ∧
      r.init.int_ .halfstrip_odd = -1 ∧ r.init.int_ .quality_clct_odd = -1 ∧
      r.init.int_ .hsfromgem_odd = -1) ∧
    (analyzeTrackEff (configWith [0, 1, 3]) matchLctZero sampleExternals freshRecords).map
      (fun s => (Int.land ((s.etrk_ 3).char_ .has_lct) 1, (s.etrk_ 3).float_ .hs_lct_odd,
        (s.etrk_ 3).float_ .wg_lct_odd, (s.etrk_ 3).int_ .quality_odd,
        (s.etrk_ 3).float_ .phi))
      = Except.ok (1, (freshRecords 3).float_ .hs_lct_odd,
          (freshRecords 3).float_ .wg_lct_odd, (freshRecords 3).int_ .quality_odd,
          (freshRecords 3).float_ .phi) := by
  refine ⟨fun r => ?_, ?_⟩
  · refine ⟨?_, ?_, ?_, ?_, ?_, ?_, ?_, ?_, ?_, ?_, ?_, ?_, ?_, ?_, ?_, ?_, ?_, ?_, ?_⟩ <;>
      exact (by with_unfolding_all rfl)
  · with_unfolding_all rfl

/-! ### Station list given to the constructor -/

/-- The set built from the station list has exactly the indices of the list. -/
theorem mem_stationSet (l : List Int) (s : Int) : s ∈ stationSet l ↔ s ∈ l := by
  unfold stationSet
  rw [(List.perm_insertionSort _ _).mem_iff, List.mem_dedup]

/-- The constructor accepts a station list with the index 12: it stores the index and
accesses `cscStations_[12]`, `etrk_[12]` and `tree_eff_[12]`. -/
theorem station_list_not_validated :
    (constructStations true [0, 12]).1 = [0, 12] ∧
    Access.cscStations 12 ∈ (constructStations true [0, 12]).2 ∧
    Access.etrk 12 ∈ (constructStations true [0, 12]).2 ∧
    Access.tree_eff 12 ∈ (constructStations true [0, 12]).2 := by
  decide

/-- C18, amended. The constructor rejects no station list: for every list it stores the
set of its indices, and with the per-station ntuple enabled it accesses `cscStations_[s]`,
`etrk_[s]` and `tree_eff_[s]` for exactly the indices `s` of the list, whatever their
value; so all accesses are within 0..11 exactly when all indices of the list are. -/
theorem station_list_accessed_as_given (l : List Int) :
    (∀ s, s ∈ (constructStations true l).1 ↔ s ∈ l) ∧
    (∀ s, s ∈ l ↔ Access.etrk s ∈ (constructStations true l).2) ∧
    (∀ s, s ∈ l ↔ Access.tree_eff s ∈ (constructStations true l).2) ∧
    (∀ s, s ∈ l ↔ Access.cscStations s ∈ (constructStations true l).2) ∧
    ((∀ s, Access.etrk s ∈ (constructStations true l).2 → 0 ≤ s ∧ s ≤ 11) ↔
      ∀ s ∈ l, 0 ≤ s ∧ s ≤ 11) := by
  have h1 : ∀ s, s ∈ l ↔ Access.etrk s ∈ (constructStations true l).2 := by
    intro s
    simp [constructStations, mem_stationSet]
  refine ⟨fun s => by simp [constructStations, mem_stationSet], h1, ?_, ?_, ?_⟩
  · intro s
    simp [constructStations, mem_stationSet]
  · intro s
    simp [constructStations, mem_stationSet]
  · constructor
    · intro h s hs
      exact h s ((h1 s).mp hs)
    · intro h s hs
      exact h s ((h1 s).mpr hs)
/-! ### Closest pad -/

/-- The selection loop of `closestCandidate`, started at a candidate `b` that is nearest
and first among the candidates `done` seen so far, ends at a candidate that is nearest and
first among all. -/
theorem closest_foldl (dist : GlobalPoint → GlobalPoint → ℚ) (pos : Digi → GlobalPoint)
    (ref : GlobalPoint) (rest : List Digi) (pre : List Digi) (b : Digi) (post : List Digi)
    (hpre : ∀ c ∈ pre, dist (pos b) ref < dist (pos c) ref)
    (hpost : ∀ c ∈ post, dist (pos b) ref ≤ dist (pos c) ref) :
    ∃ pre1 sel post1, pre ++ b :: post ++ rest = pre1 ++ sel :: post1 ∧
      rest.foldl (fun best c => if dist (pos c) ref < dist best.2 ref then (c, pos c)
        else best) (b, pos b) = (sel, pos sel) ∧
      (∀ c ∈ pre1, dist (pos sel) ref < dist (pos c) ref) ∧
      (∀ c ∈ post1, dist (pos sel) ref ≤ dist (pos c) ref) := by
  induction rest generalizing pre b post with
  | nil => exact ⟨pre, b, post, by simp, rfl, hpre, hpost⟩
  | cons c rest ih =>
    simp only [List.foldl_cons]
    by_cases hc : dist (pos c) ref < dist (pos b) ref
    · simp only [hc, if_true]
      obtain ⟨pre1, sel, post1, h1, h2, h3, h4⟩ := ih (pre ++ b :: post) c []
        (by
          intro e he
          rcases List.mem_append.mp he with h | h
          · exact lt_trans hc (hpre e h)
          · rcases List.mem_cons.mp h with h | h
            · rw [h]; exact hc
            · exact lt_of_lt_of_le hc (hpost e h))
        (by simp)
      exact ⟨pre1, sel, post1, by simpa using h1, h2, h3, h4⟩
    · simp only [hc, if_false]
      obtain ⟨pre1, sel, post1, h1, h2, h3, h4⟩ := ih pre b (post ++ [c]) hpre
        (by
          intro e he
          rcases List.mem_append.mp he with h | h
          · exact hpost e h
          · rw [List.mem_singleton.mp h]; exact not_lt.mp hc)
      exact ⟨pre1, sel, post1, by simpa using h1, h2, h3, h4⟩

/-- The candidate `closestCandidate` returns for a non-empty list is in the list, is
strictly nearer than every candidate before it and at least as near as every candidate
after it. -/
theorem closestCandidate_spec (dist : GlobalPoint → GlobalPoint → ℚ)
    (pos : Digi → GlobalPoint) (pads : List Digi) (ref : GlobalPoint) (hne : pads ≠ []) :
    ∃ pre sel post, pads = pre ++ sel :: post ∧
      closestCandidate dist pos pads ref = (sel, pos sel) ∧
      (∀ c ∈ pre, dist (pos sel) ref < dist (pos c) ref) ∧
      (∀ c ∈ post, dist (pos sel) ref ≤ dist (pos c) ref) := by
  cases pads with
  | nil => exact absurd rfl hne
  | cons d rest =>
    obtain ⟨pre1, sel, post1, h1, h2, h3, h4⟩ :=
      closest_foldl dist pos ref rest [] d [] (by simp) (by simp)
    exact ⟨pre1, sel, post1, by simpa using h1, h2, h3, h4⟩

/-- What the closest-pad block of the odd slot stores, given the pair the matcher
returns. -/
theorem closestPadOdd_stores (m : SimTrackMatchManager) (x : Externals) (pads : List Digi)
    (st : Int) (s : State) (hv : is_valid (s.lct_odd st) = true) :
    ((closestPadOdd m x pads st s).etrk_ st).int_ .bx_pad_odd
        = digi_bx (m.digiInGEMClosestToCSC pads (s.gp_lct_odd st)).1 ∧
      ((closestPadOdd m x pads st s).etrk_ st).float_ .phi_pad_odd
        = (m.digiInGEMClosestToCSC pads (s.gp_lct_odd st)).2.phi ∧
      ((closestPadOdd m x pads st s).etrk_ st).float_ .eta_pad_odd
        = (m.digiInGEMClosestToCSC pads (s.gp_lct_odd st)).2.eta := by
  unfold closestPadOdd
  simp [hv, MyTrackEff.setI, MyTrackEff.setF, upd]

/-- What the closest-pad block of the even slot stores, given the pair the matcher
returns. -/
theorem closestPadEven_stores (m : SimTrackMatchManager) (x : Externals) (pads : List Digi)
    (st : Int) (s : State) (hv : is_valid (s.lct_even st) = true) :
    ((closestPadEven m x pads st s).etrk_ st).int_ .bx_pad_even
        = digi_bx (m.digiInGEMClosestToCSC pads (s.gp_lct_even st)).1 ∧
      ((closestPadEven m x pads st s).etrk_ st).float_ .phi_pad_even
        = (m.digiInGEMClosestToCSC pads (s.gp_lct_even st)).2.phi ∧
      ((closestPadEven m x pads st s).etrk_ st).float_ .eta_pad_even
        = (m.digiInGEMClosestToCSC pads (s.gp_lct_even st)).2.eta := by
  unfold closestPadEven
  simp [hv, MyTrackEff.setI, MyTrackEff.setF, upd]

/-- C15. Closest-candidate selection, with the matcher query modelled from the spec: for a
non-empty pad list of a chamber and a valid LCT of the same station and parity, the
candidate whose bx, phi and eta the closest-pad block stores in `bx_pad`, `phi_pad` and
`eta_pad` is a pad of the list that is strictly nearer to the LCT position than every pad
before it and at least as near as every pad after it, for every distance; and of pads at
azimuth offsets +0.05, -0.02, +0.10 from the reference the one at -0.02 is chosen. -/
theorem closest_pad_is_stored (dist : GlobalPoint → GlobalPoint → ℚ)
    (pos : Digi → GlobalPoint) (m : SimTrackMatchManager) (x : Externals)
    (pads : List Digi) (st : Int) (s : State)
    (hm : m.digiInGEMClosestToCSC = closestCandidate dist pos) (hne : pads ≠ []) :
    (is_valid (s.lct_odd st) = true →
      ∃ pre sel post, pads = pre ++ sel :: post ∧
        (∀ c ∈ pre, dist (pos sel) (s.gp_lct_odd st) < dist (pos c) (s.gp_lct_odd st)) ∧
        (∀ c ∈ post, dist (pos sel) (s.gp_lct_odd st) ≤ dist (pos c) (s.gp_lct_odd st)) ∧
        ((closestPadOdd m x pads st s).etrk_ st).int_ .bx_pad_odd = digi_bx sel ∧
        ((closestPadOdd m x pads st s).etrk_ st).float_ .phi_pad_odd = (pos sel).phi ∧
        ((closestPadOdd m x pads st s).etrk_ st).float_ .eta_pad_odd = (pos sel).eta) ∧
    (is_valid (s.lct_even st) = true →
      ∃ pre sel post, pads = pre ++ sel :: post ∧
        (∀ c ∈ pre, dist (pos sel) (s.gp_lct_even st) < dist (pos c) (s.gp_lct_even st)) ∧
        (∀ c ∈ post, dist (pos sel) (s.gp_lct_even st) ≤ dist (pos c) (s.gp_lct_even st)) ∧
        ((closestPadEven m x pads st s).etrk_ st).int_ .bx_pad_even = digi_bx sel ∧
        ((closestPadEven m x pads st s).etrk_ st).float_ .phi_pad_even = (pos sel).phi ∧
        ((closestPadEven m x pads st s).etrk_ st).float_ .eta_pad_even = (pos sel).eta) ∧
    (∀ phi0 : ℚ,
      closestCandidate azimuthDistance (padPosition phi0) [padAt 5, padAt (-2), padAt 10]
          { eta := 2, phi := Float_t.num phi0, z := 0 }
        = (padAt (-2), padPosition phi0 (padAt (-2)))) := by
  refine ⟨fun hv => ?_, fun hv => ?_, fun phi0 => ?_⟩
  · obtain ⟨pre, sel, post, h1, h2, h3, h4⟩ :=
      closestCandidate_spec dist pos pads (s.gp_lct_odd st) hne
    obtain ⟨e1, e2, e3⟩ := closestPadOdd_stores m x pads st s hv
    rw [hm, h2] at e1 e2 e3
    exact ⟨pre, sel, post, h1, h3, h4, e1, e2, e3⟩
  · obtain ⟨pre, sel, post, h1, h2, h3, h4⟩ :=
      closestCandidate_spec dist pos pads (s.gp_lct_even st) hne
    obtain ⟨e1, e2, e3⟩ := closestPadEven_stores m x pads st s hv
    rw [hm, h2] at e1 e2 e3
    exact ⟨pre, sel, post, h1, h3, h4, e1, e2, e3⟩
  · have a1 : |phi0 + (-2 : ℚ) / 100 - phi0| = 2 / 100 := by
      rw [show phi0 + (-2 : ℚ) / 100 - phi0 = -(2 / 100) by ring, abs_neg]
      exact abs_of_pos (by norm_num)
    have a2 : |phi0 + (5 : ℚ) / 100 - phi0| = 5 / 100 := by
      rw [show phi0 + (5 : ℚ) / 100 - phi0 = 5 / 100 by ring]
      exact abs_of_pos (by norm_num)
    have a3 : |phi0 + (10 : ℚ) / 100 - phi0| = 10 / 100 := by
      rw [show phi0 + (10 : ℚ) / 100 - phi0 = 10 / 100 by ring]
      exact abs_of_pos (by norm_num)
    simp only [closestCandidate, List.foldl_cons, List.foldl_nil, azimuthDistance, padPosition,
      padAt, Int.cast_neg, Int.cast_ofNat, a1, a2, a3]
    have a4 : |(1 : ℚ) / 50| = 1 / 50 := abs_of_pos (by norm_num)
    norm_num [a4]

/-- With pads at azimuths 1.05, 0.98 and 1.10 and a valid odd LCT at azimuth 1, the pad at
0.98 is selected and a pad of the list with the stated properties is stored. -/
theorem closest_pad_is_stored_witness :
    matchClosest.digiInGEMClosestToCSC = closestCandidate azimuthDistance (padPosition 1) ∧
    [padAt 5, padAt (-2), padAt 10] ≠ [] ∧
    closestCandidate azimuthDistance (padPosition 1) [padAt 5, padAt (-2), padAt 10]
        { eta := 2, phi := Float_t.num 1, z := 0 }
      = (padAt (-2), padPosition 1 (padAt (-2))) ∧
    ∃ pre sel post, [padAt 5, padAt (-2), padAt 10] = pre ++ sel :: post ∧
      (∀ c ∈ pre, azimuthDistance (padPosition 1 sel) (stateWithLct.gp_lct_odd 3)
        < azimuthDistance (padPosition 1 c) (stateWithLct.gp_lct_odd 3)) ∧
      (∀ c ∈ post, azimuthDistance (padPosition 1 sel) (stateWithLct.gp_lct_odd 3)
        ≤ azimuthDistance (padPosition 1 c) (stateWithLct.gp_lct_odd 3)) ∧
      ((closestPadOdd matchClosest sampleExternals [padAt 5, padAt (-2), padAt 10] 3
        stateWithLct).etrk_ 3).int_ .bx_pad_odd = digi_bx sel ∧
      ((closestPadOdd matchClosest sampleExternals [padAt 5, padAt (-2), padAt 10] 3
        stateWithLct).etrk_ 3).float_ .phi_pad_odd = (padPosition 1 sel).phi ∧
      ((closestPadOdd matchClosest sampleExternals [padAt 5, padAt (-2), padAt 10] 3
        stateWithLct).etrk_ 3).float_ .eta_pad_odd = (padPosition 1 sel).eta :=
  ⟨rfl, by decide,
    (closest_pad_is_stored azimuthDistance (padPosition 1) matchClosest sampleExternals
      [padAt 5, padAt (-2), padAt 10] 3 stateWithLct rfl (by decide)).2.2 1,
    (closest_pad_is_stored azimuthDistance (padPosition 1) matchClosest sampleExternals
      [padAt 5, padAt (-2), padAt 10] 3 stateWithLct rfl (by decide)).1 rfl⟩
/-! ### Delta rows -/

/-- The pairs of the rows logged so far. -/
theorem deltaGem_foldl_rows (m : SimTrackMatchManager) (q : DeltaQueries) (x : Externals)
    (c : CSCDetId) (is_odd : Bool) (region : Int) (g1 g2 g3 : GlobalPoint) (lct : Digi)
    (gems : List GEMDetId) (ds : DeltaState) :
    ((gems.foldl (deltaGemStep m q x c is_odd region g1 g2 g3 lct) ds).rows.map
        (fun r => (r.1, r.2.1)))
      = ds.rows.map (fun r => (r.1, r.2.1)) ++
        (gems.filter (fun g => decide (g.region = region) && decide (g.chamber = c.chamber) &&
          decide ((m.hitsInSuperChamber g.rawId) ≠ []) &&
          decide ((m.digisInSuperChamber g.rawId) ≠ []) &&
          decide ((q.padsInSuperChamber g.rawId) ≠ []))).map (fun g => (c, g)) := by
  induction gems generalizing ds with
  | nil => simp
  | cons g gems ih =>
    rw [List.foldl_cons, ih]
    unfold deltaGemStep
    simp only []
    by_cases h1 : g.region = region
    · by_cases h2 : g.chamber = c.chamber
      · by_cases h3 : m.hitsInSuperChamber g.rawId = []
        · simp [h1, h2, h3, List.filter_cons]
        · by_cases h4 : m.digisInSuperChamber g.rawId = []
          · simp [h1, h2, h3, h4, List.filter_cons]
          · by_cases h5 : q.padsInSuperChamber g.rawId = []
            · simp [h1, h2, h3, h4, h5, List.filter_cons]
            · simp [h1, h2, h3, h4, h5, List.filter_cons]
      · simp [h1, h2, List.filter_cons]
    · simp [h1, List.filter_cons]

/-- For a position that is a number, `|z| >= 0.001` is the failure of the test
`|z| < 0.001`. -/
theorem ge_zCut_iff (z : Float_t) (hz : z ≠ Float_t.nan) :
    Float_t.ge (Float_t.abs z) zCut = !Float_t.lt (Float_t.abs z) zCut := by
  cases z with
  | nan => exact absurd rfl hz
  | num v =>
    show decide ((1 : ℚ) / 1000 ≤ |v|) = !decide (|v| < (1 : ℚ) / 1000)
    by_cases h : |v| < (1 : ℚ) / 1000
    · rw [decide_eq_true h, decide_eq_false (not_le.mpr h)]
      rfl
    · rw [decide_eq_false h, decide_eq_true (not_lt.mp h)]
      rfl

/-- The rows one CSC chamber adds, under the test on the whole track. -/
theorem deltaCsc_rows (a : GEMCSCAnalyzer) (m : SimTrackMatchManager) (q : DeltaQueries)
    (x : Externals) (ds : DeltaState) (c : CSCDetId) (hgate : deltaTrackGate a q = true)
    (hz : (q.digisCSCMedianPosition (q.stripDigisInChamber c.rawId)
      (q.wireDigisInChamber c.rawId)).z ≠ Float_t.nan) :
    (deltaCscStep a m q x ds c).rows.map (fun r => (r.1, r.2.1))
      = ds.rows.map (fun r => (r.1, r.2.1)) ++
        (m.superChamberIdsDigi.map (fun g => (c, g))).filter (deltaRowCondition a m q) := by
  have hg : decide (q.nPads ≥ 1) = true ∧
      decide (q.nCoincidenceStripChambers a.minNHitsChamberCSCStripDigi_ ≥ 1) = true ∧
      decide (q.nCoincidenceWireChambers a.minNHitsChamberCSCWireDigi_ ≥ 1) = true := by
    simp only [deltaTrackGate, Bool.and_eq_true, decide_eq_true_eq] at hgate
    simp only [decide_eq_true_eq]
    omega
  have hfil : ∀ (p : GEMDetId → Bool),
      (m.superChamberIdsDigi.map (fun g => (c, g))).filter (deltaRowCondition a m q)
        = (m.superChamberIdsDigi.filter (fun g => deltaRowCondition a m q (c, g))).map
            (fun g => (c, g)) := by
    intro _
    rw [List.filter_map]
    rfl
  rw [hfil (fun _ => true)]
  unfold deltaCscStep
  simp only []
  by_cases h1 : m.nLayersWithStripInChamber c.rawId < a.minNHitsChamberCSCStripDigi_
  · have : ∀ g, deltaRowCondition a m q (c, g) = false := by
      intro g
      simp [deltaRowCondition, h1]
    simp [h1, this]
  · rw [if_neg h1]
    by_cases h2 : Float_t.lt (Float_t.abs (q.digisCSCMedianPosition
        (q.stripDigisInChamber c.rawId) (q.wireDigisInChamber c.rawId)).z) zCut = true
    · have : ∀ g, deltaRowCondition a m q (c, g) = false := by
        intro g
        simp [deltaRowCondition, ge_zCut_iff _ hz, h2]
      simp [h2, this]
    · rw [if_neg h2, deltaGem_foldl_rows]
      congr 2
      apply List.filter_congr
      intro g _
      simp only [Bool.not_eq_true] at h2
      simp [deltaRowCondition, hg.1, hg.2.1, hg.2.2, ge_zCut_iff _ hz, h2, not_lt.mp h1]

/-- C17. Delta rows: `analyzeTrackChamberDeltas` appends to the delta table exactly one
row for each pair (CSC strip-digi chamber, GEM digi superchamber), in nested iteration
order, for which the track has at least one pad and one coincidence strip and wire chamber
at the thresholds, the CSC chamber has at least `minNHitsChamberCSCStripDigi_` strip
layers and a median digi position with `|z| >= 0.001`, the GEM region is +1 for endcap 1
and -1 otherwise, the chamber numbers are equal and the GEM sim-hit, digi and pad lists
are non-empty; no row for any other pair. The median positions are taken to be numbers
(not NaN). -/
theorem delta_rows_exact (a : GEMCSCAnalyzer) (m : SimTrackMatchManager) (q : DeltaQueries)
    (x : Externals) (ds : DeltaState)
    (hz : ∀ c ∈ m.chamberIdsStrip, (q.digisCSCMedianPosition (q.stripDigisInChamber c.rawId)
      (q.wireDigisInChamber c.rawId)).z ≠ Float_t.nan) :
    (analyzeTrackChamberDeltas a m q x ds).rows.map (fun r => (r.1, r.2.1))
      = ds.rows.map (fun r => (r.1, r.2.1)) ++
        (deltaPairs m).filter (deltaRowCondition a m q) := by
  unfold analyzeTrackChamberDeltas
  by_cases hgate : deltaTrackGate a q = true
  · simp only [hgate, if_true]
    have key : ∀ (l : List CSCDetId) (d : DeltaState),
        (∀ c ∈ l, (q.digisCSCMedianPosition (q.stripDigisInChamber c.rawId)
          (q.wireDigisInChamber c.rawId)).z ≠ Float_t.nan) →
        (l.foldl (deltaCscStep a m q x) d).rows.map (fun r => (r.1, r.2.1))
          = d.rows.map (fun r => (r.1, r.2.1)) ++
            (l.flatMap (fun c => m.superChamberIdsDigi.map (fun g => (c, g)))).filter
              (deltaRowCondition a m q) := by
      intro l
      induction l with
      | nil => intro d _; simp
      | cons c l ih =>
        intro d hl
        rw [List.foldl_cons, ih _ (fun e he => hl e (List.mem_cons_of_mem c he)),
          deltaCsc_rows a m q x d c hgate (hl c (List.mem_cons_self c l))]
        simp [List.flatMap_cons, List.filter_append, List.append_assoc]
    exact key m.chamberIdsStrip _ hz
  · have hfalse : ∀ p, deltaRowCondition a m q p = false := by
      intro p
      by_contra hc
      apply hgate
      simp only [Bool.not_eq_false] at hc
      simp only [deltaRowCondition, Bool.and_eq_true, decide_eq_true_eq] at hc
      simp only [deltaTrackGate, Bool.and_eq_true, decide_eq_true_eq]
      obtain ⟨⟨⟨⟨⟨⟨⟨⟨⟨c1, c2⟩, c3⟩, _⟩, _⟩, _⟩, _⟩, _⟩, _⟩, _⟩ := hc
      exact ⟨⟨by omega, by omega⟩, by omega⟩
    simp [hgate, hfalse]

/-- One strip chamber and two GEM superchambers, one with the chamber number of the strip
chamber: exactly one row, for that pair. -/
theorem delta_rows_exact_witness :
    (∀ c ∈ matchDelta.chamberIdsStrip,
      (sampleQueries.digisCSCMedianPosition (sampleQueries.stripDigisInChamber c.rawId)
        (sampleQueries.wireDigisInChamber c.rawId)).z ≠ Float_t.nan) ∧
    (analyzeTrackChamberDeltas selectorConfig matchDelta sampleQueries sampleExternals
        { dtrk_ := zeroDelta, rows := [] }).rows.map (fun r => (r.1, r.2.1))
      = [(me1bOdd, ge11Odd)] :=
  ⟨by with_unfolding_all decide,
    (delta_rows_exact selectorConfig matchDelta sampleQueries sampleExternals
      { dtrk_ := zeroDelta, rows := [] } (by with_unfolding_all decide)).trans
      (by with_unfolding_all rfl)⟩
/-! ### Rows per accepted track -/

/-- A rejected track leaves the output state as it is: no per-station row, no delta row and
no change of the records. -/
theorem analyzeStep_rejected (a : GEMCSCAnalyzer) (x : Externals)
    (matchOf : SimTrack → SimTrackMatchManager × DeltaQueries) (o : Output) (t : SimTrack)
    (h : isSimTrackGood a t = false) : analyzeStep a x matchOf o t = Except.ok o := by
  unfold analyzeStep
  simp only [h, Bool.not_false, if_true]
  rfl

/-- An accepted track with well-formed matcher data appends one row per configured station,
tagged with the track number, and advances the track number. -/
theorem analyzeStep_accepted (a : GEMCSCAnalyzer) (x : Externals)
    (matchOf : SimTrack → SimTrackMatchManager × DeltaQueries) (o : Output) (t : SimTrack)
    (hEff : a.ntupleTrackEff_ = true) (h : isSimTrackGood a t = true)
    (hwf : WellFormed a (matchOf t).1) :
    ∃ o1, analyzeStep a x matchOf o t = Except.ok o1 ∧ o1.trk_no = o.trk_no + 1 ∧
      o1.effRows.map (fun r => (r.1, r.2.1))
        = o.effRows.map (fun r => (r.1, r.2.1)) ++
          a.stations_to_use_.map (fun i => (o.trk_no, i)) := by
  unfold analyzeStep
  simp only [h, Bool.not_true, Bool.false_eq_true, if_false, hEff, if_true]
  obtain ⟨s, hs⟩ := analyzeTrackEff_ok a (matchOf t).1 x
    (if a.ntupleTrackChamberDelta_ = true then
      { o with delta := analyzeTrackChamberDeltas a (matchOf t).1 (matchOf t).2 x o.delta }
    else o).etrk_ hwf
  simp only [bind, Except.bind, pure, Except.pure, hs]
  refine ⟨_, rfl, ?_, ?_⟩
  · split_ifs <;> rfl
  · simp only [emittedRows, List.map_append, List.map_map]
    split_ifs <;> rfl

/-- The tags of the rows of `n` consecutive tracks starting at number `k`. -/
theorem range_tags (stations : List Int) (k n : Nat) :
    stations.map (fun i => (k, i)) ++
      (List.range n).flatMap (fun j => stations.map (fun i => (k + 1 + j, i)))
    = (List.range (n + 1)).flatMap (fun j => stations.map (fun i => (k + j, i))) := by
  rw [List.range_succ_eq_map, List.flatMap_cons, List.flatMap_map]
  simp only [Nat.add_zero, Function.comp_def, Nat.succ_eq_add_one]
  congr 2
  funext j
  congr 1
  funext i
  congr 1
  omega

/-- C12. With the per-station ntuple enabled and well-formed matcher data for the accepted
tracks, `analyze` completes, and the per-station rows it appends are exactly one row per
(accepted track, configured station): their number is the number of accepted tracks times
the size of `stations_to_use_`, the k-th accepted track carries the track number k with
every configured station once, and the result is the same as that of `analyze` on the
accepted tracks alone, so a rejected track adds no per-station row and no delta row. -/
theorem rows_per_accepted_track (a : GEMCSCAnalyzer) (x : Externals)
    (matchOf : SimTrack → SimTrackMatchManager × DeltaQueries) (tracks : List SimTrack)
    (o : Output) (hEff : a.ntupleTrackEff_ = true)
    (hwf : ∀ t ∈ tracks, isSimTrackGood a t = true → WellFormed a (matchOf t).1) :
    ∃ o1, analyze a x matchOf tracks o = Except.ok o1 ∧
      o1.effRows.length = o.effRows.length +
        (tracks.filter (isSimTrackGood a)).length * a.stations_to_use_.length ∧
      o1.effRows.map (fun r => (r.1, r.2.1))
        = o.effRows.map (fun r => (r.1, r.2.1)) ++
          (List.range (tracks.filter (isSimTrackGood a)).length).flatMap
            (fun j => a.stations_to_use_.map (fun i => (o.trk_no + j, i))) ∧
      o1.trk_no = o.trk_no + (tracks.filter (isSimTrackGood a)).length ∧
      analyze a x matchOf (tracks.filter (isSimTrackGood a)) o = Except.ok o1 ∧
      (∀ t u, isSimTrackGood a t = false → analyzeStep a x matchOf u t = Except.ok u) := by
  have main : ∀ (l : List SimTrack) (u : Output),
      (∀ t ∈ l, isSimTrackGood a t = true → WellFormed a (matchOf t).1) →
      ∃ o1, analyze a x matchOf l u = Except.ok o1 ∧
        o1.effRows.map (fun r => (r.1, r.2.1))
          = u.effRows.map (fun r => (r.1, r.2.1)) ++
            (List.range (l.filter (isSimTrackGood a)).length).flatMap
              (fun j => a.stations_to_use_.map (fun i => (u.trk_no + j, i))) ∧
        o1.trk_no = u.trk_no + (l.filter (isSimTrackGood a)).length ∧
        analyze a x matchOf (l.filter (isSimTrackGood a)) u = Except.ok o1 := by
    intro l
    induction l with
    | nil =>
      intro u _
      exact ⟨u, rfl, by simp, rfl, rfl⟩
    | cons t l ih =>
      intro u hl
      have hl2 : ∀ t1 ∈ l, isSimTrackGood a t1 = true → WellFormed a (matchOf t1).1 :=
        fun t1 h1 => hl t1 (List.mem_cons_of_mem t h1)
      cases hg : isSimTrackGood a t with
      | false =>
        obtain ⟨o1, e1, e2, e3, e4⟩ := ih u hl2
        refine ⟨o1, ?_, ?_, ?_, ?_⟩
        · unfold analyze at e1 ⊢
          rw [List.foldlM_cons, analyzeStep_rejected a x matchOf u t hg]
          exact e1
        · rw [List.filter_cons_of_neg (by simp [hg])]
          exact e2
        · rw [List.filter_cons_of_neg (by simp [hg])]
          exact e3
        · rw [List.filter_cons_of_neg (by simp [hg])]
          exact e4
      | true =>
        obtain ⟨u1, f1, f2, f3⟩ := analyzeStep_accepted a x matchOf u t hEff hg
          (hl t (List.mem_cons_self t l) hg)
        obtain ⟨o1, e1, e2, e3, e4⟩ := ih u1 hl2
        refine ⟨o1, ?_, ?_, ?_, ?_⟩
        · unfold analyze at e1 ⊢
          rw [List.foldlM_cons, f1]
          exact e1
        · rw [List.filter_cons_of_pos hg, List.length_cons, e2, f3, f2, List.append_assoc,
            range_tags]
        · rw [List.filter_cons_of_pos hg, List.length_cons, e3, f2]
          omega
        · rw [List.filter_cons_of_pos hg]
          unfold analyze at e4 ⊢
          rw [List.foldlM_cons, f1]
          exact e4
  obtain ⟨o1, e1, e2, e3, e4⟩ := main tracks o hwf
  refine ⟨o1, e1, ?_, e2, e3, e4, fun t u h => analyzeStep_rejected a x matchOf u t h⟩
  have hlen := congrArg List.length e2
  simp only [List.length_map, List.length_append, List.length_flatMap, List.map_const',
    Function.comp_def] at hlen
  rw [hlen]
  simp [List.sum_replicate, Nat.mul_comm]

/-- Three tracks, the second below the pt cut, five configured stations: ten rows. -/
theorem rows_per_accepted_track_witness :
    selectorConfig.ntupleTrackEff_ = true ∧
    (∀ t ∈ [boundaryTrack, softTrack, sampleTrack],
      isSimTrackGood selectorConfig t = true → WellFormed selectorConfig emptyMatch) ∧
    ∃ o1, analyze selectorConfig sampleExternals (fun _ => (emptyMatch, sampleQueries))
        [boundaryTrack, softTrack, sampleTrack] (Output.start freshRecords zeroDelta)
        = Except.ok o1 ∧ o1.effRows.length = 10 ∧ o1.trk_no = 2 := by
  have hw : WellFormed selectorConfig emptyMatch :=
    ⟨by decide, by decide, by decide, fun h => absurd rfl h⟩
  have hf : ([boundaryTrack, softTrack, sampleTrack].filter
      (isSimTrackGood selectorConfig)).length = 2 := by with_unfolding_all rfl
  refine ⟨rfl, fun _ _ _ => hw, ?_⟩
  obtain ⟨o1, e1, e2, _, e4, _⟩ := rows_per_accepted_track selectorConfig sampleExternals
    (fun _ => (emptyMatch, sampleQueries)) [boundaryTrack, softTrack, sampleTrack]
    (Output.start freshRecords zeroDelta) rfl (fun _ _ _ => hw)
  exact ⟨o1, e1, by rw [e2, hf]; rfl, by rw [e4, hf]; rfl⟩
/-! ### Reading a member through the record updates -/

/-- Reading a `Char_t` member after `etrk_[i].G |= b`. -/
theorem read_char_orC (s : State) (i j : Int) (F G : CharField) (b : Int) :
    ((s.orC i G b).etrk_ j).char_ F
      = if j = i ∧ F = G then Int.lor ((s.etrk_ j).char_ F) b else (s.etrk_ j).char_ F := by
  unfold State.orC State.modify upd MyTrackEff.orC MyTrackEff.setC
  by_cases hj : j = i
  · subst hj
    by_cases hF : F = G
    · subst hF; simp
    · simp [hF]
  · simp [hj]

/-- Reading a `Char_t` member after `etrk_[i].G = v`. -/
theorem read_char_setC (s : State) (i j : Int) (F G : CharField) (v : Int) :
    ((s.setC i G v).etrk_ j).char_ F
      = if j = i ∧ F = G then v else (s.etrk_ j).char_ F := by
  unfold State.setC State.modify upd MyTrackEff.setC
  by_cases hj : j = i
  · subst hj
    by_cases hF : F = G
    · subst hF; simp
    · simp [hF]
  · simp [hj]

/-- Reading a `Char_t` member after an `Int_t` assignment. -/
theorem read_char_setI (s : State) (i j : Int) (F : CharField) (G : IntField) (v : Int) :
    ((s.setI i G v).etrk_ j).char_ F = (s.etrk_ j).char_ F :=
  char_modify_keep s i j _ F (fun _ => rfl)

/-- Reading a `Char_t` member after a `Float_t` assignment. -/
theorem read_char_setF (s : State) (i j : Int) (F : CharField) (G : FloatField) (v : Float_t) :
    ((s.setF i G v).etrk_ j).char_ F = (s.etrk_ j).char_ F :=
  char_modify_keep s i j _ F (fun _ => rfl)

/-- Reading a `Char_t` member after a `Bool_t` assignment. -/
theorem read_char_setB (s : State) (i j : Int) (F : CharField) (G : BoolField) (v : Bool) :
    ((s.setB i G v).etrk_ j).char_ F = (s.etrk_ j).char_ F :=
  char_modify_keep s i j _ F (fun _ => rfl)

/-- Reading an `Int_t` member after `etrk_[i].G = v`. -/
theorem read_int_setI (s : State) (i j : Int) (F G : IntField) (v : Int) :
    ((s.setI i G v).etrk_ j).int_ F
      = if j = i ∧ F = G then v else (s.etrk_ j).int_ F := by
  unfold State.setI State.modify upd MyTrackEff.setI
  by_cases hj : j = i
  · subst hj
    by_cases hF : F = G
    · subst hF; simp
    · simp [hF]
  · simp [hj]

/-- Reading an `Int_t` member after a `Char_t` OR. -/
theorem read_int_orC (s : State) (i j : Int) (F : IntField) (G : CharField) (b : Int) :
    ((s.orC i G b).etrk_ j).int_ F = (s.etrk_ j).int_ F :=
  int_modify_keep s i j _ F (fun _ => rfl)

/-- Reading an `Int_t` member after a `Char_t` assignment. -/
theorem read_int_setC (s : State) (i j : Int) (F : IntField) (G : CharField) (v : Int) :
    ((s.setC i G v).etrk_ j).int_ F = (s.etrk_ j).int_ F :=
  int_modify_keep s i j _ F (fun _ => rfl)

/-- Reading an `Int_t` member after a `Float_t` assignment. -/
theorem read_int_setF (s : State) (i j : Int) (F : IntField) (G : FloatField) (v : Float_t) :
    ((s.setF i G v).etrk_ j).int_ F = (s.etrk_ j).int_ F :=
  int_modify_keep s i j _ F (fun _ => rfl)

/-- Reading an `Int_t` member after a `Bool_t` assignment. -/
theorem read_int_setB (s : State) (i j : Int) (F : IntField) (G : BoolField) (v : Bool) :
    ((s.setB i G v).etrk_ j).int_ F = (s.etrk_ j).int_ F :=
  int_modify_keep s i j _ F (fun _ => rfl)

/-- Reading a `Float_t` member after `etrk_[i].G = v`. -/
theorem read_float_setF (s : State) (i j : Int) (F G : FloatField) (v : Float_t) :
    ((s.setF i G v).etrk_ j).float_ F
      = if j = i ∧ F = G then v else (s.etrk_ j).float_ F := by
  unfold State.setF State.modify upd MyTrackEff.setF
  by_cases hj : j = i
  · subst hj
    by_cases hF : F = G
    · subst hF; simp
    · simp [hF]
  · simp [hj]

/-- Reading a `Float_t` member after an `Int_t` assignment. -/
theorem read_float_setI (s : State) (i j : Int) (F : FloatField) (G : IntField) (v : Int) :
    ((s.setI i G v).etrk_ j).float_ F = (s.etrk_ j).float_ F :=
  float_modify_keep s i j _ F (fun _ => rfl)

/-- Reading a `Float_t` member after a `Char_t` OR. -/
theorem read_float_orC (s : State) (i j : Int) (F : FloatField) (G : CharField) (b : Int) :
    ((s.orC i G b).etrk_ j).float_ F = (s.etrk_ j).float_ F :=
  float_modify_keep s i j _ F (fun _ => rfl)

/-- Reading a `Float_t` member after a `Char_t` assignment. -/
theorem read_float_setC (s : State) (i j : Int) (F : FloatField) (G : CharField) (v : Int) :
    ((s.setC i G v).etrk_ j).float_ F = (s.etrk_ j).float_ F :=
  float_modify_keep s i j _ F (fun _ => rfl)

/-- Reading a `Float_t` member after a `Bool_t` assignment. -/
theorem read_float_setB (s : State) (i j : Int) (F : FloatField) (G : BoolField) (v : Bool) :
    ((s.setB i G v).etrk_ j).float_ F = (s.etrk_ j).float_ F :=
  float_modify_keep s i j _ F (fun _ => rfl)

/-! ### Records after the re-initialisation loop -/

/-- A configured station has a non-zero `count`. -/
theorem count_ne_zero_of_mem (a : GEMCSCAnalyzer) (st : Int)
    (h : st ∈ a.stations_to_use_) : a.count st ≠ 0 := by
  simp [GEMCSCAnalyzer.count, h]

/-- The record that `initStation` leaves at its own index does not depend on the state. -/
theorem initStation_self (m : SimTrackMatchManager) (s u : State) (i : Int) :
    (initStation m s i).etrk_ i = (initStation m u i).etrk_ i := by
  unfold initStation
  simp only [State.setI, State.setF, State.setC, State.modify, upd, if_true]
  rw [(init_const (s.etrk_ i) (u.etrk_ i)).1]

/-- The step `initStation` leaves the records of the other indices as they are. -/
theorem initStation_other (m : SimTrackMatchManager) (s : State) (i j : Int) (h : j ≠ i) :
    (initStation m s i).etrk_ j = s.etrk_ j := by
  unfold initStation
  simp only [State.setI, State.setF, State.setC, State.modify, upd, if_neg h]

/-- After the re-initialisation loop the record of a configured station is the one a
single `initStation` leaves. -/
theorem initLoop_record (m : SimTrackMatchManager) (l : List Int) (s u : State) (st : Int) :
    (st ∈ l → (l.foldl (initStation m) s).etrk_ st = (initStation m u st).etrk_ st) ∧
    (st ∉ l → (l.foldl (initStation m) s).etrk_ st = s.etrk_ st) := by
  induction l generalizing s with
  | nil => exact ⟨fun h => absurd h (List.not_mem_nil st), fun _ => rfl⟩
  | cons i l ih =>
    rw [List.foldl_cons]
    constructor
    · intro h
      by_cases hl : st ∈ l
      · exact (ih _).1 hl
      · rw [(ih _).2 hl]
        have : st = i := by
          rcases List.mem_cons.mp h with h1 | h1
          · exact h1
          · exact absurd h1 hl
        subst this
        exact initStation_self m s u st
    · intro h
      rw [(ih _).2 (fun h1 => h (List.mem_cons_of_mem i h1))]
      exact initStation_other m s i st (fun h1 => h (h1 ▸ List.mem_cons_self _ l))

/-! ### Presence masks as folds -/

/-- A loop whose body ORs the parity bit of every element passing a test into a mask
yields a mask in 0..3 whose bits say whether an odd, resp. even, element passed. -/
theorem mask_foldl {α : Type} (f : State → α → State) (g : State → Int) (p odd : α → Bool)
    (hf : ∀ s x, g (f s x)
      = if p x = true then Int.lor (g s) (if odd x = true then 1 else 2) else g s)
    (l : List α) (s : State) (h0 : g s = 0 ∨ g s = 1 ∨ g s = 2 ∨ g s = 3) :
    (g (l.foldl f s) = 0 ∨ g (l.foldl f s) = 1 ∨ g (l.foldl f s) = 2 ∨ g (l.foldl f s) = 3) ∧
    (Int.land (g (l.foldl f s)) 1 = 1 ↔
      Int.land (g s) 1 = 1 ∨ ∃ x ∈ l, p x = true ∧ odd x = true) ∧
    (Int.land (g (l.foldl f s)) 2 = 2 ↔
      Int.land (g s) 2 = 2 ∨ ∃ x ∈ l, p x = true ∧ odd x = false) := by
  induction l generalizing s with
  | nil => simp [h0]
  | cons x l ih =>
    rw [List.foldl_cons]
    have hx := hf s x
    have h1 : g (f s x) = 0 ∨ g (f s x) = 1 ∨ g (f s x) = 2 ∨ g (f s x) = 3 := by
      rw [hx]
      cases p x <;> cases odd x <;> rcases h0 with h | h | h | h <;> simp [h] <;> decide
    have hb1 : Int.land (g (f s x)) 1 = 1 ↔
        Int.land (g s) 1 = 1 ∨ (p x = true ∧ odd x = true) := by
      rw [hx]
      cases p x <;> cases odd x <;> rcases h0 with h | h | h | h <;> simp [h] <;> decide
    have hb2 : Int.land (g (f s x)) 2 = 2 ↔
        Int.land (g s) 2 = 2 ∨ (p x = true ∧ odd x = false) := by
      rw [hx]
      cases p x <;> cases odd x <;> rcases h0 with h | h | h | h <;> simp [h] <;> decide
    obtain ⟨i1, i2, i3⟩ := ih (f s x) h1
    refine ⟨i1, ?_, ?_⟩
    · rw [i2, hb1]
      simp only [List.mem_cons, exists_eq_or_imp]
      exact or_assoc
    · rw [i3, hb2]
      simp only [List.mem_cons, exists_eq_or_imp]
      exact or_assoc

/-- What the strip-digi pass does to `has_csc_strips` of a configured record `st >= 2`. -/
theorem cscStripStep_mask (a : GEMCSCAnalyzer) (m : SimTrackMatchManager) (st : Int)
    (hst : st ∈ a.stations_to_use_) (h2 : 2 ≤ st) (s : State) (id : CSCDetId) :
    ((cscStripStep a m s id).etrk_ st).char_ .has_csc_strips
      = if (decide (detIdToMEStation id.station id.ring = st) &&
            decide (a.minNHitsChamberCSCStripDigi_ ≤ m.nLayersWithStripInChamber id.rawId))
            = true
        then Int.lor ((s.etrk_ st).char_ .has_csc_strips)
          (if decide (cmod id.chamber 2 = 1) = true then 1 else 2)
        else (s.etrk_ st).char_ .has_csc_strips := by
  have h1 : st ≠ 1 := by omega
  have hc := count_ne_zero_of_mem a st hst
  unfold cscStripStep
  simp only []
  by_cases he : detIdToMEStation id.station id.ring = st
  · rw [he, if_neg hc]
    by_cases hn : m.nLayersWithStripInChamber id.rawId < a.minNHitsChamberCSCStripDigi_
    · simp [hn, not_le.mpr hn]
    · rw [if_neg hn]
      have hn2 := not_lt.mp hn
      by_cases h23 : st = 2 ∨ st = 3
      · rw [if_pos h23]
        simp only [State.setIP, State.orCP, read_char_orC, read_char_setI]
        simp [h1, hn2]
      · rw [if_neg h23]
        simp only [State.setIP, State.orCP, read_char_orC, read_char_setI]
        simp [hn2]
  · have he2 : st ≠ detIdToMEStation id.station id.ring := Ne.symm he
    rw [show (decide (detIdToMEStation id.station id.ring = st) && decide (a.minNHitsChamberCSCStripDigi_ ≤ m.nLayersWithStripInChamber id.rawId)) = false from
      by simp [he]]
    simp only [Bool.false_eq_true, if_false]
    split_ifs <;> first
      | rfl
      | (simp only [State.setIP, State.orCP, read_char_orC, read_char_setI]
         simp [h1, he2])

/-- What the wire-digi pass does to `has_csc_wires` of a configured record `st >= 2`. -/
theorem cscWireStep_mask (a : GEMCSCAnalyzer) (m : SimTrackMatchManager) (st : Int)
    (hst : st ∈ a.stations_to_use_) (h2 : 2 ≤ st) (s : State) (id : CSCDetId) :
    ((cscWireStep a m s id).etrk_ st).char_ .has_csc_wires
      = if (decide (detIdToMEStation id.station id.ring = st) &&
            decide (a.minNHitsChamberCSCWireDigi_ ≤ m.nLayersWithWireInChamber id.rawId))
            = true
        then Int.lor ((s.etrk_ st).char_ .has_csc_wires)
          (if decide (cmod id.chamber 2 = 1) = true then 1 else 2)
        else (s.etrk_ st).char_ .has_csc_wires := by
  have h1 : st ≠ 1 := by omega
  have hc := count_ne_zero_of_mem a st hst
  unfold cscWireStep
  simp only []
  by_cases he : detIdToMEStation id.station id.ring = st
  · rw [he, if_neg hc]
    by_cases hn : m.nLayersWithWireInChamber id.rawId < a.minNHitsChamberCSCWireDigi_
    · simp [hn, not_le.mpr hn]
    · rw [if_neg hn]
      have hn2 := not_lt.mp hn
      by_cases h23 : st = 2 ∨ st = 3
      · rw [if_pos h23]
        simp only [State.setIP, State.orCP, read_char_orC, read_char_setI]
        simp [h1, hn2]
      · rw [if_neg h23]
        simp only [State.setIP, State.orCP, read_char_orC, read_char_setI]
        simp [hn2]
  · have he2 : st ≠ detIdToMEStation id.station id.ring := Ne.symm he
    rw [show (decide (detIdToMEStation id.station id.ring = st) && decide (a.minNHitsChamberCSCWireDigi_ ≤ m.nLayersWithWireInChamber id.rawId)) = false from
      by simp [he]]
    simp only [Bool.false_eq_true, if_false]
    split_ifs <;> first
      | rfl
      | (simp only [State.setIP, State.orCP, read_char_orC, read_char_setI]
         simp [h1, he2])

/-! ### Members of a re-initialised record -/

/-- After `initStation` a `Char_t` member other than `charge` and `endcap` has its `init`
value. -/
theorem initStation_char (m : SimTrackMatchManager) (s : State) (i : Int) (F : CharField)
    (h1 : F ≠ .charge) (h2 : F ≠ .endcap) :
    ((initStation m s i).etrk_ i).char_ F = (s.etrk_ i).init.char_ F := by
  unfold initStation
  simp only [read_char_setC, read_char_setI, read_char_setF, h1, h2, and_false, if_false]
  simp only [State.modify, upd, if_true]

/-- After `initStation` an `Int_t` member other than `run`, `lumi` and `event` has its
`init` value. -/
theorem initStation_int (m : SimTrackMatchManager) (s : State) (i : Int) (F : IntField)
    (h1 : F ≠ .run) (h2 : F ≠ .lumi) (h3 : F ≠ .event) :
    ((initStation m s i).etrk_ i).int_ F = (s.etrk_ i).init.int_ F := by
  unfold initStation
  simp only [read_int_setC, read_int_setI, read_int_setF, h1, h2, h3, and_false, if_false]
  simp only [State.modify, upd, if_true]

/-- After `initStation` a `Float_t` member other than `pt`, `phi` and `eta` has its `init`
value. -/
theorem initStation_float (m : SimTrackMatchManager) (s : State) (i : Int) (F : FloatField)
    (h1 : F ≠ .pt) (h2 : F ≠ .phi) (h3 : F ≠ .eta) :
    ((initStation m s i).etrk_ i).float_ F = (s.etrk_ i).init.float_ F := by
  unfold initStation
  simp only [read_float_setC, read_float_setI, read_float_setF, h1, h2, h3, and_false,
    if_false]
  simp only [State.modify, upd, if_true]
/-! ### Passes as loops -/

/-- A loop keeps, from any earlier state on, the members its body keeps. -/
theorem foldl_keeps_from {α : Type} {C : List CharField} {I : List IntField}
    {R : List FloatField} (f : State → α → State)
    (h : ∀ s x s0, Keeps C I R s0 s → Keeps C I R s0 (f s x)) (l : List α) (s : State)
    {s0 : State} (h0 : Keeps C I R s0 s) : Keeps C I R s0 (l.foldl f s) :=
  h0.trans (foldl_keeps f (fun s x => h s x s (Keeps.refl C I R s)) l s)

/-- The sim-hit pt-assignment block keeps every member but `pt_position_sh`. -/
theorem ptAssignSh_keeps {C : List CharField} {I : List IntField} {R : List FloatField}
    (hR : FloatField.pt_position_sh ∉ R) (x : Externals) (s : State)
    {s0 : State} (h0 : Keeps C I R s0 s) : Keeps C I R s0 (ptAssignSh x s) := by
  unfold ptAssignSh
  exact ptAssignBlock_keeps x _ _ _ _ _ hR s h0

/-- The stub pt-assignment block keeps every member but `pt_position`. -/
theorem ptAssignLct_keeps {C : List CharField} {I : List IntField} {R : List FloatField}
    (hR : FloatField.pt_position ∉ R) (x : Externals) (s : State)
    {s0 : State} (h0 : Keeps C I R s0 s) : Keeps C I R s0 (ptAssignLct x s) := by
  unfold ptAssignLct
  exact ptAssignBlock_keeps x _ _ _ _ _ hR s h0

/-- The strip and wire masks of the detector-id passes: after the sim-hit pass both masks
of a configured record are 0, the strip pass leaves the wire mask alone, and the passes
after the wire pass leave both masks alone. -/
theorem aggregate_masks (a : GEMCSCAnalyzer) (m : SimTrackMatchManager) (x : Externals)
    (etrk : Int → MyTrackEff) (st : Int) (hst : st ∈ a.stations_to_use_) :
    ∃ s2 : State,
      (s2.etrk_ st).char_ .has_csc_strips = 0 ∧ (s2.etrk_ st).char_ .has_csc_wires = 0 ∧
      (((m.chamberIdsStrip.foldl (cscStripStep a m) s2).etrk_ st).char_ .has_csc_wires
        = (s2.etrk_ st).char_ .has_csc_wires) ∧
      (((aggregate a m x etrk).etrk_ st).char_ .has_csc_strips
        = ((m.chamberIdsStrip.foldl (cscStripStep a m) s2).etrk_ st).char_ .has_csc_strips) ∧
      (((aggregate a m x etrk).etrk_ st).char_ .has_csc_wires
        = ((m.chamberIdsWire.foldl (cscWireStep a m)
            (m.chamberIdsStrip.foldl (cscStripStep a m) s2)).etrk_ st).char_ .has_csc_wires) := by
  refine ⟨m.chamberIdsCSC.foldl (cscSimHitStep a m)
    (a.stations_to_use_.foldl (initStation m) (State.entry etrk)), ?_, ?_, ?_, ?_, ?_⟩
  · have k : Keeps [CharField.has_csc_strips] [] []
        (a.stations_to_use_.foldl (initStation m) (State.entry etrk))
        (m.chamberIdsCSC.foldl (cscSimHitStep a m)
          (a.stations_to_use_.foldl (initStation m) (State.entry etrk))) :=
      foldl_keeps _ (fun s id => cscSimHitStep_keeps (by decide) (by decide) (by decide)
        a m s id (Keeps.refl _ _ _ _)) _ _
    rw [(k st).1 _ (List.mem_singleton_self _),
      (initLoop_record m _ _ (State.entry etrk) st).1 hst,
      initStation_char m _ st _ (by decide) (by decide)]
    exact (by with_unfolding_all rfl)
  · have k : Keeps [CharField.has_csc_wires] [] []
        (a.stations_to_use_.foldl (initStation m) (State.entry etrk))
        (m.chamberIdsCSC.foldl (cscSimHitStep a m)
          (a.stations_to_use_.foldl (initStation m) (State.entry etrk))) :=
      foldl_keeps _ (fun s id => cscSimHitStep_keeps (by decide) (by decide) (by decide)
        a m s id (Keeps.refl _ _ _ _)) _ _
    rw [(k st).1 _ (List.mem_singleton_self _),
      (initLoop_record m _ _ (State.entry etrk) st).1 hst,
      initStation_char m _ st _ (by decide) (by decide)]
    exact (by with_unfolding_all rfl)
  · have k : Keeps [CharField.has_csc_wires] [] []
        (m.chamberIdsCSC.foldl (cscSimHitStep a m)
          (a.stations_to_use_.foldl (initStation m) (State.entry etrk)))
        (m.chamberIdsStrip.foldl (cscStripStep a m) (m.chamberIdsCSC.foldl (cscSimHitStep a m)
          (a.stations_to_use_.foldl (initStation m) (State.entry etrk)))) :=
      foldl_keeps _ (fun s id => cscStripStep_keeps (by decide) (by decide)
        a m s id (Keeps.refl _ _ _ _)) _ _
    exact (k st).1 _ (List.mem_singleton_self _)
  · have k : Keeps [CharField.has_csc_strips] [] []
        (m.chamberIdsStrip.foldl (cscStripStep a m) (m.chamberIdsCSC.foldl (cscSimHitStep a m)
          (a.stations_to_use_.foldl (initStation m) (State.entry etrk))))
        (aggregate a m x etrk) := by
      unfold aggregate
      simp only []
      refine foldl_keeps_from _ (fun s id _ h =>
        gemCoPadStep_keeps (by decide) (by decide) a m s id h) _ _ ?_
      refine foldl_keeps_from _ (fun s id _ h =>
        gemDigiStepME11_keeps (by decide) (by decide) (by decide) a m x s id h) _ _ ?_
      refine foldl_keeps_from _ (fun s id _ h =>
        gemDigiStep_keeps (by decide) (by decide) (by decide) a m x s id h) _ _ ?_
      refine foldl_keeps_from _ (fun s id _ h =>
        gemSimHitStep_keeps (by decide) (by decide) a m x s id h) _ _ ?_
      refine ptAssignLct_keeps (by decide) x _ ?_
      refine ptAssignSh_keeps (by decide) x _ ?_
      refine foldl_keeps_from _ (fun s id _ h =>
        cscLCTStep_keeps (by decide) (by decide) (by decide) a m s id h) _ _ ?_
      refine foldl_keeps_from _ (fun s i _ h => lctHolderStep_keeps s i h) _ _ ?_
      refine foldl_keeps_from _ (fun s id _ h =>
        cscALCTStep_keeps (by decide) (by decide) a m s id h) _ _ ?_
      refine foldl_keeps_from _ (fun s id _ h =>
        cscCLCTStep_keeps (by decide) (by decide) a m s id h) _ _ ?_
      refine foldl_keeps_from _ (fun s id _ h =>
        cscWireStep_keeps (by decide) (by decide) a m s id h) _ _ ?_
      exact Keeps.refl _ _ _ _
    exact (k st).1 _ (List.mem_singleton_self _)
  · have k : Keeps [CharField.has_csc_wires] [] []
        (m.chamberIdsWire.foldl (cscWireStep a m)
          (m.chamberIdsStrip.foldl (cscStripStep a m) (m.chamberIdsCSC.foldl (cscSimHitStep a m)
            (a.stations_to_use_.foldl (initStation m) (State.entry etrk)))))
        (aggregate a m x etrk) := by
      unfold aggregate
      simp only []
      refine foldl_keeps_from _ (fun s id _ h =>
        gemCoPadStep_keeps (by decide) (by decide) a m s id h) _ _ ?_
      refine foldl_keeps_from _ (fun s id _ h =>
        gemDigiStepME11_keeps (by decide) (by decide) (by decide) a m x s id h) _ _ ?_
      refine foldl_keeps_from _ (fun s id _ h =>
        gemDigiStep_keeps (by decide) (by decide) (by decide) a m x s id h) _ _ ?_
      refine foldl_keeps_from _ (fun s id _ h =>
        gemSimHitStep_keeps (by decide) (by decide) a m x s id h) _ _ ?_
      refine ptAssignLct_keeps (by decide) x _ ?_
      refine ptAssignSh_keeps (by decide) x _ ?_
      refine foldl_keeps_from _ (fun s id _ h =>
        cscLCTStep_keeps (by decide) (by decide) (by decide) a m s id h) _ _ ?_
      refine foldl_keeps_from _ (fun s i _ h => lctHolderStep_keeps s i h) _ _ ?_
      refine foldl_keeps_from _ (fun s id _ h =>
        cscALCTStep_keeps (by decide) (by decide) a m s id h) _ _ ?_
      refine foldl_keeps_from _ (fun s id _ h =>
        cscCLCTStep_keeps (by decide) (by decide) a m s id h) _ _ ?_
      exact Keeps.refl _ _ _ _
    exact (k st).1 _ (List.mem_singleton_self _)

/-- For a chamber number that is not negative, the C++ remainder by 2 is the parity. -/
theorem cmod_two (c : Int) (h : 0 ≤ c) : cmod c 2 = c % 2 := by
  unfold cmod
  exact Int.tmod_eq_emod h (by decide)

/-- The bits of a mask built by a loop that starts from 0, in the words of the gate. -/
theorem mask_bits_of_fold {α : Type} (f : State → α → State) (g : State → Int)
    (chamber : α → Int) (res : α → Int) (n : α → Int) (st min : Int)
    (hf : ∀ s x, g (f s x)
      = if (decide (res x = st) && decide (min ≤ n x)) = true
        then Int.lor (g s) (if decide (cmod (chamber x) 2 = 1) = true then 1 else 2)
        else g s)
    (l : List α) (s : State) (h0 : g s = 0) (hc : ∀ x ∈ l, 0 ≤ chamber x) :
    g (l.foldl f s) ∈ [0, 1, 2, 3] ∧
    (Int.land (g (l.foldl f s)) 1 = 1 ↔
      ∃ x ∈ l, res x = st ∧ chamber x % 2 = 1 ∧ min ≤ n x) ∧
    (Int.land (g (l.foldl f s)) 2 = 2 ↔
      ∃ x ∈ l, res x = st ∧ chamber x % 2 = 0 ∧ min ≤ n x) := by
  obtain ⟨r1, r2, r3⟩ := mask_foldl f g (fun x => decide (res x = st) && decide (min ≤ n x))
    (fun x => decide (cmod (chamber x) 2 = 1)) hf l s (Or.inl h0)
  refine ⟨?_, ?_, ?_⟩
  · simp only [List.mem_cons, List.mem_singleton, List.not_mem_nil, or_false]
    exact r1
  · rw [r2, h0]
    constructor
    · rintro (h | ⟨x, hx, hp, ho⟩)
      · exact absurd h (by decide)
      · simp only [Bool.and_eq_true, decide_eq_true_eq] at hp ho
        rw [cmod_two _ (hc x hx)] at ho
        exact ⟨x, hx, hp.1, ho, hp.2⟩
    · rintro ⟨x, hx, h1, h2, h3⟩
      refine Or.inr ⟨x, hx, ?_, ?_⟩
      · simp only [Bool.and_eq_true, decide_eq_true_eq]
        exact ⟨h1, h3⟩
      · simp only [decide_eq_true_eq]
        rw [cmod_two _ (hc x hx)]
        exact h2
  · rw [r3, h0]
    constructor
    · rintro (h | ⟨x, hx, hp, ho⟩)
      · exact absurd h (by decide)
      · simp only [Bool.and_eq_true, decide_eq_true_eq, decide_eq_false_iff_not] at hp ho
        rw [cmod_two _ (hc x hx)] at ho
        exact ⟨x, hx, hp.1, by omega, hp.2⟩
    · rintro ⟨x, hx, h1, h2, h3⟩
      refine Or.inr ⟨x, hx, ?_, ?_⟩
      · simp only [Bool.and_eq_true, decide_eq_true_eq]
        exact ⟨h1, h3⟩
      · simp only [decide_eq_false_iff_not]
        rw [cmod_two _ (hc x hx)]
        omega

/-- C16. Presence bitmask encoding with the layer gate: on well-formed matcher data
`analyzeTrackEff` completes, and for every configured station `st >= 2` the mask
`has_csc_strips` of record `st` is in 0..3, its bit 0 is set iff some strip-digi chamber id
resolving to `st` has an odd chamber number and at least `minNHitsChamberCSCStripDigi_`
layers with strips, and its bit 1 is set iff the same holds for an even chamber number;
likewise for `has_csc_wires` with the wire-digi ids and threshold. Chamber numbers are not
negative. -/
theorem strip_wire_mask_encoding (a : GEMCSCAnalyzer) (m : SimTrackMatchManager)
    (x : Externals) (etrk : Int → MyTrackEff) (st : Int) (hwf : WellFormed a m)
    (hst : st ∈ a.stations_to_use_) (h2 : 2 ≤ st)
    (hs : ∀ id ∈ m.chamberIdsStrip, 0 ≤ id.chamber)
    (hw : ∀ id ∈ m.chamberIdsWire, 0 ≤ id.chamber) :
    ∃ s, analyzeTrackEff a m x etrk = Except.ok s ∧
      ((s.etrk_ st).char_ .has_csc_strips ∈ [0, 1, 2, 3] ∧
        (Int.land ((s.etrk_ st).char_ .has_csc_strips) 1 = 1 ↔
          ∃ id ∈ m.chamberIdsStrip, detIdToMEStation id.station id.ring = st ∧
            id.chamber % 2 = 1 ∧
            a.minNHitsChamberCSCStripDigi_ ≤ m.nLayersWithStripInChamber id.rawId) ∧
        (Int.land ((s.etrk_ st).char_ .has_csc_strips) 2 = 2 ↔
          ∃ id ∈ m.chamberIdsStrip, detIdToMEStation id.station id.ring = st ∧
            id.chamber % 2 = 0 ∧
            a.minNHitsChamberCSCStripDigi_ ≤ m.nLayersWithStripInChamber id.rawId)) ∧
      ((s.etrk_ st).char_ .has_csc_wires ∈ [0, 1, 2, 3] ∧
        (Int.land ((s.etrk_ st).char_ .has_csc_wires) 1 = 1 ↔
          ∃ id ∈ m.chamberIdsWire, detIdToMEStation id.station id.ring = st ∧
            id.chamber % 2 = 1 ∧
            a.minNHitsChamberCSCWireDigi_ ≤ m.nLayersWithWireInChamber id.rawId) ∧
        (Int.land ((s.etrk_ st).char_ .has_csc_wires) 2 = 2 ↔
          ∃ id ∈ m.chamberIdsWire, detIdToMEStation id.station id.ring = st ∧
            id.chamber % 2 = 0 ∧
            a.minNHitsChamberCSCWireDigi_ ≤ m.nLayersWithWireInChamber id.rawId)) := by
  obtain ⟨t, ht⟩ := analyzeTrackEff_ok a m x etrk hwf
  have kT : Keeps [CharField.has_csc_strips, CharField.has_csc_wires] [] []
      (aggregate a m x etrk) t :=
    analyzeTrackEff_keeps (by decide) (by decide) (by decide) (by decide) (by decide)
      a m x etrk t ht
  obtain ⟨s2, z1, z2, e1, e2, e3⟩ := aggregate_masks a m x etrk st hst
  refine ⟨t, ht, ?_, ?_⟩
  · rw [(kT st).1 _ (by decide), e2]
    exact mask_bits_of_fold (cscStripStep a m) (fun s => (s.etrk_ st).char_ .has_csc_strips)
      (fun id => id.chamber) (fun id => detIdToMEStation id.station id.ring)
      (fun id => m.nLayersWithStripInChamber id.rawId) st a.minNHitsChamberCSCStripDigi_
      (cscStripStep_mask a m st hst h2) m.chamberIdsStrip s2 z1 hs
  · rw [(kT st).1 _ (by decide), e3]
    exact mask_bits_of_fold (cscWireStep a m) (fun s => (s.etrk_ st).char_ .has_csc_wires)
      (fun id => id.chamber) (fun id => detIdToMEStation id.station id.ring)
      (fun id => m.nLayersWithWireInChamber id.rawId) st a.minNHitsChamberCSCWireDigi_
      (cscWireStep_mask a m st hst h2) m.chamberIdsWire _ (e1.trans z2) hw
/-- An even ME2/1 chamber with exactly four strip and wire layers: bit 1 of both masks of
record 6 is set. -/
theorem strip_wire_mask_encoding_witness :
    WellFormed selectorConfig matchExactlyMin ∧ (6 : Int) ∈ selectorConfig.stations_to_use_ ∧
    ∃ s, analyzeTrackEff selectorConfig matchExactlyMin sampleExternals freshRecords
        = Except.ok s ∧
      Int.land ((s.etrk_ 6).char_ .has_csc_strips) 2 = 2 ∧
      Int.land ((s.etrk_ 6).char_ .has_csc_wires) 2 = 2 := by
  have hw : WellFormed selectorConfig matchExactlyMin :=
    ⟨by decide, by decide, by decide, fun h => absurd rfl h⟩
  refine ⟨hw, by decide, ?_⟩
  obtain ⟨s, e, ⟨_, _, b1⟩, ⟨_, _, b2⟩⟩ := strip_wire_mask_encoding selectorConfig
    matchExactlyMin sampleExternals freshRecords 6 hw (by decide) (by decide)
    (by decide) (by decide)
  exact ⟨s, e, b1.mpr ⟨me21Even, by decide, by decide, by decide, by decide⟩,
    b2.mpr ⟨me21Even, by decide, by decide, by decide, by decide⟩⟩
end GEMCode
